import Mathlib

/-!
Actor attributes and equipment derivation (global_actors.cpp).

A shallow embedding of the actor code of `src/common/global/global_actors.cpp`:
attack points, the hit/skill point pools, the character's equipment, the
aggregation of equipment status effects, the rebuilding of the available skills,
the experience growth of a character, the copying of an actor, and the
initialisation and the drops of an enemy.

Conventions of the embedding.

* `uint32` values are natural numbers; every operation that stores into a
  `uint32` reduces modulo `2^32` explicitly.
* `float` values are elements of an abstract carrier `fm.F` of a `FloatModel`.
  The arithmetic operations and the conversions from and to integers are
  fields of the model, so nothing is assumed about rounding.  The carrier holds
  numbers only (no NaN), hence `a > b` is the negation of `a <= b`.
* A C++ object mutated in place becomes a function from the old record to the
  new record; a function that also returns a value returns a pair.
* Calls into the Lua status effect handlers are recorded in a list of
  `PassiveCall`s, in call order.
-/

namespace ValyriaTear

/-! ## Machine integers -/

/-- Number of values of a 32-bit unsigned integer. -/
def UINT32_SIZE : Nat := 4294967296

/-- Largest 32-bit unsigned integer, the literal 0xFFFFFFFF of the source. -/
def UINT32_MAX : Nat := 0xFFFFFFFF

/-- Conversion of a signed intermediate result to uint32 (reduction modulo 2^32). -/
def wrap32 (z : Int) : Nat := (z % 4294967296).toNat

/-- Conversion of an intermediate result to int32 (two's complement wrap). -/
def wrapInt32 (z : Int) : Int := (z + 2147483648) % 4294967296 - 2147483648

/-! ## Floating point numbers -/

/-- An implementation of the C++ float type: a carrier with the operations the
actor code uses.  Conversions to integers return the converted number; the
code that stores it reduces it to the width of the destination. -/
structure FloatModel where
  /-- The float values. -/
  F : Type
  /-- Conversion uint32 to float. -/
  ofUInt32 : Nat → F
  /-- Conversion int32 to float; also used for the literals such as -1.0f. -/
  ofInt32 : Int → F
  /-- Float addition. -/
  add : F → F → F
  /-- Float subtraction. -/
  sub : F → F → F
  /-- Float multiplication. -/
  mul : F → F → F
  /-- Float division. -/
  div : F → F → F
  /-- Comparison a <= b. -/
  le : F → F → Bool
  /-- Conversion float to int32 (static_cast<int32>). -/
  toInt32 : F → Int
  /-- Conversion float to uint32. -/
  toUInt32 : F → Nat

namespace FloatModel

/-- Comparison a > b on numbers. -/
def gt (fm : FloatModel) (a b : fm.F) : Bool := !fm.le a b

/-- Comparison a < b on numbers. -/
def lt (fm : FloatModel) (a b : fm.F) : Bool := !fm.le b a

/-- A float stored into a uint32 variable. -/
def toU32 (fm : FloatModel) (x : fm.F) : Nat := fm.toUInt32 x % UINT32_SIZE

end FloatModel

/-- The floats that are integers, with exact arithmetic: the float operations
agree with it on integers of small magnitude.  Division truncates. -/
@[reducible]
def exactFloat : FloatModel where
  F := Int
  ofUInt32 := fun n => (n : Int)
  ofInt32 := fun z => z
  add := fun a b => a + b
  sub := fun a b => a - b
  mul := fun a b => a * b
  div := fun a b => a / b
  le := fun a b => decide (a ≤ b)
  toInt32 := fun a => a
  toUInt32 := fun a => a.toNat

/-! ## Enumerations of global_utils.h -/

/-- Number of elemental types, GLOBAL_ELEMENTAL_TOTAL. -/
def GLOBAL_ELEMENTAL_TOTAL : Nat := 7

/-- Number of status types, GLOBAL_STATUS_TOTAL. -/
def GLOBAL_STATUS_TOTAL : Nat := 16

/-- Status type GLOBAL_STATUS_STRENGTH. -/
def GLOBAL_STATUS_STRENGTH : Nat := 0

/-- Intensity GLOBAL_INTENSITY_NEG_EXTREME. -/
def GLOBAL_INTENSITY_NEG_EXTREME : Int := -4

/-- Intensity GLOBAL_INTENSITY_NEUTRAL. -/
def GLOBAL_INTENSITY_NEUTRAL : Int := 0

/-- Intensity GLOBAL_INTENSITY_POS_EXTREME. -/
def GLOBAL_INTENSITY_POS_EXTREME : Int := 4

/-- Element GLOBAL_ELEMENTAL_INVALID. -/
def GLOBAL_ELEMENTAL_INVALID : Int := -1

/-- Element GLOBAL_ELEMENTAL_NEUTRAL. -/
def GLOBAL_ELEMENTAL_NEUTRAL : Int := 6

/-- Skill types, enum GLOBAL_SKILL. -/
inductive GLOBAL_SKILL where
  | GLOBAL_SKILL_INVALID
  | GLOBAL_SKILL_WEAPON
  | GLOBAL_SKILL_MAGIC
  | GLOBAL_SKILL_SPECIAL
  | GLOBAL_SKILL_BARE_HANDS
  | GLOBAL_SKILL_TOTAL
  deriving DecidableEq, Repr

/-! ## Data model -/

/-- Modelled from the spec: the class GlobalStat is declared in global_actors.h,
which is not part of the sources; the spec gives a StatAttribute as a base
and an additive modifier. -/
structure GlobalStat (fm : FloatModel) where
  /-- The base value. -/
  base : fm.F
  /-- The modifier. -/
  modifier : fm.F

/-- Modelled from the spec: the effective value of a StatAttribute is
base + modifier. -/
def GlobalStat.GetValue {fm : FloatModel} (s : GlobalStat fm) : fm.F :=
  fm.add s.base s.modifier

/-- SetBase of a stat. -/
def GlobalStat.SetBase {fm : FloatModel} (s : GlobalStat fm) (value : fm.F) : GlobalStat fm :=
  { s with base := value }

/-- The skill object: its id and its type.  The class is declared in
global_skills.h, which is not part of the sources; the actor code calls
GetID, GetType and IsValid only. -/
structure GlobalSkill where
  /-- The skill id. -/
  id : Nat
  /-- The skill type. -/
  type : GLOBAL_SKILL
  deriving DecidableEq, Repr

/-- The skill definitions the GlobalSkill constructor loads from: whether the
skill of an id loads (IsValid) and the type it declares (GetType). -/
structure SkillData where
  /-- Whether the skill of this id loads. -/
  IsValid : Nat → Bool
  /-- The type the skill of this id declares. -/
  GetType : Nat → GLOBAL_SKILL

/-- The part of a GlobalArmor that the actor code reads, one field per
accessor.  The class is declared in global_objects.h, which is not part of the
sources. -/
structure GlobalArmor where
  /-- GetObjectType, as the enum value. -/
  object_type : Int
  /-- GetPhysicalDefense. -/
  physical_defense : Nat
  /-- GetMagicalDefense. -/
  magical_defense : Nat
  /-- GetStatusEffects: pairs of status type and intensity. -/
  status_effects : List (Nat × Int)
  /-- GetEquipmentSkills. -/
  equipment_skills : List Nat
  deriving DecidableEq, Repr

/-- The part of a GlobalWeapon that the actor code reads, one field per
accessor.  The class is declared in global_objects.h, which is not part of the
sources. -/
structure GlobalWeapon where
  /-- GetPhysicalAttack. -/
  physical_attack : Nat
  /-- GetMagicalAttack. -/
  magical_attack : Nat
  /-- GetStatusEffects: pairs of status type and intensity. -/
  status_effects : List (Nat × Int)
  /-- GetEquipmentSkills. -/
  equipment_skills : List Nat
  deriving DecidableEq, Repr

/-- An attack point.  The back pointer to the owner is not stored: the owner
is passed to the operations that read it. -/
structure GlobalAttackPoint (fm : FloatModel) where
  /-- Field _fortitude_modifier. -/
  fortitude_modifier : fm.F
  /-- Field _protection_modifier. -/
  protection_modifier : fm.F
  /-- Field _evade_modifier. -/
  evade_modifier : fm.F
  /-- Field _total_physical_defense. -/
  total_physical_defense : Nat
  /-- Field _total_magical_defense, one entry per element. -/
  total_magical_defense : List Nat
  /-- Field _total_evade_rating. -/
  total_evade_rating : fm.F

/-- The members of GlobalActor. -/
structure GlobalActor (fm : FloatModel) where
  /-- Field _id. -/
  id : Nat
  /-- Field _experience_points. -/
  experience_points : Nat
  /-- Field _hit_points. -/
  hit_points : Nat
  /-- Field _max_hit_points. -/
  max_hit_points : Nat
  /-- Field _skill_points. -/
  skill_points : Nat
  /-- Field _max_skill_points. -/
  max_skill_points : Nat
  /-- Field _strength. -/
  strength : GlobalStat fm
  /-- Field _vigor. -/
  vigor : GlobalStat fm
  /-- Field _fortitude. -/
  fortitude : GlobalStat fm
  /-- Field _protection. -/
  protection : GlobalStat fm
  /-- Field _agility. -/
  agility : GlobalStat fm
  /-- Field _evade. -/
  evade : GlobalStat fm
  /-- Field _elemental_modifier. -/
  elemental_modifier : List fm.F
  /-- Field _attack_points. -/
  attack_points : List (GlobalAttackPoint fm)
  /-- Field _total_physical_attack. -/
  total_physical_attack : Nat
  /-- Field _total_magical_attack, one entry per element. -/
  total_magical_attack : List Nat
  /-- Field _skills. -/
  skills : List GlobalSkill
  /-- Field _skills_id. -/
  skills_id : List Nat

/-- Modelled from the spec: the accessor GetTotalMagicalDefense of an attack
point is declared in global_actors.h, which is not part of the sources; it is
the cached magical defense of the element. -/
def GlobalAttackPoint.GetTotalMagicalDefense {fm : FloatModel} (ap : GlobalAttackPoint fm)
    (element : Nat) : Nat :=
  ap.total_magical_defense.getD element 0

namespace GlobalActor

variable {fm : FloatModel}

/-- Modelled from the spec: the accessor GetFortitude is declared in
global_actors.h, which is not part of the sources; it is owner.fortitude.value,
as the uint32 to which CalculateTotalDefense adds an int32. -/
def GetFortitude (a : GlobalActor fm) : Nat := fm.toU32 a.fortitude.GetValue

/-- Modelled from the spec: the accessor GetProtection is declared in
global_actors.h, which is not part of the sources; it is owner.protection.value,
as the uint32 to which CalculateTotalDefense adds an int32. -/
def GetProtection (a : GlobalActor fm) : Nat := fm.toU32 a.protection.GetValue

/-- Modelled from the spec: the accessor GetElementalModifier is declared in
global_actors.h, which is not part of the sources; it is the entry of the
elemental profile, which the constructors size to 7 entries of 1.0f. -/
def GetElementalModifier (a : GlobalActor fm) (element : Nat) : fm.F :=
  a.elemental_modifier.getD element (fm.ofInt32 1)

/-- Modelled from the spec: the accessor GetEvade is declared in
global_actors.h, which is not part of the sources; it is owner.evade.value, a
float. -/
def GetEvade (a : GlobalActor fm) : fm.F := a.evade.GetValue

/-- HasSkill: linear search of the skill id list. -/
def HasSkill (a : GlobalActor fm) (skill_id : Nat) : Bool :=
  a.skills_id.any (fun x => x == skill_id)

/-- AddHitPoints: saturating addition, then clamping to the maximum. -/
def AddHitPoints (a : GlobalActor fm) (amount : Nat) : GlobalActor fm :=
  let hp := if UINT32_MAX - amount < a.hit_points then UINT32_MAX
            else (a.hit_points + amount) % UINT32_SIZE
  { a with hit_points := if hp > a.max_hit_points then a.max_hit_points else hp }

/-- AddSkillPoints: saturating addition, then clamping to the maximum. -/
def AddSkillPoints (a : GlobalActor fm) (amount : Nat) : GlobalActor fm :=
  let sp := if UINT32_MAX - amount < a.skill_points then UINT32_MAX
            else (a.skill_points + amount) % UINT32_SIZE
  { a with skill_points := if sp > a.max_skill_points then a.max_skill_points else sp }

/-- SubtractHitPoints: subtraction that stops at zero. -/
def SubtractHitPoints (a : GlobalActor fm) (amount : Nat) : GlobalActor fm :=
  if amount ≥ a.hit_points then { a with hit_points := 0 }
  else { a with hit_points := a.hit_points - amount }

/-- AddMaxHitPoints: saturating addition to the maximum. -/
def AddMaxHitPoints (a : GlobalActor fm) (amount : Nat) : GlobalActor fm :=
  if UINT32_MAX - amount < a.max_hit_points then { a with max_hit_points := UINT32_MAX }
  else { a with max_hit_points := (a.max_hit_points + amount) % UINT32_SIZE }

/-- SubtractMaxHitPoints: an amount above the maximum zeroes both values;
otherwise the hit points are clamped to the new maximum. -/
def SubtractMaxHitPoints (a : GlobalActor fm) (amount : Nat) : GlobalActor fm :=
  if amount > a.max_hit_points then { a with max_hit_points := 0, hit_points := 0 }
  else
    let a1 : GlobalActor fm := { a with max_hit_points := a.max_hit_points - amount }
    if a1.hit_points > a1.max_hit_points then { a1 with hit_points := a1.max_hit_points }
    else a1

/-- SubtractSkillPoints: subtraction that stops at zero. -/
def SubtractSkillPoints (a : GlobalActor fm) (amount : Nat) : GlobalActor fm :=
  if amount ≥ a.skill_points then { a with skill_points := 0 }
  else { a with skill_points := a.skill_points - amount }

/-- AddMaxSkillPoints: saturating addition to the maximum. -/
def AddMaxSkillPoints (a : GlobalActor fm) (amount : Nat) : GlobalActor fm :=
  if UINT32_MAX - amount < a.max_skill_points then { a with max_skill_points := UINT32_MAX }
  else { a with max_skill_points := (a.max_skill_points + amount) % UINT32_SIZE }

/-- SubtractMaxSkillPoints: an amount above the maximum zeroes both values;
otherwise the skill points are clamped to the new maximum. -/
def SubtractMaxSkillPoints (a : GlobalActor fm) (amount : Nat) : GlobalActor fm :=
  if amount > a.max_skill_points then { a with max_skill_points := 0, skill_points := 0 }
  else
    let a1 : GlobalActor fm := { a with max_skill_points := a.max_skill_points - amount }
    if a1.skill_points > a1.max_skill_points then { a1 with skill_points := a1.max_skill_points }
    else a1

/-- GetTotalPhysicalDefense(index): bounds check, then the cached total of the
attack point. -/
def GetTotalPhysicalDefense (a : GlobalActor fm) (index : Nat) : Nat :=
  if h : index ≥ a.attack_points.length then 0
  else (a.attack_points.get ⟨index, Nat.lt_of_not_ge h⟩).total_physical_defense

/-- GetTotalMagicalDefense(index, element): bounds check, then the element is
replaced by GLOBAL_ELEMENTAL_NEUTRAL when it is not one of the 7 elements.  The
element is the value of the enum, GLOBAL_ELEMENTAL_INVALID being -1. -/
def GetTotalMagicalDefense (a : GlobalActor fm) (index : Nat) (element : Int) : Nat :=
  if h : index ≥ a.attack_points.length then 0
  else
    let element1 : Int :=
      if element ≤ GLOBAL_ELEMENTAL_INVALID ∨ element ≥ (GLOBAL_ELEMENTAL_TOTAL : Int) then
        GLOBAL_ELEMENTAL_NEUTRAL
      else element
    (a.attack_points.get ⟨index, Nat.lt_of_not_ge h⟩).GetTotalMagicalDefense element1.toNat

/-- GetTotalEvadeRating(index): bounds check, then the cached rating of the
attack point. -/
def GetTotalEvadeRating (a : GlobalActor fm) (index : Nat) : fm.F :=
  if h : index ≥ a.attack_points.length then fm.ofInt32 0
  else (a.attack_points.get ⟨index, Nat.lt_of_not_ge h⟩).total_evade_rating

/-- GetAverageDefense: the physical defenses are summed in a uint32 and the
sum is divided by the number of attack points. -/
def GetAverageDefense (a : GlobalActor fm) : Nat :=
  if a.attack_points.isEmpty then 0
  else
    let phys_defense := a.attack_points.foldl
      (fun acc ap => (acc + ap.total_physical_defense) % UINT32_SIZE) 0
    phys_defense / a.attack_points.length

/-- GetAverageMagicalDefense(element): the magical defenses of the element are
summed in a uint32 and the sum is divided by the number of attack points. -/
def GetAverageMagicalDefense (a : GlobalActor fm) (element : Nat) : Nat :=
  if a.attack_points.isEmpty then 0
  else
    let mag_defense := a.attack_points.foldl
      (fun acc ap => (acc + ap.GetTotalMagicalDefense element) % UINT32_SIZE) 0
    mag_defense / a.attack_points.length

/-- The copy constructor GlobalActor(const GlobalActor &copy): the new actor.
Every member is copied; the attack points and the skills are copied one by one
into the new, empty vectors (each attack point then gets the new actor as
owner), and one skill id is pushed per skill.  The elemental modifiers and the
total magical attacks are copied entry by entry for the 7 elements. -/
def copyConstruct (copy : GlobalActor fm) : GlobalActor fm :=
  { id := copy.id,
    experience_points := copy.experience_points,
    hit_points := copy.hit_points,
    max_hit_points := copy.max_hit_points,
    skill_points := copy.skill_points,
    max_skill_points := copy.max_skill_points,
    strength := { base := copy.strength.base, modifier := copy.strength.modifier },
    vigor := { base := copy.vigor.base, modifier := copy.vigor.modifier },
    fortitude := { base := copy.fortitude.base, modifier := copy.fortitude.modifier },
    protection := { base := copy.protection.base, modifier := copy.protection.modifier },
    agility := { base := copy.agility.base, modifier := copy.agility.modifier },
    evade := { base := copy.evade.base, modifier := copy.evade.modifier },
    total_physical_attack := copy.total_physical_attack,
    total_magical_attack := (List.range GLOBAL_ELEMENTAL_TOTAL).map
      (fun i => copy.total_magical_attack.getD i 0),
    elemental_modifier := (List.range GLOBAL_ELEMENTAL_TOTAL).map
      (fun i => copy.elemental_modifier.getD i (fm.ofInt32 1)),
    attack_points := ([] : List (GlobalAttackPoint fm)) ++ copy.attack_points,
    skills := ([] : List GlobalSkill) ++ copy.skills,
    skills_id := ([] : List Nat) ++ copy.skills_id.take copy.skills.length }

/-- The loop over the attack points in operator=: iteration i pushes a copy of
_attack_points[i], the entry of the vector that is being extended (not of the
vector of the actor to copy).  Reading an entry outside the vector is not defined
in C++; the model then pushes nothing. -/
def assignAttackPoints (own : List (GlobalAttackPoint fm)) (count : Nat) :
    List (GlobalAttackPoint fm) :=
  (List.range count).foldl (fun acc i =>
    match acc[i]? with
    | some ap => acc ++ [ap]
    | none => acc) own

/-- The assignment GlobalActor::operator= for an actor distinct from the one
copied (the self-assignment returns at once): the actor assigned to, after the
call.  The members are copied as in the copy constructor, but the attack points
and the skills are pushed onto the vectors that the actor already has. -/
def operatorAssign (this copy : GlobalActor fm) : GlobalActor fm :=
  { id := copy.id,
    experience_points := copy.experience_points,
    hit_points := copy.hit_points,
    max_hit_points := copy.max_hit_points,
    skill_points := copy.skill_points,
    max_skill_points := copy.max_skill_points,
    strength := { base := copy.strength.base, modifier := copy.strength.modifier },
    vigor := { base := copy.vigor.base, modifier := copy.vigor.modifier },
    fortitude := { base := copy.fortitude.base, modifier := copy.fortitude.modifier },
    protection := { base := copy.protection.base, modifier := copy.protection.modifier },
    agility := { base := copy.agility.base, modifier := copy.agility.modifier },
    evade := { base := copy.evade.base, modifier := copy.evade.modifier },
    total_physical_attack := copy.total_physical_attack,
    total_magical_attack := (List.range GLOBAL_ELEMENTAL_TOTAL).map
      (fun i => copy.total_magical_attack.getD i 0),
    elemental_modifier := (List.range GLOBAL_ELEMENTAL_TOTAL).map
      (fun i => copy.elemental_modifier.getD i (fm.ofInt32 1)),
    attack_points := assignAttackPoints this.attack_points copy.attack_points.length,
    skills := this.skills ++ copy.skills,
    skills_id := this.skills_id ++ copy.skills_id.take copy.skills.length }

end GlobalActor

namespace GlobalAttackPoint

variable {fm : FloatModel}

/-- CalculateTotalDefense: the owner is the actor the back pointer refers to,
none for a null pointer; the armor is none for a null pointer. -/
def CalculateTotalDefense (ap : GlobalAttackPoint fm) (actor_owner : Option (GlobalActor fm))
    (equipped_armor : Option GlobalArmor) : GlobalAttackPoint fm :=
  match actor_owner with
  | none => ap
  | some owner =>
    let physical : Nat :=
      if fm.le ap.fortitude_modifier (fm.ofInt32 (-1)) then 0
      else wrap32 ((owner.GetFortitude : Int)
        + fm.toInt32 (fm.mul (fm.ofUInt32 owner.GetFortitude) ap.fortitude_modifier))
    let magical_base : Nat :=
      if fm.gt ap.protection_modifier (fm.ofInt32 (-1)) then
        wrap32 ((owner.GetProtection : Int)
          + fm.toInt32 (fm.mul (fm.ofUInt32 owner.GetProtection) ap.protection_modifier))
      else 0
    match equipped_armor with
    | some armor =>
      { ap with
        total_physical_defense := (physical + armor.physical_defense) % UINT32_SIZE
        total_magical_defense := (List.range GLOBAL_ELEMENTAL_TOTAL).map (fun i =>
          fm.toU32 (fm.mul (fm.ofUInt32 ((magical_base + armor.magical_defense) % UINT32_SIZE))
            (owner.GetElementalModifier i))) }
    | none =>
      { ap with
        total_physical_defense := physical
        total_magical_defense := (List.range GLOBAL_ELEMENTAL_TOTAL).map (fun i =>
          fm.toU32 (fm.mul (fm.ofUInt32 magical_base) (owner.GetElementalModifier i))) }

/-- CalculateTotalEvade: the owner is the actor the back pointer refers to,
none for a null pointer. -/
def CalculateTotalEvade (ap : GlobalAttackPoint fm) (actor_owner : Option (GlobalActor fm)) :
    GlobalAttackPoint fm :=
  match actor_owner with
  | none => ap
  | some owner =>
    if fm.le ap.evade_modifier (fm.ofInt32 (-1)) then
      { ap with total_evade_rating := fm.ofInt32 0 }
    else
      { ap with total_evade_rating :=
          fm.add owner.GetEvade (fm.mul owner.GetEvade ap.evade_modifier) }

end GlobalAttackPoint

namespace GlobalActor

variable {fm : FloatModel}

/-- AddAgility: the base of the stat grows; nothing is recomputed. -/
def AddAgility (a : GlobalActor fm) (amount : Nat) : GlobalActor fm :=
  { a with agility := a.agility.SetBase (fm.add a.agility.base (fm.ofUInt32 amount)) }

/-- SubtractAgility: the base of the stat shrinks, not below zero. -/
def SubtractAgility (a : GlobalActor fm) (amount : Nat) : GlobalActor fm :=
  let new_base := fm.sub a.agility.base (fm.ofUInt32 amount)
  { a with agility :=
      a.agility.SetBase (if fm.lt new_base (fm.ofInt32 0) then fm.ofInt32 0 else new_base) }

/-- GlobalActor::_CalculateEvadeRatings: every attack point of the actor, which
owns them, recomputes its evade rating. -/
def _CalculateEvadeRatings (a : GlobalActor fm) : GlobalActor fm :=
  { a with attack_points := a.attack_points.map (fun ap => ap.CalculateTotalEvade (some a)) }

/-- AddEvade: the base of the stat grows, not above 1.0, and the evade ratings
are recomputed. -/
def AddEvade (a : GlobalActor fm) (amount : fm.F) : GlobalActor fm :=
  let new_base := fm.add a.evade.base amount
  let a1 : GlobalActor fm :=
    { a with evade :=
        a.evade.SetBase (if fm.gt new_base (fm.ofInt32 1) then fm.ofInt32 1 else new_base) }
  a1._CalculateEvadeRatings

/-- SubtractEvade: the base of the stat shrinks, not below zero, and the evade
ratings are recomputed. -/
def SubtractEvade (a : GlobalActor fm) (amount : fm.F) : GlobalActor fm :=
  let new_base := fm.sub a.evade.base amount
  let a1 : GlobalActor fm :=
    { a with evade :=
        a.evade.SetBase (if fm.lt new_base (fm.ofInt32 0) then fm.ofInt32 0 else new_base) }
  a1._CalculateEvadeRatings

end GlobalActor

/-- The members GlobalCharacter adds to GlobalActor. -/
structure GlobalCharacter (fm : FloatModel) extends GlobalActor fm where
  /-- Field _experience_level. -/
  experience_level : Nat
  /-- Field _experience_for_next_level. -/
  experience_for_next_level : Int
  /-- Field _weapon_equipped, none for a null pointer. -/
  weapon_equipped : Option GlobalWeapon
  /-- Field _armor_equipped, one slot per body position, none for a null pointer. -/
  armor_equipped : List (Option GlobalArmor)
  /-- Field _permanent_skills. -/
  permanent_skills : List Nat
  /-- Field _weapon_skills. -/
  weapon_skills : List GlobalSkill
  /-- Field _magic_skills. -/
  magic_skills : List GlobalSkill
  /-- Field _special_skills. -/
  special_skills : List GlobalSkill
  /-- Field _bare_hands_skills. -/
  bare_hands_skills : List GlobalSkill
  /-- Field _new_skills_learned. -/
  new_skills_learned : List GlobalSkill
  /-- Field _equipment_status_effects, one intensity per status type. -/
  equipment_status_effects : List Int
  /-- Field _hit_points_growth, zero in a new character. -/
  hit_points_growth : Nat := 0
  /-- Field _skill_points_growth, zero in a new character. -/
  skill_points_growth : Nat := 0
  /-- Field _strength_growth, zero in a new character. -/
  strength_growth : Nat := 0
  /-- Field _vigor_growth, zero in a new character. -/
  vigor_growth : Nat := 0
  /-- Field _fortitude_growth, zero in a new character. -/
  fortitude_growth : Nat := 0
  /-- Field _protection_growth, zero in a new character. -/
  protection_growth : Nat := 0
  /-- Field _agility_growth, zero in a new character. -/
  agility_growth : Nat := 0
  /-- Field _evade_growth, zero in a new character. -/
  evade_growth : fm.F := fm.ofInt32 0

/-- The members GlobalEnemy adds to GlobalActor. -/
structure GlobalEnemy (fm : FloatModel) extends GlobalActor fm where
  /-- Field _no_stat_randomization. -/
  no_stat_randomization : Bool
  /-- Field _drunes_dropped. -/
  drunes_dropped : Nat
  /-- Field _skill_set. -/
  skill_set : List Nat
  /-- Field _dropped_objects. -/
  dropped_objects : List Nat
  /-- Field _dropped_chance. -/
  dropped_chance : List fm.F

/-! ## Equipment status effects -/

/-- A call into a status effect handler of the Lua script: the function of the
table of a status type, with the actor and, for ApplyPassive, the intensity. -/
inductive PassiveCall where
  | RemovePassive (status : Nat)
  | ApplyPassive (status : Nat) (intensity : Int)
  deriving DecidableEq, Repr

/-- The status type whose handler a call invokes. -/
def PassiveCall.status : PassiveCall → Nat
  | .RemovePassive s => s
  | .ApplyPassive s _ => s

/-- What the status effects script answers for the table of one status type. -/
structure StatusEffectTable where
  /-- DoesFunctionExist("RemovePassive"). -/
  has_remove_passive : Bool
  /-- Whether the RemovePassive function pointer is_valid. -/
  remove_passive_valid : Bool
  /-- DoesFunctionExist("ApplyPassive"). -/
  has_apply_passive : Bool
  /-- Whether the ApplyPassive function pointer is_valid. -/
  apply_passive_valid : Bool

/-- The status effects script: the table of a status type, none when OpenTable fails. -/
def StatusEffectsScript : Type := Nat → Option StatusEffectTable

/-- The bounds check and update of one intensity:
body of the inner loops of _UpdateEquipmentStatusEffects.  The status type
indexes the vector; the C++ code is only defined for an index inside it. -/
def addStatusIntensity (effects : List Int) (effect : Nat) (intensity : Int) : List Int :=
  if effects.getD effect 0 + intensity > GLOBAL_INTENSITY_POS_EXTREME then
    effects.set effect GLOBAL_INTENSITY_POS_EXTREME
  else if effects.getD effect 0 + intensity < GLOBAL_INTENSITY_NEG_EXTREME then
    effects.set effect GLOBAL_INTENSITY_NEG_EXTREME
  else
    effects.set effect (effects.getD effect 0 + intensity)

/-- The inner loop over the status effects of one piece of equipment. -/
def addItemStatusEffects (effects : List Int) (item_effects : List (Nat × Int)) : List Int :=
  item_effects.foldl (fun acc p => addStatusIntensity acc p.1 p.2) effects

/-- The loop over the armor slots; an empty slot is skipped. -/
def addArmorStatusEffects (effects : List Int) (armors : List (Option GlobalArmor)) : List Int :=
  armors.foldl (fun acc slot =>
    match slot with
    | none => acc
    | some armor => addItemStatusEffects acc armor.status_effects) effects

/-- The handler call made for status type i with its aggregated intensity:
body of the last loop of _UpdateEquipmentStatusEffects. -/
def passiveCallFor (script : StatusEffectsScript) (i : Nat) (intensity : Int) : List PassiveCall :=
  match script i with
  | none => []
  | some table =>
    if intensity = GLOBAL_INTENSITY_NEUTRAL then
      if !table.has_remove_passive then []
      else if !table.remove_passive_valid then []
      else [PassiveCall.RemovePassive i]
    else
      if !table.has_apply_passive then []
      else if !table.apply_passive_valid then []
      else [PassiveCall.ApplyPassive i intensity]

/-- The last loop of _UpdateEquipmentStatusEffects, from index i on, over the
intensities that remain. -/
def applyPassiveEffects (script : StatusEffectsScript) : Nat → List Int → List PassiveCall
  | _, [] => []
  | i, intensity :: rest =>
    passiveCallFor script i intensity ++ applyPassiveEffects script (i + 1) rest

/-- Modelled from the spec: what the Lua function DetermineLevelGrowth of the
external growth definition (dat/actors/characters.lua, not part of the
sources) sets on the character: the growth deltas of the level gained and the
experience needed for the next level. -/
structure LevelGrowth (fm : FloatModel) where
  /-- The value given to _hit_points_growth. -/
  hit_points_growth : Nat
  /-- The value given to _skill_points_growth. -/
  skill_points_growth : Nat
  /-- The value given to _strength_growth. -/
  strength_growth : Nat
  /-- The value given to _vigor_growth. -/
  vigor_growth : Nat
  /-- The value given to _fortitude_growth. -/
  fortitude_growth : Nat
  /-- The value given to _protection_growth. -/
  protection_growth : Nat
  /-- The value given to _agility_growth. -/
  agility_growth : Nat
  /-- The value given to _evade_growth. -/
  evade_growth : fm.F
  /-- The value given to _experience_for_next_level. -/
  experience_for_next_level : Int

/-- Modelled from the spec: the external growth-definition collaborator, called
once for the growth deltas and once for the newly learned skills, each call
being given the character. -/
structure GrowthScript (fm : FloatModel) where
  /-- Whether the character data file opens. -/
  OpenFile : Bool
  /-- The Lua function DetermineLevelGrowth. -/
  DetermineLevelGrowth : GlobalCharacter fm → LevelGrowth fm
  /-- The Lua function DetermineNewSkillsLearned: the ids it passes to
  AddNewSkillLearned, in order. -/
  DetermineNewSkillsLearned : GlobalCharacter fm → List Nat

namespace GlobalCharacter

variable {fm : FloatModel}

/-- The intensities after the reset and the loops over the weapon and the armors. -/
def aggregatedStatusEffects (c : GlobalCharacter fm) : List Int :=
  let reset := c.equipment_status_effects.map (fun _ => GLOBAL_INTENSITY_NEUTRAL)
  let with_weapon :=
    match c.weapon_equipped with
    | some weapon => addItemStatusEffects reset weapon.status_effects
    | none => reset
  addArmorStatusEffects with_weapon c.armor_equipped

/-- Function _UpdateEquipmentStatusEffects: the new character and the handler calls made. -/
def _UpdateEquipmentStatusEffects (script : StatusEffectsScript) (c : GlobalCharacter fm) :
    GlobalCharacter fm × List PassiveCall :=
  let effects := c.aggregatedStatusEffects
  ({ c with equipment_status_effects := effects }, applyPassiveEffects script 0 effects)

/-- GlobalCharacter::_CalculateAttackRatings. -/
def _CalculateAttackRatings (c : GlobalCharacter fm) : GlobalCharacter fm :=
  let physical := fm.toU32 c.strength.GetValue
  match c.weapon_equipped with
  | some weapon =>
    { c with
      total_physical_attack := (physical + weapon.physical_attack) % UINT32_SIZE
      total_magical_attack := (List.range GLOBAL_ELEMENTAL_TOTAL).map (fun i =>
        fm.toU32 (fm.mul (fm.add c.vigor.GetValue (fm.ofUInt32 weapon.magical_attack))
          (c.GetElementalModifier i))) }
  | none =>
    { c with
      total_physical_attack := physical
      total_magical_attack := (List.range GLOBAL_ELEMENTAL_TOTAL).map (fun i =>
        fm.toU32 (fm.mul c.vigor.GetValue (c.GetElementalModifier i))) }

/-- GlobalCharacter::AddSkill: the returned flag and the new character. -/
def AddSkill (sd : SkillData) (c : GlobalCharacter fm) (skill_id : Nat) (permanently : Bool) :
    Bool × GlobalCharacter fm :=
  if skill_id = 0 then (false, c)
  else if !sd.IsValid skill_id then (false, c)
  else if c.HasSkill skill_id then
    if permanently then
      if c.permanent_skills.any (fun x => x == skill_id) then (true, c)
      else (true, { c with permanent_skills := c.permanent_skills ++ [skill_id] })
    else (true, c)
  else
    let skill : GlobalSkill := { id := skill_id, type := sd.GetType skill_id }
    let bucketed : Option (GlobalCharacter fm) :=
      match sd.GetType skill_id with
      | .GLOBAL_SKILL_WEAPON => some { c with weapon_skills := c.weapon_skills ++ [skill] }
      | .GLOBAL_SKILL_MAGIC => some { c with magic_skills := c.magic_skills ++ [skill] }
      | .GLOBAL_SKILL_SPECIAL => some { c with special_skills := c.special_skills ++ [skill] }
      | .GLOBAL_SKILL_BARE_HANDS =>
        some { c with bare_hands_skills := c.bare_hands_skills ++ [skill] }
      | _ => none
    match bucketed with
    | none => (false, c)
    | some c1 =>
      let c2 := { c1 with skills_id := c1.skills_id ++ [skill_id], skills := c1.skills ++ [skill] }
      if permanently then
        (true, { c2 with permanent_skills := c2.permanent_skills ++ [skill_id] })
      else (true, c2)

/-- A loop calling AddSkill(id, false) for each id of a vector. -/
def addSkillsOf (sd : SkillData) (c : GlobalCharacter fm) (ids : List Nat) : GlobalCharacter fm :=
  ids.foldl (fun acc id => (AddSkill sd acc id false).2) c

/-- The loop over the armor slots of _UpdatesAvailableSkills; an empty slot is skipped. -/
def addArmorSkills (sd : SkillData) (c : GlobalCharacter fm)
    (armors : List (Option GlobalArmor)) : GlobalCharacter fm :=
  armors.foldl (fun acc slot =>
    match slot with
    | none => acc
    | some armor => addSkillsOf sd acc armor.equipment_skills) c

/-- The clear calls at the start of _UpdatesAvailableSkills. -/
def clearSkills (c : GlobalCharacter fm) : GlobalCharacter fm :=
  { c with skills := [], skills_id := [], bare_hands_skills := [], weapon_skills := [],
           magic_skills := [], special_skills := [] }

/-- The skills of the equipped weapon, when there is one. -/
def addWeaponSkills (sd : SkillData) (c : GlobalCharacter fm) : GlobalCharacter fm :=
  match c.weapon_equipped with
  | some weapon => addSkillsOf sd c weapon.equipment_skills
  | none => c

/-- Function _UpdatesAvailableSkills. -/
def _UpdatesAvailableSkills (sd : SkillData) (c : GlobalCharacter fm) : GlobalCharacter fm :=
  let cleared := c.clearSkills
  let with_permanent := addSkillsOf sd cleared cleared.permanent_skills
  let with_weapon := with_permanent.addWeaponSkills sd
  addArmorSkills sd with_weapon with_weapon.armor_equipped

/-- EquipWeapon: the weapon that was equipped, the new character and the
handler calls made. -/
def EquipWeapon (script : StatusEffectsScript) (sd : SkillData) (c : GlobalCharacter fm)
    (weapon : Option GlobalWeapon) : Option GlobalWeapon × GlobalCharacter fm × List PassiveCall :=
  let old_weapon := c.weapon_equipped
  let c1 : GlobalCharacter fm := { c with weapon_equipped := weapon }
  let updated := c1._UpdateEquipmentStatusEffects script
  let c3 := updated.1._CalculateAttackRatings
  let c4 := c3._UpdatesAvailableSkills sd
  (old_weapon, c4, updated.2)

/-- The call _attack_points[index]->CalculateTotalDefense(armor) of a
character, which owns its attack points.  The C++ code is only defined for
an index inside the vector. -/
def calculateDefenseOfPoint (c : GlobalCharacter fm) (index : Nat)
    (armor : Option GlobalArmor) : GlobalCharacter fm :=
  match c.attack_points[index]? with
  | some ap =>
    { c with attack_points :=
        c.attack_points.set index (ap.CalculateTotalDefense (some c.toGlobalActor) armor) }
  | none => c

/-- Function _EquipArmor: the returned armor, the new character and the handler
calls made.  The comparison of the object types only prints a warning. -/
def _EquipArmor (script : StatusEffectsScript) (sd : SkillData) (c : GlobalCharacter fm)
    (armor : Option GlobalArmor) (index : Nat) :
    Option GlobalArmor × GlobalCharacter fm × List PassiveCall :=
  if index ≥ c.armor_equipped.length then (armor, c, [])
  else
    let old_armor := c.armor_equipped.getD index none
    let c1 : GlobalCharacter fm := { c with armor_equipped := c.armor_equipped.set index armor }
    let updated := c1._UpdateEquipmentStatusEffects script
    let c2 := updated.1.calculateDefenseOfPoint index (updated.1.armor_equipped.getD index none)
    let c3 := c2._UpdatesAvailableSkills sd
    (old_armor, c3, updated.2)

/-- Modelled from the spec: the default value of the parameter permanently of
AddSkill is given in global_actors.h, which is not part of the sources; the
spec has AddSkill(skill_id, permanently=false). -/
def AddSkill_permanently_default : Bool := false

/-- AddNewSkillLearned: the returned flag and the new character.  The entry
pushed is _skills.back(); back() of an empty vector is not defined, and the
vector is not empty when AddSkill has returned true. -/
def AddNewSkillLearned (sd : SkillData) (c : GlobalCharacter fm) (skill_id : Nat) :
    Bool × GlobalCharacter fm :=
  if skill_id = 0 then (false, c)
  else if c.new_skills_learned.any (fun skill => skill_id == skill.id) then (false, c)
  else
    let added := c.AddSkill sd skill_id AddSkill_permanently_default
    if !added.1 then (true, added.2)
    else
      match added.2.skills.getLast? with
      | some last =>
        (true, { added.2 with new_skills_learned := added.2.new_skills_learned ++ [last] })
      | none => (true, added.2)

/-- A member function of GlobalActor called on a character. -/
def withActor (c : GlobalCharacter fm) (f : GlobalActor fm → GlobalActor fm) :
    GlobalCharacter fm :=
  { c with toGlobalActor := f c.toGlobalActor }

/-- The loop of GlobalCharacter::_CalculateDefenseRatings from the attack point
of index i on: the armor of the slot i is passed when the slot exists and holds
an armor.  The owner is the character. -/
def defenseRatingsFrom (owner : GlobalActor fm) (armors : List (Option GlobalArmor)) :
    Nat → List (GlobalAttackPoint fm) → List (GlobalAttackPoint fm)
  | _, [] => []
  | i, ap :: rest =>
    ap.CalculateTotalDefense (some owner) (armors.getD i none)
      :: defenseRatingsFrom owner armors (i + 1) rest

/-- GlobalCharacter::_CalculateDefenseRatings. -/
def _CalculateDefenseRatings (c : GlobalCharacter fm) : GlobalCharacter fm :=
  { c with attack_points :=
      defenseRatingsFrom c.toGlobalActor c.armor_equipped 0 c.attack_points }

/-- GlobalCharacter::AddStrength. -/
def AddStrength (c : GlobalCharacter fm) (amount : Nat) : GlobalCharacter fm :=
  let c1 : GlobalCharacter fm :=
    { c with strength := c.strength.SetBase (fm.add c.strength.base (fm.ofUInt32 amount)) }
  c1._CalculateAttackRatings

/-- GlobalCharacter::SubtractStrength. -/
def SubtractStrength (c : GlobalCharacter fm) (amount : Nat) : GlobalCharacter fm :=
  let new_base := fm.sub c.strength.base (fm.ofUInt32 amount)
  let c1 : GlobalCharacter fm :=
    { c with strength :=
        c.strength.SetBase (if fm.lt new_base (fm.ofInt32 0) then fm.ofInt32 0 else new_base) }
  c1._CalculateAttackRatings

/-- GlobalCharacter::AddVigor. -/
def AddVigor (c : GlobalCharacter fm) (amount : Nat) : GlobalCharacter fm :=
  let c1 : GlobalCharacter fm :=
    { c with vigor := c.vigor.SetBase (fm.add c.vigor.base (fm.ofUInt32 amount)) }
  c1._CalculateAttackRatings

/-- GlobalCharacter::SubtractVigor. -/
def SubtractVigor (c : GlobalCharacter fm) (amount : Nat) : GlobalCharacter fm :=
  let new_base := fm.sub c.vigor.base (fm.ofUInt32 amount)
  let c1 : GlobalCharacter fm :=
    { c with vigor :=
        c.vigor.SetBase (if fm.lt new_base (fm.ofInt32 0) then fm.ofInt32 0 else new_base) }
  c1._CalculateAttackRatings

/-- GlobalCharacter::AddFortitude. -/
def AddFortitude (c : GlobalCharacter fm) (amount : Nat) : GlobalCharacter fm :=
  let c1 : GlobalCharacter fm :=
    { c with fortitude := c.fortitude.SetBase (fm.add c.fortitude.base (fm.ofUInt32 amount)) }
  c1._CalculateDefenseRatings

/-- GlobalCharacter::SubtractFortitude. -/
def SubtractFortitude (c : GlobalCharacter fm) (amount : Nat) : GlobalCharacter fm :=
  let new_base := fm.sub c.fortitude.base (fm.ofUInt32 amount)
  let c1 : GlobalCharacter fm :=
    { c with fortitude :=
        c.fortitude.SetBase (if fm.lt new_base (fm.ofInt32 0) then fm.ofInt32 0 else new_base) }
  c1._CalculateDefenseRatings

/-- GlobalCharacter::AddProtection. -/
def AddProtection (c : GlobalCharacter fm) (amount : Nat) : GlobalCharacter fm :=
  let c1 : GlobalCharacter fm :=
    { c with protection :=
        c.protection.SetBase (fm.add c.protection.base (fm.ofUInt32 amount)) }
  c1._CalculateDefenseRatings

/-- GlobalCharacter::SubtractProtection. -/
def SubtractProtection (c : GlobalCharacter fm) (amount : Nat) : GlobalCharacter fm :=
  let new_base := fm.sub c.protection.base (fm.ofUInt32 amount)
  let floored := if fm.lt new_base (fm.ofInt32 0) then fm.ofInt32 0 else new_base
  let c1 : GlobalCharacter fm := { c with protection := c.protection.SetBase floored }
  c1._CalculateDefenseRatings

/-- AddAgility of GlobalActor, called on a character. -/
def AddAgility (c : GlobalCharacter fm) (amount : Nat) : GlobalCharacter fm :=
  c.withActor (fun a => a.AddAgility amount)

/-- SubtractAgility of GlobalActor, called on a character. -/
def SubtractAgility (c : GlobalCharacter fm) (amount : Nat) : GlobalCharacter fm :=
  c.withActor (fun a => a.SubtractAgility amount)

/-- AddEvade of GlobalActor, called on a character. -/
def AddEvade (c : GlobalCharacter fm) (amount : fm.F) : GlobalCharacter fm :=
  c.withActor (fun a => a.AddEvade amount)

/-- SubtractEvade of GlobalActor, called on a character. -/
def SubtractEvade (c : GlobalCharacter fm) (amount : fm.F) : GlobalCharacter fm :=
  c.withActor (fun a => a.SubtractEvade amount)

/-- Modelled from the spec: ReachedNewExperienceLevel is declared in
global_actors.h, which is not part of the sources; the threshold is crossed
when the points needed for the next level are <= 0. -/
def ReachedNewExperienceLevel (c : GlobalCharacter fm) : Bool :=
  decide (c.experience_for_next_level ≤ 0)

/-- AddExperiencePoints: the returned flag and the new character.  The
experience points are a uint32; the points needed for the next level are taken
to be an int32 (they are compared with 0 and read from a vector of int32), so
the subtraction of the uint32 amount wraps to the int32 range. -/
def AddExperiencePoints (c : GlobalCharacter fm) (xp : Nat) : Bool × GlobalCharacter fm :=
  let c1 : GlobalCharacter fm :=
    { c with experience_points := (c.experience_points + xp) % UINT32_SIZE,
             experience_for_next_level := wrapInt32 (c.experience_for_next_level - (xp : Int)) }
  (c1.ReachedNewExperienceLevel, c1)

/-- AcknowledgeGrowth, first part: the growth members are cleared and the growth
script sets them, with the experience needed for the next level. -/
def determineGrowth (script : GrowthScript fm) (c : GlobalCharacter fm) : GlobalCharacter fm :=
  let cleared : GlobalCharacter fm :=
    { c with hit_points_growth := 0, skill_points_growth := 0, strength_growth := 0,
             vigor_growth := 0, fortitude_growth := 0, protection_growth := 0,
             agility_growth := 0, evade_growth := fm.ofInt32 0 }
  let growth := script.DetermineLevelGrowth cleared
  { cleared with
    hit_points_growth := growth.hit_points_growth,
    skill_points_growth := growth.skill_points_growth,
    strength_growth := growth.strength_growth,
    vigor_growth := growth.vigor_growth,
    fortitude_growth := growth.fortitude_growth,
    protection_growth := growth.protection_growth,
    agility_growth := growth.agility_growth,
    evade_growth := growth.evade_growth,
    experience_for_next_level := growth.experience_for_next_level }

/-- AcknowledgeGrowth, second part: the list of newly learned skills is cleared
and the growth script adds the skills learned at this level. -/
def learnNewSkills (script : GrowthScript fm) (sd : SkillData) (c : GlobalCharacter fm) :
    GlobalCharacter fm :=
  let cleared : GlobalCharacter fm := { c with new_skills_learned := [] }
  (script.DetermineNewSkillsLearned cleared).foldl
    (fun acc id => (acc.AddNewSkillLearned sd id).2) cleared

/-- AcknowledgeGrowth, the hit point growth: the maximum grows, and the current
hit points grow only when they are above zero. -/
def applyHitPointsGrowth (c : GlobalCharacter fm) : GlobalCharacter fm :=
  if c.hit_points_growth ≠ 0 then
    let c1 := c.withActor (fun a => a.AddMaxHitPoints c.hit_points_growth)
    if c1.hit_points > 0 then c1.withActor (fun a => a.AddHitPoints c1.hit_points_growth)
    else c1
  else c

/-- AcknowledgeGrowth, the skill point growth: the maximum grows, and the current
skill points grow only when they are above zero. -/
def applySkillPointsGrowth (c : GlobalCharacter fm) : GlobalCharacter fm :=
  if c.skill_points_growth ≠ 0 then
    let c1 := c.withActor (fun a => a.AddMaxSkillPoints c.skill_points_growth)
    if c1.skill_points > 0 then c1.withActor (fun a => a.AddSkillPoints c1.skill_points_growth)
    else c1
  else c

/-- AcknowledgeGrowth, the growth of the six stats.  IsFloatEqual is a function
of the utils library, which is not part of the sources. -/
def applyStatGrowth (IsFloatEqual : fm.F → fm.F → Bool) (c : GlobalCharacter fm) :
    GlobalCharacter fm :=
  let c1 := if c.strength_growth ≠ 0 then c.AddStrength c.strength_growth else c
  let c2 := if c1.vigor_growth ≠ 0 then c1.AddVigor c1.vigor_growth else c1
  let c3 := if c2.fortitude_growth ≠ 0 then c2.AddFortitude c2.fortitude_growth else c2
  let c4 := if c3.protection_growth ≠ 0 then c3.AddProtection c3.protection_growth else c3
  let c5 := if c4.agility_growth ≠ 0 then c4.AddAgility c4.agility_growth else c4
  if !IsFloatEqual c5.evade_growth (fm.ofInt32 0) then c5.AddEvade c5.evade_growth else c5

/-- AcknowledgeGrowth. -/
def AcknowledgeGrowth (script : GrowthScript fm) (sd : SkillData)
    (IsFloatEqual : fm.F → fm.F → Bool) (c : GlobalCharacter fm) : GlobalCharacter fm :=
  if !c.ReachedNewExperienceLevel then c
  else
    let c1 : GlobalCharacter fm :=
      { c with experience_level := (c.experience_level + 1) % UINT32_SIZE }
    if !script.OpenFile then c1
    else
      let c2 := c1.determineGrowth script
      let c3 := c2.learnNewSkills script sd
      let c4 := c3.applyHitPointsGrowth
      let c5 := c4.applySkillPointsGrowth
      c5.applyStatGrowth IsFloatEqual

end GlobalCharacter

/-! ## Enemies -/

/-- The random number functions of utils_random.h, which is not part of the
sources, with the generator state made explicit.  GaussianRandomValue takes
an int32 mean and a float standard deviation and returns an int32. -/
structure RandomSource (fm : FloatModel) where
  /-- The states of the generator. -/
  S : Type
  /-- GaussianRandomValue(mean, std_dev). -/
  GaussianRandomValue : S → Int → fm.F → Int × S
  /-- RandomFloat(). -/
  RandomFloat : S → fm.F × S

/-- Conversion of a uint32 to int32. -/
def uint32ToInt32 (n : Nat) : Int :=
  if n % UINT32_SIZE < 2147483648 then (n % UINT32_SIZE : Nat)
  else ((n % UINT32_SIZE : Nat) : Int) - 4294967296

namespace GlobalEnemy

variable {fm : FloatModel}

/-- GlobalEnemy::AddSkill: the returned flag and the new enemy. -/
def AddSkill (sd : SkillData) (e : GlobalEnemy fm) (skill_id : Nat) : Bool × GlobalEnemy fm :=
  if skill_id = 0 then (false, e)
  else if e.HasSkill skill_id then (false, e)
  else if sd.IsValid skill_id == false then (false, e)
  else
    (true, { e with skills := e.skills ++ [{ id := skill_id, type := sd.GetType skill_id }],
                    skills_id := e.skills_id ++ [skill_id] })

/-- The randomization block of Initialize: every stat is redrawn in turn. -/
def randomizeStats (rs : RandomSource fm) (e : GlobalEnemy fm) (s : rs.S) :
    GlobalEnemy fm × rs.S :=
  let ten := fm.ofInt32 10
  let r1 := rs.GaussianRandomValue s (uint32ToInt32 e.max_hit_points)
    (fm.div (fm.ofUInt32 e.max_hit_points) ten)
  let e1 : GlobalEnemy fm := { e with max_hit_points := wrap32 r1.1 }
  let r2 := rs.GaussianRandomValue r1.2 (uint32ToInt32 e1.max_skill_points)
    (fm.div (fm.ofUInt32 e1.max_skill_points) ten)
  let e2 : GlobalEnemy fm := { e1 with max_skill_points := wrap32 r2.1 }
  let r3 := rs.GaussianRandomValue r2.2 (uint32ToInt32 e2.experience_points)
    (fm.div (fm.ofUInt32 e2.experience_points) ten)
  let e3 : GlobalEnemy fm := { e2 with experience_points := wrap32 r3.1 }
  let r4 := rs.GaussianRandomValue r3.2 (fm.toInt32 e3.strength.base) (fm.div e3.strength.base ten)
  let e4 : GlobalEnemy fm := { e3 with strength := e3.strength.SetBase (fm.ofInt32 r4.1) }
  let r5 := rs.GaussianRandomValue r4.2 (fm.toInt32 e4.vigor.base) (fm.div e4.vigor.base ten)
  let e5 : GlobalEnemy fm := { e4 with vigor := e4.vigor.SetBase (fm.ofInt32 r5.1) }
  let r6 := rs.GaussianRandomValue r5.2 (fm.toInt32 e5.fortitude.base)
    (fm.div e5.fortitude.base ten)
  let e6 : GlobalEnemy fm := { e5 with fortitude := e5.fortitude.SetBase (fm.ofInt32 r6.1) }
  let r7 := rs.GaussianRandomValue r6.2 (fm.toInt32 e6.protection.base)
    (fm.div e6.protection.base ten)
  let e7 : GlobalEnemy fm := { e6 with protection := e6.protection.SetBase (fm.ofInt32 r7.1) }
  let r8 := rs.GaussianRandomValue r7.2 (fm.toInt32 e7.agility.base) (fm.div e7.agility.base ten)
  let e8 : GlobalEnemy fm := { e7 with agility := e7.agility.SetBase (fm.ofInt32 r8.1) }
  let evade := fm.mul e8.evade.base ten
  let r9 := rs.GaussianRandomValue r8.2 (fm.toInt32 evade) (fm.div evade ten)
  let e9 : GlobalEnemy fm :=
    { e8 with evade := e8.evade.SetBase (fm.div (fm.ofInt32 r9.1) ten) }
  let r10 := rs.GaussianRandomValue r9.2 (uint32ToInt32 e9.drunes_dropped)
    (fm.div (fm.ofUInt32 e9.drunes_dropped) ten)
  ({ e9 with drunes_dropped := wrap32 r10.1 }, r10.2)

/-- GlobalEnemy::Initialize: the new enemy and the new state of the random generator. -/
def Initialize (rs : RandomSource fm) (sd : SkillData) (e : GlobalEnemy fm) (s : rs.S) :
    GlobalEnemy fm × rs.S :=
  if e.skills.isEmpty == false then (e, s)
  else
    let with_skills := e.skill_set.foldl (fun acc id => (AddSkill sd acc id).2) e
    let randomized :=
      if with_skills.no_stat_randomization == false then randomizeStats rs with_skills s
      else (with_skills, s)
    ({ randomized.1 with hit_points := randomized.1.max_hit_points,
                         skill_points := randomized.1.max_skill_points }, randomized.2)

/-- The loop of DetermineDroppedObjects over the parallel vectors of item ids
and drop chances: one RandomFloat() per entry.  An object created by
GlobalCreateNewObject is represented by its item id.  The C++ code is only
defined when the chance vector is as long as the id vector; the model stops
at the end of the shorter one. -/
def dropLoop (rs : RandomSource fm) : List Nat → List fm.F → rs.S → List Nat × rs.S
  | [], _, s => ([], s)
  | _ :: _, [], s => ([], s)
  | id :: ids, chance :: chances, s =>
    let r := rs.RandomFloat s
    let rest := dropLoop rs ids chances r.2
    if fm.lt r.1 chance then (id :: rest.1, rest.2) else rest

/-- DetermineDroppedObjects(objects): the new content of the output list and
the new state of the random generator.  The list is cleared first. -/
def DetermineDroppedObjects (rs : RandomSource fm) (e : GlobalEnemy fm) (objects : List Nat)
    (s : rs.S) : List Nat × rs.S :=
  let cleared : List Nat := objects.take 0
  let dropped := dropLoop rs e.dropped_objects e.dropped_chance s
  (cleared ++ dropped.1, dropped.2)

end GlobalEnemy

/-! ## Sample data -/

/-- A stat with the given base and no modifier. -/
def sampleStat (b : Int) : GlobalStat exactFloat := { base := b, modifier := 0 }

/-- An actor with fortitude 50 and protection 30, all elemental modifiers 1.0. -/
def sampleActor : GlobalActor exactFloat :=
  { id := 1, experience_points := 0, hit_points := 90, max_hit_points := 100,
    skill_points := 5, max_skill_points := 20,
    strength := sampleStat 10, vigor := sampleStat 8, fortitude := sampleStat 50,
    protection := sampleStat 30, agility := sampleStat 7, evade := sampleStat 0,
    elemental_modifier := [1, 1, 1, 1, 1, 1, 1], attack_points := [],
    total_physical_attack := 10, total_magical_attack := [8, 8, 8, 8, 8, 8, 8],
    skills := [], skills_id := [] }

/-- An attack point with fortitude modifier -1.0 and protection modifier -1.0. -/
def sampleAttackPoint : GlobalAttackPoint exactFloat :=
  { fortitude_modifier := -1, protection_modifier := -1, evade_modifier := 0,
    total_physical_defense := 0, total_magical_defense := [0, 0, 0, 0, 0, 0, 0],
    total_evade_rating := 0 }

/-- An armor with physical defense 20 and magical defense 12. -/
def sampleArmor : GlobalArmor :=
  { object_type := 3, physical_defense := 20, magical_defense := 12,
    status_effects := [], equipment_skills := [] }

/-- An attack point without modifiers, with the totals of the sample actor. -/
def plainAttackPoint : GlobalAttackPoint exactFloat :=
  { fortitude_modifier := 0, protection_modifier := 0, evade_modifier := 0,
    total_physical_defense := 50, total_magical_defense := [30, 30, 30, 30, 30, 30, 30],
    total_evade_rating := 0 }

/-- Skill definitions: the ids 1 to 100 load; even ids are magic skills, odd
ids are weapon skills. -/
def sampleSkillData : SkillData :=
  { IsValid := fun id => decide (id ≤ 100),
    GetType := fun id =>
      if id % 2 = 0 then GLOBAL_SKILL.GLOBAL_SKILL_MAGIC else GLOBAL_SKILL.GLOBAL_SKILL_WEAPON }

/-- A status effects script that has both handlers, valid, for every status type. -/
def sampleScript : StatusEffectsScript :=
  fun _ => some { has_remove_passive := true, remove_passive_valid := true,
                  has_apply_passive := true, apply_passive_valid := true }

/-- A character of strength 10 and vigor 8 with the given equipment, the
permanent skill 1 (a weapon skill), and caches that are up to date for a
character without equipment. -/
def sampleCharacterWith (weapon : Option GlobalWeapon) (armors : List (Option GlobalArmor)) :
    GlobalCharacter exactFloat :=
  { toGlobalActor :=
      { sampleActor with
        attack_points := [plainAttackPoint, plainAttackPoint, plainAttackPoint, plainAttackPoint],
        skills := [{ id := 1, type := GLOBAL_SKILL.GLOBAL_SKILL_WEAPON }],
        skills_id := [1] },
    experience_level := 1, experience_for_next_level := 100,
    weapon_equipped := weapon, armor_equipped := armors,
    permanent_skills := [1],
    weapon_skills := [{ id := 1, type := GLOBAL_SKILL.GLOBAL_SKILL_WEAPON }],
    magic_skills := [], special_skills := [], bare_hands_skills := [],
    new_skills_learned := [],
    equipment_status_effects := List.replicate 16 0 }

/-- The sample character without any equipment. -/
def sampleCharacter : GlobalCharacter exactFloat :=
  sampleCharacterWith none [none, none, none, none]

/-- A weapon of physical attack 5 and magical attack 3 that grants
(GLOBAL_STATUS_STRENGTH, +3) and the skill 2. -/
def sampleWeapon : GlobalWeapon :=
  { physical_attack := 5, magical_attack := 3,
    status_effects := [(GLOBAL_STATUS_STRENGTH, 3)], equipment_skills := [2] }

/-- A torso armor that grants (GLOBAL_STATUS_STRENGTH, +2). -/
def strengthArmor : GlobalArmor :=
  { object_type := 3, physical_defense := 20, magical_defense := 12,
    status_effects := [(GLOBAL_STATUS_STRENGTH, 2)], equipment_skills := [] }

/-- The sample character with the sample weapon and the strength armor on the torso. -/
def strengthCharacter : GlobalCharacter exactFloat :=
  sampleCharacterWith (some sampleWeapon) [none, some strengthArmor, none, none]

/-- A weapon that grants (GLOBAL_STATUS_STRENGTH, +4). -/
def extremeWeapon : GlobalWeapon :=
  { physical_attack := 5, magical_attack := 3,
    status_effects := [(GLOBAL_STATUS_STRENGTH, 4)], equipment_skills := [] }

/-- A head armor that grants (GLOBAL_STATUS_STRENGTH, +4). -/
def extremeHelmet : GlobalArmor :=
  { object_type := 2, physical_defense := 4, magical_defense := 1,
    status_effects := [(GLOBAL_STATUS_STRENGTH, 4)], equipment_skills := [] }

/-- A torso armor that grants (GLOBAL_STATUS_STRENGTH, -3). -/
def cursedArmor : GlobalArmor :=
  { object_type := 3, physical_defense := 30, magical_defense := 0,
    status_effects := [(GLOBAL_STATUS_STRENGTH, -3)], equipment_skills := [] }

/-- The sample character with contributions +4, +4 and -3 to GLOBAL_STATUS_STRENGTH. -/
def mixedCharacter : GlobalCharacter exactFloat :=
  sampleCharacterWith (some extremeWeapon) [some extremeHelmet, some cursedArmor, none, none]

/-- A weapon that grants (GLOBAL_STATUS_STRENGTH, -3). -/
def weakeningWeapon : GlobalWeapon :=
  { physical_attack := 9, magical_attack := 0,
    status_effects := [(GLOBAL_STATUS_STRENGTH, -3)], equipment_skills := [] }

/-- A leg armor that grants (GLOBAL_STATUS_STRENGTH, -2). -/
def weakeningBoots : GlobalArmor :=
  { object_type := 5, physical_defense := 6, magical_defense := 2,
    status_effects := [(GLOBAL_STATUS_STRENGTH, -2)], equipment_skills := [] }

/-- The sample character with contributions -3 and -2 to GLOBAL_STATUS_STRENGTH. -/
def weakenedCharacter : GlobalCharacter exactFloat :=
  sampleCharacterWith (some weakeningWeapon) [none, none, none, some weakeningBoots]

/-- The sample character after AddSkill(7, false): it knows the skill 7
without having learned it permanently. -/
def taughtCharacter : GlobalCharacter exactFloat :=
  (sampleCharacter.AddSkill sampleSkillData 7 false).2

/-- A random source whose Gaussian draw is always one above the mean; the
state counts the draws. -/
@[reducible]
def sampleRandom : RandomSource exactFloat :=
  { S := Nat,
    GaussianRandomValue := fun s mean _ => (mean + 1, s + 1),
    RandomFloat := fun s => (0, s + 1) }

/-- An enemy of 100 hit points with stat randomization and the given candidate skills. -/
def sampleEnemyWith (skill_set : List Nat) : GlobalEnemy exactFloat :=
  { toGlobalActor := { sampleActor with hit_points := 100 },
    no_stat_randomization := false, drunes_dropped := 40, skill_set := skill_set,
    dropped_objects := [], dropped_chance := [] }

/-- An enemy of 100 hit points without stat randomization and with the given
candidate skills. -/
def fixedEnemyWith (skill_set : List Nat) : GlobalEnemy exactFloat :=
  { toGlobalActor := { sampleActor with hit_points := 100 },
    no_stat_randomization := true, drunes_dropped := 40, skill_set := skill_set,
    dropped_objects := [], dropped_chance := [] }

/-- The enemy without stat randomization after Initialize() has given it the
skill 3 and SubtractHitPoints(10) has taken 10 of its 100 hit points. -/
def damagedEnemy : GlobalEnemy exactFloat :=
  { ((fixedEnemyWith [3]).Initialize sampleRandom sampleSkillData 0).1 with
    toGlobalActor :=
      (((fixedEnemyWith [3]).Initialize sampleRandom sampleSkillData
        0).1.toGlobalActor).SubtractHitPoints 10 }

/-- Floats with two decimals, held as a number of hundredths, with exact
arithmetic that truncates toward zero: the float operations agree with it on
the values used in the examples (such as 50 * -0.5 and 3 * -0.9). -/
@[reducible]
def centiFloat : FloatModel where
  F := Int
  ofUInt32 := fun n => 100 * (n : Int)
  ofInt32 := fun z => 100 * z
  add := fun a b => a + b
  sub := fun a b => a - b
  mul := fun a b => Int.tdiv (a * b) 100
  div := fun a b => Int.tdiv (a * 100) b
  le := fun a b => decide (a ≤ b)
  toInt32 := fun a => Int.tdiv a 100
  toUInt32 := fun a => (Int.tdiv a 100).toNat

/-- An owner of fortitude 3.00 and protection 30.00 in the two decimal floats. -/
def centiActor : GlobalActor centiFloat :=
  { id := 2, experience_points := 0, hit_points := 10, max_hit_points := 10,
    skill_points := 0, max_skill_points := 0,
    strength := { base := 1000, modifier := 0 }, vigor := { base := 800, modifier := 0 },
    fortitude := { base := 300, modifier := 0 }, protection := { base := 3000, modifier := 0 },
    agility := { base := 700, modifier := 0 }, evade := { base := 0, modifier := 0 },
    elemental_modifier := [100, 100, 100, 100, 100, 100, 100], attack_points := [],
    total_physical_attack := 10, total_magical_attack := [8, 8, 8, 8, 8, 8, 8],
    skills := [], skills_id := [] }

/-- An attack point of fortitude modifier -0.50 in the two decimal floats. -/
def centiAttackPoint : GlobalAttackPoint centiFloat :=
  { fortitude_modifier := -50, protection_modifier := 0, evade_modifier := 0,
    total_physical_defense := 0, total_magical_defense := [0, 0, 0, 0, 0, 0, 0],
    total_evade_rating := 0 }

/-- An attack point with cached totals: physical 7, magical 1 to 7 by element,
evade rating 3. -/
def cachedAttackPoint : GlobalAttackPoint exactFloat :=
  { fortitude_modifier := 0, protection_modifier := 0, evade_modifier := 0,
    total_physical_defense := 7, total_magical_defense := [1, 2, 3, 4, 5, 6, 7],
    total_evade_rating := 3 }

/-- The sample actor with two attack points, of physical defense 50 and 7. -/
def twoPointActor : GlobalActor exactFloat :=
  { sampleActor with attack_points := [plainAttackPoint, cachedAttackPoint] }

/-- A weapon that grants the skills 2 and 4. -/
def skillWeapon : GlobalWeapon :=
  { physical_attack := 5, magical_attack := 3, status_effects := [],
    equipment_skills := [2, 4] }

/-- A leg armor that grants the skills 1 and 6. -/
def skillBoots : GlobalArmor :=
  { object_type := 5, physical_defense := 6, magical_defense := 2, status_effects := [],
    equipment_skills := [1, 6] }

/-- A character with the permanent skills 1 and 2, the weapon granting 2 and 4 and
the leg armor granting 1 and 6. -/
def skilledCharacter : GlobalCharacter exactFloat :=
  { sampleCharacterWith (some skillWeapon) [none, none, none, some skillBoots] with
    permanent_skills := [1, 2] }

/-- A weapon that grants (GLOBAL_STATUS_STRENGTH, +2). -/
def lesserWeapon : GlobalWeapon :=
  { physical_attack := 5, magical_attack := 3,
    status_effects := [(GLOBAL_STATUS_STRENGTH, 2)], equipment_skills := [] }

/-- A head armor that grants (GLOBAL_STATUS_STRENGTH, +3). -/
def greaterHelmet : GlobalArmor :=
  { object_type := 2, physical_defense := 4, magical_defense := 1,
    status_effects := [(GLOBAL_STATUS_STRENGTH, 3)], equipment_skills := [] }

/-- The sample character with the contributions of the strength character in the
other order: +2 from the weapon, then +3 from an armor. -/
def swappedStrengthCharacter : GlobalCharacter exactFloat :=
  sampleCharacterWith (some lesserWeapon) [some greaterHelmet, none, none, none]

/-- An enemy whose drop table is (10, 0), (11, 1), (12, 0), (13, 2). -/
def droppingEnemy : GlobalEnemy exactFloat :=
  { sampleEnemyWith [3] with
    dropped_objects := [10, 11, 12, 13], dropped_chance := [0, 1, 0, 2] }

/-- An actor with the attack point of fortitude modifier -1.0 and the skill 1. -/
def assignedActor : GlobalActor exactFloat :=
  { sampleActor with
    attack_points := [sampleAttackPoint],
    skills := [{ id := 1, type := GLOBAL_SKILL.GLOBAL_SKILL_WEAPON }], skills_id := [1] }

/-- An actor with the attack point of cached physical defense 7 and the skill 4. -/
def copiedActor : GlobalActor exactFloat :=
  { sampleActor with
    id := 9, attack_points := [cachedAttackPoint],
    skills := [{ id := 4, type := GLOBAL_SKILL.GLOBAL_SKILL_MAGIC }], skills_id := [4] }

/-- A growth script: 12 hit points, 4 skill points, 2 strength and 150 points to
the next level; the skill 8 is learned. -/
def sampleGrowth : GrowthScript exactFloat :=
  { OpenFile := true,
    DetermineLevelGrowth := fun _ =>
      { hit_points_growth := 12, skill_points_growth := 4, strength_growth := 2,
        vigor_growth := 0, fortitude_growth := 0, protection_growth := 0,
        agility_growth := 0, evade_growth := 0, experience_for_next_level := 150 },
    DetermineNewSkillsLearned := fun _ => [8] }

/-- Equality of the integer floats. -/
def sampleIsFloatEqual (a b : Int) : Bool := decide (a = b)

/-- The sample character after it has got 340 experience points, 100 being
needed for the next level. -/
def experiencedCharacter : GlobalCharacter exactFloat :=
  (sampleCharacter.AddExperiencePoints 340).2

/-- The experienced character, fainted: its current hit points are 0. -/
def faintedCharacter : GlobalCharacter exactFloat :=
  experiencedCharacter.withActor (fun a => a.SubtractHitPoints 1000)

/-- An attack point of fortitude modifier -0.90 and protection modifier -0.99
in the two decimal floats. -/
def fractionalAttackPoint : GlobalAttackPoint centiFloat :=
  { fortitude_modifier := -90, protection_modifier := -99, evade_modifier := 0,
    total_physical_defense := 0, total_magical_defense := [0, 0, 0, 0, 0, 0, 0],
    total_evade_rating := 0 }

/-- The sample character after EquipWeapon(sample weapon), which grants the
skill 2, and then AddSkill(8, true): its skill ids are in the order in which
the skills were added. -/
def reorderedCharacter : GlobalCharacter exactFloat :=
  ((sampleCharacter.EquipWeapon sampleScript sampleSkillData (some sampleWeapon)).2.1.AddSkill
    sampleSkillData 8 true).2

/-! ## Specification side definitions -/

section SpecSide

variable {fm : FloatModel}

/-- The protection base term in the words of the spec, a float: 0 when the
protection modifier is at most -1.0, otherwise owner protection + owner
protection * protection modifier. -/
def protection_base_formula (ap : GlobalAttackPoint fm) (owner : GlobalActor fm) : fm.F :=
  if fm.le ap.protection_modifier (fm.ofInt32 (-1)) then fm.ofInt32 0
  else fm.add (fm.ofUInt32 owner.GetProtection)
    (fm.mul (fm.ofUInt32 owner.GetProtection) ap.protection_modifier)

/-- The magical defense for an element in the words of the spec, a float:
(protection base term + armor magical defense) * elemental modifier, the armor
term omitted when no armor is given. -/
def magical_defense_formula (ap : GlobalAttackPoint fm) (owner : GlobalActor fm)
    (equipped_armor : Option GlobalArmor) (e : Nat) : fm.F :=
  match equipped_armor with
  | some armor =>
    fm.mul (fm.add (protection_base_formula ap owner) (fm.ofUInt32 armor.magical_defense))
      (owner.GetElementalModifier e)
  | none => fm.mul (protection_base_formula ap owner) (owner.GetElementalModifier e)

/-- The protection base term with the product truncated: 0 when the protection
modifier is at most -1.0, otherwise owner protection + the product owner
protection * protection modifier converted to an int32, the sum taken as a
uint32. -/
def truncated_protection_base_term (ap : GlobalAttackPoint fm) (owner : GlobalActor fm) :
    Nat :=
  if fm.le ap.protection_modifier (fm.ofInt32 (-1)) then 0
  else wrap32 ((owner.GetProtection : Int)
    + fm.toInt32 (fm.mul (fm.ofUInt32 owner.GetProtection) ap.protection_modifier))

/-- The armor term of the magical defense formula: the magical defense of the
armor, omitted (zero) when no armor is given. -/
def armor_magical_term (equipped_armor : Option GlobalArmor) : Nat :=
  match equipped_armor with
  | some armor => armor.magical_defense
  | none => 0

/-- One step of the aggregation on a single intensity: the sum, replaced by
the extreme it would pass. -/
def saturatingAdd (current intensity : Int) : Int :=
  if current + intensity > GLOBAL_INTENSITY_POS_EXTREME then GLOBAL_INTENSITY_POS_EXTREME
  else if current + intensity < GLOBAL_INTENSITY_NEG_EXTREME then GLOBAL_INTENSITY_NEG_EXTREME
  else current + intensity

/-- The status effects declared by the armors of the slots, in slot order. -/
def armorStatusEffects : List (Option GlobalArmor) → List (Nat × Int)
  | [] => []
  | none :: rest => armorStatusEffects rest
  | some armor :: rest => armor.status_effects ++ armorStatusEffects rest

/-- The status effects declared by the equipped items: the weapon first, then
the armors in slot order. -/
def GlobalCharacter.equipmentStatusEffects (c : GlobalCharacter fm) : List (Nat × Int) :=
  (match c.weapon_equipped with
   | some weapon => weapon.status_effects
   | none => []) ++ armorStatusEffects c.armor_equipped

/-- The individual intensity contributions of the equipped items to one status type. -/
def GlobalCharacter.contributions (c : GlobalCharacter fm) (status : Nat) : List Int :=
  (c.equipmentStatusEffects.filter (fun p => p.1 == status)).map (fun p => p.2)

/-- A character with its skill containers emptied: what is left is the part
of the state that the skill functions do not write. -/
def GlobalCharacter.nonSkillPart (c : GlobalCharacter fm) : GlobalCharacter fm :=
  { c with skills := [], skills_id := [], permanent_skills := [], weapon_skills := [],
           magic_skills := [], special_skills := [], bare_hands_skills := [] }

/-- Two characters have the same skill containers. -/
def GlobalCharacter.SkillsAgree (c d : GlobalCharacter fm) : Prop :=
  c.skills = d.skills ∧ c.skills_id = d.skills_id ∧ c.permanent_skills = d.permanent_skills
  ∧ c.weapon_skills = d.weapon_skills ∧ c.magic_skills = d.magic_skills
  ∧ c.special_skills = d.special_skills ∧ c.bare_hands_skills = d.bare_hands_skills

/-- The round trip of the claim: EquipWeapon(W), then EquipWeapon with the
weapon that the first call returned. -/
def GlobalCharacter.equipRoundTrip (script : StatusEffectsScript) (sd : SkillData)
    (c : GlobalCharacter fm) (weapon : Option GlobalWeapon) : GlobalCharacter fm :=
  let first := c.EquipWeapon script sd weapon
  (first.2.1.EquipWeapon script sd first.1).2.1

/-- The character after has the attack totals, the equipment status effect
intensities and the set of skill ids of the character before. -/
def GlobalCharacter.SameDerivedState (before after : GlobalCharacter fm) : Prop :=
  after.total_physical_attack = before.total_physical_attack
  ∧ after.total_magical_attack = before.total_magical_attack
  ∧ after.equipment_status_effects = before.equipment_status_effects
  ∧ ∀ id, id ∈ after.skills_id ↔ id ∈ before.skills_id

/-- The caches of a character are up to date: the attack totals and the
equipment status effect intensities are those that _CalculateAttackRatings and
_UpdateEquipmentStatusEffects compute from its stats and equipment, and the set
of its skill ids is the set of the skill ids that _UpdatesAvailableSkills
computes from its permanent skills and equipment; the order of the skill ids is
free. -/
def GlobalCharacter.CachesCurrent (script : StatusEffectsScript) (sd : SkillData)
    (c : GlobalCharacter fm) : Prop :=
  c.total_physical_attack = c._CalculateAttackRatings.total_physical_attack
  ∧ c.total_magical_attack = c._CalculateAttackRatings.total_magical_attack
  ∧ c.equipment_status_effects
      = (c._UpdateEquipmentStatusEffects script).1.equipment_status_effects
  ∧ ∀ id : Nat, id ∈ c.skills_id ↔ id ∈ (c._UpdatesAvailableSkills sd).skills_id

/-- The physical attack term of the weapon: nothing without a weapon. -/
def weapon_physical_term (weapon : Option GlobalWeapon) : Nat :=
  match weapon with
  | some w => w.physical_attack
  | none => 0

/-- The stats that Initialize may redraw, with the current hit and skill points
and the skills. -/
def GlobalEnemy.sameStatsAndSkills (before after : GlobalEnemy fm) : Prop :=
  after.max_hit_points = before.max_hit_points
  ∧ after.max_skill_points = before.max_skill_points
  ∧ after.experience_points = before.experience_points
  ∧ after.strength = before.strength
  ∧ after.vigor = before.vigor
  ∧ after.fortitude = before.fortitude
  ∧ after.protection = before.protection
  ∧ after.agility = before.agility
  ∧ after.evade = before.evade
  ∧ after.drunes_dropped = before.drunes_dropped
  ∧ after.hit_points = before.hit_points
  ∧ after.skill_points = before.skill_points
  ∧ after.skills_id = before.skills_id
  ∧ after.skills = before.skills

/-- The base stats of an enemy: the values that Initialize may redraw. -/
def GlobalEnemy.sameBaseStats (before after : GlobalEnemy fm) : Prop :=
  after.max_hit_points = before.max_hit_points
  ∧ after.max_skill_points = before.max_skill_points
  ∧ after.experience_points = before.experience_points
  ∧ after.strength = before.strength
  ∧ after.vigor = before.vigor
  ∧ after.fortitude = before.fortitude
  ∧ after.protection = before.protection
  ∧ after.agility = before.agility
  ∧ after.evade = before.evade
  ∧ after.drunes_dropped = before.drunes_dropped

/-- The invariant of the point pools: the current values do not exceed the maxima. -/
def GlobalActor.PoolsBounded (a : GlobalActor fm) : Prop :=
  a.hit_points ≤ a.max_hit_points ∧ a.skill_points ≤ a.max_skill_points

/-- The pools hold 32-bit values. -/
def GlobalActor.PoolsTyped (a : GlobalActor fm) : Prop :=
  a.hit_points < UINT32_SIZE ∧ a.max_hit_points < UINT32_SIZE
  ∧ a.skill_points < UINT32_SIZE ∧ a.max_skill_points < UINT32_SIZE

/-- The physical defense in the words of the spec, a float: owner fortitude +
owner fortitude * fortitude modifier, increased by the physical defense of the
armor when an armor is given. -/
def physical_defense_formula (ap : GlobalAttackPoint fm) (owner : GlobalActor fm)
    (equipped_armor : Option GlobalArmor) : fm.F :=
  match equipped_armor with
  | some armor =>
    fm.add (fm.add (fm.ofUInt32 owner.GetFortitude)
      (fm.mul (fm.ofUInt32 owner.GetFortitude) ap.fortitude_modifier))
      (fm.ofUInt32 armor.physical_defense)
  | none =>
    fm.add (fm.ofUInt32 owner.GetFortitude)
      (fm.mul (fm.ofUInt32 owner.GetFortitude) ap.fortitude_modifier)

/-- The fortitude term with the product truncated: owner fortitude + the product
owner fortitude * fortitude modifier converted to an int32, the sum taken as a
uint32. -/
def truncated_fortitude_term (ap : GlobalAttackPoint fm) (owner : GlobalActor fm) : Nat :=
  wrap32 ((owner.GetFortitude : Int)
    + fm.toInt32 (fm.mul (fm.ofUInt32 owner.GetFortitude) ap.fortitude_modifier))

/-- An enemy with its skill containers emptied: the part of the state that
GlobalEnemy::AddSkill does not write. -/
def GlobalEnemy.nonSkillPart (e : GlobalEnemy fm) : GlobalEnemy fm :=
  { e with skills := [], skills_id := [] }

/-- A list of ids with every id kept only at its first occurrence. -/
def firstOccurrences : List Nat → List Nat
  | [] => []
  | x :: rest => x :: (firstOccurrences rest).filter (fun y => y != x)

/-- The skill ids granted by the armors of the slots, in slot order. -/
def armorSkillIds : List (Option GlobalArmor) → List Nat
  | [] => []
  | none :: rest => armorSkillIds rest
  | some armor :: rest => armor.equipment_skills ++ armorSkillIds rest

/-- The concatenation of the permanent skill ids, the skill ids granted by the
equipped weapon and the skill ids granted by the equipped armors in slot order. -/
def GlobalCharacter.sourceSkillIds (c : GlobalCharacter fm) : List Nat :=
  c.permanent_skills
    ++ (match c.weapon_equipped with
        | some weapon => weapon.equipment_skills
        | none => [])
    ++ armorSkillIds c.armor_equipped

/-- The id is not zero and loads as a valid skill of a recognized type. -/
def SkillData.Loads (sd : SkillData) (id : Nat) : Prop :=
  id ≠ 0 ∧ sd.IsValid id = true
  ∧ (sd.GetType id = GLOBAL_SKILL.GLOBAL_SKILL_WEAPON
    ∨ sd.GetType id = GLOBAL_SKILL.GLOBAL_SKILL_MAGIC
    ∨ sd.GetType id = GLOBAL_SKILL.GLOBAL_SKILL_SPECIAL
    ∨ sd.GetType id = GLOBAL_SKILL.GLOBAL_SKILL_BARE_HANDS)

/-- What a run of AddSkill calls does to the skill id list when every id loads:
an id that is not yet in the list is appended. -/
def addIds (known : List Nat) (ids : List Nat) : List Nat :=
  ids.foldl (fun acc id => if acc.any (fun x => x == id) then acc else acc ++ [id]) known

/-- An intensity clamped to the range of the extreme bounds, -4..+4. -/
def clampIntensity (z : Int) : Int :=
  max GLOBAL_INTENSITY_NEG_EXTREME (min GLOBAL_INTENSITY_POS_EXTREME z)

/-- The skill list and the skill id list are parallel and free of duplicates:
they have equal length, the i-th id is the id of the i-th skill and no id occurs
twice. -/
def SkillsParallel (skills : List GlobalSkill) (skills_id : List Nat) : Prop :=
  skills.length = skills_id.length
  ∧ (∀ (i : Nat) (skill : GlobalSkill), skills[i]? = some skill → skills_id[i]? = some skill.id)
  ∧ skills_id.Nodup

/-- The first n values that RandomFloat() returns from a state on. -/
def randomDraws (rs : RandomSource fm) : Nat → rs.S → List fm.F
  | 0, _ => []
  | n + 1, s => (rs.RandomFloat s).1 :: randomDraws rs n (rs.RandomFloat s).2

/-- The entries of the drop table with the draw made for each of them: item id,
probability, draw. -/
def GlobalEnemy.dropTrials (rs : RandomSource fm) (e : GlobalEnemy fm) (s : rs.S) :
    List ((Nat × fm.F) × fm.F) :=
  (e.dropped_objects.zip e.dropped_chance).zip (randomDraws rs e.dropped_objects.length s)

/-- The item ids, in table order, of the entries whose draw is below the probability. -/
def GlobalEnemy.expectedDrops (rs : RandomSource fm) (e : GlobalEnemy fm) (s : rs.S) :
    List Nat :=
  ((e.dropTrials rs s).filter (fun trial => fm.lt trial.2 trial.1.2)).map
    (fun trial => trial.1.1)

/-- The growth deltas that the growth script determines when the level-up of the
character is acknowledged. -/
def GlobalCharacter.levelGrowth (script : GrowthScript fm) (c : GlobalCharacter fm) :
    LevelGrowth fm :=
  script.DetermineLevelGrowth
    { c with experience_level := (c.experience_level + 1) % UINT32_SIZE,
             hit_points_growth := 0, skill_points_growth := 0, strength_growth := 0,
             vigor_growth := 0, fortitude_growth := 0, protection_growth := 0,
             agility_growth := 0, evade_growth := fm.ofInt32 0 }

/-- The experience level and the point pools of a character. -/
def GlobalCharacter.levelAndPools (c : GlobalCharacter fm) : Nat × Nat × Nat × Nat × Nat :=
  (c.experience_level, c.hit_points, c.max_hit_points, c.skill_points, c.max_skill_points)

/-- The stats of a character. -/
def GlobalCharacter.stats (c : GlobalCharacter fm) :
    GlobalStat fm × GlobalStat fm × GlobalStat fm × GlobalStat fm × GlobalStat fm
      × GlobalStat fm :=
  (c.strength, c.vigor, c.fortitude, c.protection, c.agility, c.evade)

/-- A character with its skill containers and its list of newly learned skills
emptied: the part of the state that AddNewSkillLearned does not write. -/
def GlobalCharacter.nonLearnedPart (c : GlobalCharacter fm) : GlobalCharacter fm :=
  { c.nonSkillPart with new_skills_learned := [] }

/-- The stats and elemental modifiers of an actor from which the cached defense
and evade totals of its attack points are computed. -/
def GlobalActor.defenseInputs (a : GlobalActor fm) :
    GlobalStat fm × GlobalStat fm × List fm.F × GlobalStat fm :=
  (a.fortitude, a.protection, a.elemental_modifier, a.evade)

/-- The stats and elemental modifiers of an actor from which its attack totals
are computed, with the cached attack totals. -/
def GlobalActor.attackInputs (a : GlobalActor fm) :
    GlobalStat fm × GlobalStat fm × List fm.F × Nat × List Nat :=
  (a.strength, a.vigor, a.elemental_modifier, a.total_physical_attack, a.total_magical_attack)

/-- The cached defense and evade totals of an attack point are those that
CalculateTotalDefense and CalculateTotalEvade compute for the owner and the
armor. -/
def GlobalAttackPoint.Coherent (ap : GlobalAttackPoint fm) (owner : GlobalActor fm)
    (armor : Option GlobalArmor) : Prop :=
  ap.total_physical_defense
      = (ap.CalculateTotalDefense (some owner) armor).total_physical_defense
  ∧ ap.total_magical_defense
      = (ap.CalculateTotalDefense (some owner) armor).total_magical_defense
  ∧ ap.total_evade_rating = (ap.CalculateTotalEvade (some owner)).total_evade_rating

/-- Cache coherence of a character: the attack totals are those that
_CalculateAttackRatings computes from the current strength, vigor and weapon,
and the cached defense and evade of every attack point are those that
CalculateTotalDefense and CalculateTotalEvade compute from the current
fortitude, protection, evade and the armor of the slot of the attack point. -/
def GlobalCharacter.CacheCoherent (c : GlobalCharacter fm) : Prop :=
  c.total_physical_attack = c._CalculateAttackRatings.total_physical_attack
  ∧ c.total_magical_attack = c._CalculateAttackRatings.total_magical_attack
  ∧ ∀ (i : Nat) (ap : GlobalAttackPoint fm), c.attack_points[i]? = some ap →
      ap.Coherent c.toGlobalActor (c.armor_equipped.getD i none)

end SpecSide

/-! ## Theorems -/

section AttackPointTheorems

variable {fm : FloatModel}

theorem wrap32_lt (z : Int) : wrap32 z < UINT32_SIZE := by
  unfold wrap32 UINT32_SIZE
  omega

/-- C1, as stated, fails: with fortitude modifier -1.0, owner fortitude 50 and an
armor of physical defense 20, CalculateTotalDefense leaves a total physical
defense of 20, not 0. -/
theorem C1_defense_floor_counterexample :
    exactFloat.le sampleAttackPoint.fortitude_modifier (exactFloat.ofInt32 (-1)) = true
    ∧ sampleActor.GetFortitude = 50
    ∧ sampleArmor.physical_defense = 20
    ∧ (sampleAttackPoint.CalculateTotalDefense (some sampleActor)
        (some sampleArmor)).total_physical_defense = 20
    ∧ (sampleAttackPoint.CalculateTotalDefense (some sampleActor)
        (some sampleArmor)).total_physical_defense ≠ 0 := by
  decide

/-- C1, amended: for an owned attack point whose fortitude modifier is at most
-1.0, CalculateTotalDefense sets the total physical defense to 0 when no armor is
given and to the physical defense of the armor when one is given, whatever the
fortitude of the owner. -/
theorem C1_defense_floor_amended (ap : GlobalAttackPoint fm) (owner : GlobalActor fm)
    (h : fm.le ap.fortitude_modifier (fm.ofInt32 (-1)) = true) :
    (ap.CalculateTotalDefense (some owner) none).total_physical_defense = 0
    ∧ ∀ armor : GlobalArmor, armor.physical_defense < UINT32_SIZE →
        (ap.CalculateTotalDefense (some owner) (some armor)).total_physical_defense
          = armor.physical_defense := by
  refine ⟨?_, ?_⟩
  · simp [GlobalAttackPoint.CalculateTotalDefense, h]
  · intro armor harmor
    simp [GlobalAttackPoint.CalculateTotalDefense, h, Nat.mod_eq_of_lt harmor]

/-- Witness of C1, amended: the attack point of modifier -1.0 on the owner of fortitude 50. -/
theorem C1_defense_floor_amended_witness :
    (sampleAttackPoint.CalculateTotalDefense (some sampleActor) none).total_physical_defense = 0
    ∧ ∀ armor : GlobalArmor, armor.physical_defense < UINT32_SIZE →
        (sampleAttackPoint.CalculateTotalDefense (some sampleActor)
          (some armor)).total_physical_defense = armor.physical_defense :=
  C1_defense_floor_amended sampleAttackPoint sampleActor (by decide)

/-- C2, as stated, fails: with owner protection 30, protection modifier -0.99,
no armor and elemental modifier 1.0, CalculateTotalDefense stores 1 for the
element 0, because the product -29.7 is converted to the integer -29 before the
sum; the formula (30 + 30 * -0.99) * 1.0 is 0.3, which is not 1 and is 0 as a
uint32.  With the armor of magical defense 12 the code stores 13 and the formula
is 12.3. -/
theorem C2_magical_defense_formula_counterexample :
    centiFloat.le fractionalAttackPoint.protection_modifier (centiFloat.ofInt32 (-1)) = false
    ∧ centiActor.GetProtection = 30
    ∧ centiActor.GetElementalModifier 0 = centiFloat.ofInt32 1
    ∧ (fractionalAttackPoint.CalculateTotalDefense (some centiActor)
        none).total_magical_defense[0]? = some 1
    ∧ magical_defense_formula fractionalAttackPoint centiActor none 0 = 30
    ∧ magical_defense_formula fractionalAttackPoint centiActor none 0 ≠ centiFloat.ofUInt32 1
    ∧ centiFloat.toU32 (magical_defense_formula fractionalAttackPoint centiActor none 0) = 0
    ∧ (fractionalAttackPoint.CalculateTotalDefense (some centiActor)
        (some sampleArmor)).total_magical_defense[0]? = some 13
    ∧ magical_defense_formula fractionalAttackPoint centiActor (some sampleArmor) 0 = 1230
    ∧ centiFloat.toU32
        (magical_defense_formula fractionalAttackPoint centiActor (some sampleArmor) 0) = 12 := by
  decide

/-- C2, amended: for an owned attack point, any armor argument and each of the 7
elements e, CalculateTotalDefense sets total_magical_defense[e] to the uint32
conversion of (protection base term + armor magical defense, a uint32 sum, the
armor term omitted without armor) multiplied by the elemental modifier of the
owner for e, the base term being 0 when the protection modifier is at most -1.0
and otherwise owner protection + the product owner protection * protection
modifier converted to an int32. -/
theorem C2_magical_defense_truncated (ap : GlobalAttackPoint fm) (owner : GlobalActor fm)
    (equipped_armor : Option GlobalArmor) (e : Nat) (he : e < GLOBAL_ELEMENTAL_TOTAL) :
    (ap.CalculateTotalDefense (some owner) equipped_armor).total_magical_defense[e]?
      = some (fm.toU32 (fm.mul
          (fm.ofUInt32 ((truncated_protection_base_term ap owner
            + armor_magical_term equipped_armor) % UINT32_SIZE))
          (owner.GetElementalModifier e))) := by
  have hbase : (if fm.gt ap.protection_modifier (fm.ofInt32 (-1)) = true then
        wrap32 ((owner.GetProtection : Int)
          + fm.toInt32 (fm.mul (fm.ofUInt32 owner.GetProtection) ap.protection_modifier))
      else 0) = truncated_protection_base_term ap owner := by
    unfold truncated_protection_base_term FloatModel.gt
    cases fm.le ap.protection_modifier (fm.ofInt32 (-1)) <;> simp
  have hlt : truncated_protection_base_term ap owner < UINT32_SIZE := by
    unfold truncated_protection_base_term
    split
    · decide
    · exact wrap32_lt _
  cases equipped_armor with
  | none =>
    simp only [GlobalAttackPoint.CalculateTotalDefense, hbase, armor_magical_term,
      Nat.add_zero, Nat.mod_eq_of_lt hlt]
    simp [List.getElem?_map, List.getElem?_range he]
  | some armor =>
    simp only [GlobalAttackPoint.CalculateTotalDefense, hbase, armor_magical_term]
    simp [List.getElem?_map, List.getElem?_range he]

/-- Witness of C2, amended: the element 0 of the attack point of protection
modifier -0.99 on the owner of protection 30, with the armor of magical defense
12: the base term is 30 + (-29) = 1 and the stored value is 13. -/
theorem C2_magical_defense_truncated_witness :
    (fractionalAttackPoint.CalculateTotalDefense (some centiActor)
        (some sampleArmor)).total_magical_defense[0]?
      = some (centiFloat.toU32 (centiFloat.mul
          (centiFloat.ofUInt32 ((truncated_protection_base_term fractionalAttackPoint centiActor
            + armor_magical_term (some sampleArmor)) % UINT32_SIZE))
          (centiActor.GetElementalModifier 0)))
    ∧ centiFloat.le fractionalAttackPoint.protection_modifier (centiFloat.ofInt32 (-1)) = false
    ∧ truncated_protection_base_term fractionalAttackPoint centiActor = 1
    ∧ (fractionalAttackPoint.CalculateTotalDefense (some centiActor)
        (some sampleArmor)).total_magical_defense[0]? = some 13 :=
  ⟨C2_magical_defense_truncated fractionalAttackPoint centiActor (some sampleArmor) 0
    (by decide), by decide, by decide, by decide⟩

end AttackPointTheorems

section PointPoolTheorems

variable {fm : FloatModel}

/-- C3: for 32-bit values, after AddHitPoints(x) the hit points are at most the
maximum and equal min(hit points before + x, maximum) with the sum taken in
unbounded arithmetic; AddSkillPoints does the same on the skill points. -/
theorem C3_saturating_add (a : GlobalActor fm) (x : Nat)
    (hx : x < UINT32_SIZE)
    (hhp : a.hit_points < UINT32_SIZE) (hmhp : a.max_hit_points < UINT32_SIZE)
    (hsp : a.skill_points < UINT32_SIZE) (hmsp : a.max_skill_points < UINT32_SIZE) :
    (a.AddHitPoints x).hit_points ≤ (a.AddHitPoints x).max_hit_points
    ∧ (a.AddHitPoints x).max_hit_points = a.max_hit_points
    ∧ (a.AddHitPoints x).hit_points = min (a.hit_points + x) a.max_hit_points
    ∧ (a.AddSkillPoints x).skill_points ≤ (a.AddSkillPoints x).max_skill_points
    ∧ (a.AddSkillPoints x).max_skill_points = a.max_skill_points
    ∧ (a.AddSkillPoints x).skill_points = min (a.skill_points + x) a.max_skill_points := by
  refine ⟨?_, rfl, ?_, ?_, rfl, ?_⟩
  all_goals
    simp only [GlobalActor.AddHitPoints, GlobalActor.AddSkillPoints, UINT32_MAX,
      UINT32_SIZE] at *
    split_ifs <;> omega

/-- Witness of C3: 90 of 100 hit points and 5 of 20 skill points, adding 4294967295. -/
theorem C3_saturating_add_witness :
    (sampleActor.AddHitPoints 4294967295).hit_points
        ≤ (sampleActor.AddHitPoints 4294967295).max_hit_points
    ∧ (sampleActor.AddHitPoints 4294967295).max_hit_points = sampleActor.max_hit_points
    ∧ (sampleActor.AddHitPoints 4294967295).hit_points
        = min (sampleActor.hit_points + 4294967295) sampleActor.max_hit_points
    ∧ (sampleActor.AddSkillPoints 4294967295).skill_points
        ≤ (sampleActor.AddSkillPoints 4294967295).max_skill_points
    ∧ (sampleActor.AddSkillPoints 4294967295).max_skill_points = sampleActor.max_skill_points
    ∧ (sampleActor.AddSkillPoints 4294967295).skill_points
        = min (sampleActor.skill_points + 4294967295) sampleActor.max_skill_points :=
  C3_saturating_add sampleActor 4294967295 (by decide) (by decide) (by decide) (by decide)
    (by decide)

end PointPoolTheorems

section StatusEffectTheorems

variable {fm : FloatModel}

theorem addStatusIntensity_length (effects : List Int) (effect : Nat) (intensity : Int) :
    (addStatusIntensity effects effect intensity).length = effects.length := by
  unfold addStatusIntensity
  split_ifs <;> simp

theorem addStatusIntensity_getD (effects : List Int) (effect : Nat) (intensity : Int)
    (t : Nat) (ht : t < effects.length) :
    (addStatusIntensity effects effect intensity).getD t 0
      = if effect = t then saturatingAdd (effects.getD t 0) intensity
        else effects.getD t 0 := by
  unfold addStatusIntensity saturatingAdd
  by_cases h : effect = t
  · subst h
    simp only [List.getD_eq_getElem?_getD, if_true]
    split_ifs <;> simp [List.getElem?_set, ht]
  · simp only [List.getD_eq_getElem?_getD, if_neg h]
    split_ifs <;> simp [List.getElem?_set, h]

theorem addItemStatusEffects_length (item_effects : List (Nat × Int)) (effects : List Int) :
    (addItemStatusEffects effects item_effects).length = effects.length := by
  induction item_effects generalizing effects with
  | nil => rfl
  | cons p rest ih =>
    simp only [addItemStatusEffects, List.foldl_cons] at ih ⊢
    rw [ih, addStatusIntensity_length]

theorem addItemStatusEffects_getD (item_effects : List (Nat × Int)) (effects : List Int)
    (t : Nat) (ht : t < effects.length) :
    (addItemStatusEffects effects item_effects).getD t 0
      = ((item_effects.filter (fun p => p.1 == t)).map (fun p => p.2)).foldl saturatingAdd
          (effects.getD t 0) := by
  induction item_effects generalizing effects with
  | nil => rfl
  | cons p rest ih =>
    simp only [addItemStatusEffects, List.foldl_cons] at ih ⊢
    rw [ih _ (by rw [addStatusIntensity_length]; exact ht), addStatusIntensity_getD _ _ _ _ ht]
    by_cases h : p.1 = t
    · simp [List.filter_cons, h]
    · simp [List.filter_cons, h]

theorem addArmorStatusEffects_length (armors : List (Option GlobalArmor)) (effects : List Int) :
    (addArmorStatusEffects effects armors).length = effects.length := by
  induction armors generalizing effects with
  | nil => rfl
  | cons slot rest ih =>
    simp only [addArmorStatusEffects, List.foldl_cons] at ih ⊢
    cases slot with
    | none => exact ih effects
    | some armor => rw [ih, addItemStatusEffects_length]

theorem addArmorStatusEffects_getD (armors : List (Option GlobalArmor)) (effects : List Int)
    (t : Nat) (ht : t < effects.length) :
    (addArmorStatusEffects effects armors).getD t 0
      = (((armorStatusEffects armors).filter (fun p => p.1 == t)).map (fun p => p.2)).foldl
          saturatingAdd (effects.getD t 0) := by
  induction armors generalizing effects with
  | nil => rfl
  | cons slot rest ih =>
    simp only [addArmorStatusEffects, List.foldl_cons] at ih ⊢
    cases slot with
    | none => exact ih effects ht
    | some armor =>
      rw [ih _ (by rw [addItemStatusEffects_length]; exact ht),
        addItemStatusEffects_getD _ _ _ ht]
      simp [armorStatusEffects, List.filter_append, List.foldl_append]

theorem aggregatedStatusEffects_length (c : GlobalCharacter fm) :
    c.aggregatedStatusEffects.length = c.equipment_status_effects.length := by
  unfold GlobalCharacter.aggregatedStatusEffects
  cases c.weapon_equipped <;>
    simp [addArmorStatusEffects_length, addItemStatusEffects_length]

/-- The aggregated intensity of a status type is the saturating sum of its
contributions, taken in equipment order from neutral. -/
theorem aggregatedStatusEffects_getD (c : GlobalCharacter fm) (t : Nat)
    (ht : t < c.equipment_status_effects.length) :
    c.aggregatedStatusEffects.getD t 0 = (c.contributions t).foldl saturatingAdd 0 := by
  have hreset : (c.equipment_status_effects.map (fun _ => GLOBAL_INTENSITY_NEUTRAL)).getD t 0
      = 0 := by
    simp [List.getD_eq_getElem?_getD, List.getElem?_map, GLOBAL_INTENSITY_NEUTRAL]
  unfold GlobalCharacter.aggregatedStatusEffects GlobalCharacter.contributions
    GlobalCharacter.equipmentStatusEffects
  cases c.weapon_equipped with
  | none =>
    simp only [List.nil_append]
    rw [addArmorStatusEffects_getD _ _ _ (by simpa using ht), hreset]
  | some weapon =>
    simp only []
    rw [addArmorStatusEffects_getD _ _ _
        (by rw [addItemStatusEffects_length]; simpa using ht),
      addItemStatusEffects_getD _ _ _ (by simpa using ht), hreset]
    simp [List.filter_append, List.foldl_append]

theorem saturatingAdd_range (current intensity : Int) :
    -4 ≤ saturatingAdd current intensity ∧ saturatingAdd current intensity ≤ 4 := by
  unfold saturatingAdd GLOBAL_INTENSITY_POS_EXTREME GLOBAL_INTENSITY_NEG_EXTREME
  split_ifs <;> omega

theorem foldl_saturatingAdd_range (l : List Int) (current : Int)
    (h : -4 ≤ current ∧ current ≤ 4) :
    -4 ≤ l.foldl saturatingAdd current ∧ l.foldl saturatingAdd current ≤ 4 := by
  induction l generalizing current with
  | nil => exact h
  | cons x rest ih => exact ih _ (saturatingAdd_range current x)

theorem foldl_saturatingAdd_nonneg (l : List Int) (current : Int)
    (hc : 0 ≤ current ∧ current ≤ 4) (hl : ∀ x ∈ l, 0 ≤ x) :
    l.foldl saturatingAdd current = min 4 (current + l.sum) := by
  induction l generalizing current with
  | nil => simp; omega
  | cons x rest ih =>
    have hx : 0 ≤ x := hl x (List.mem_cons_self _ _)
    have hrest : ∀ y ∈ rest, 0 ≤ y := fun y hy => hl y (List.mem_cons_of_mem _ hy)
    have hsum : 0 ≤ rest.sum := List.sum_nonneg hrest
    have hstep : 0 ≤ saturatingAdd current x ∧ saturatingAdd current x ≤ 4 := by
      unfold saturatingAdd GLOBAL_INTENSITY_POS_EXTREME GLOBAL_INTENSITY_NEG_EXTREME
      split_ifs <;> omega
    rw [List.foldl_cons, ih _ hstep hrest, List.sum_cons]
    unfold saturatingAdd GLOBAL_INTENSITY_POS_EXTREME GLOBAL_INTENSITY_NEG_EXTREME
    split_ifs <;> omega

theorem list_sum_nonpos (l : List Int) (hl : ∀ x ∈ l, x ≤ 0) : l.sum ≤ 0 := by
  induction l with
  | nil => simp
  | cons x rest ih =>
    have hx : x ≤ 0 := hl x (List.mem_cons_self _ _)
    have hrest : rest.sum ≤ 0 := ih (fun y hy => hl y (List.mem_cons_of_mem _ hy))
    rw [List.sum_cons]
    omega

theorem foldl_saturatingAdd_nonpos (l : List Int) (current : Int)
    (hc : -4 ≤ current ∧ current ≤ 0) (hl : ∀ x ∈ l, x ≤ 0) :
    l.foldl saturatingAdd current = max (-4) (current + l.sum) := by
  induction l generalizing current with
  | nil => simp; omega
  | cons x rest ih =>
    have hx : x ≤ 0 := hl x (List.mem_cons_self _ _)
    have hrest : ∀ y ∈ rest, y ≤ 0 := fun y hy => hl y (List.mem_cons_of_mem _ hy)
    have hsum : rest.sum ≤ 0 := list_sum_nonpos rest hrest
    have hstep : -4 ≤ saturatingAdd current x ∧ saturatingAdd current x ≤ 0 := by
      unfold saturatingAdd GLOBAL_INTENSITY_POS_EXTREME GLOBAL_INTENSITY_NEG_EXTREME
      split_ifs <;> omega
    rw [List.foldl_cons, ih _ hstep hrest, List.sum_cons]
    unfold saturatingAdd GLOBAL_INTENSITY_POS_EXTREME GLOBAL_INTENSITY_NEG_EXTREME
    split_ifs <;> omega

/-- C5, as stated, fails: a weapon granting +4, a head armor granting +4 and a
torso armor granting -3 for GLOBAL_STATUS_STRENGTH contribute a sum of 5, and the
aggregated intensity is 1, not +4. -/
theorem C5_status_clamp_counterexample :
    mixedCharacter.contributions GLOBAL_STATUS_STRENGTH = [4, 4, -3]
    ∧ (mixedCharacter.contributions GLOBAL_STATUS_STRENGTH).sum > 4
    ∧ (mixedCharacter._UpdateEquipmentStatusEffects sampleScript).1.equipment_status_effects.getD
        GLOBAL_STATUS_STRENGTH 0 = 1
    ∧ (mixedCharacter._UpdateEquipmentStatusEffects sampleScript).1.equipment_status_effects.getD
        GLOBAL_STATUS_STRENGTH 0 ≠ 4 := by
  decide

/-- C5, amended: for every equipment set and every status type, if the
contributions of the equipped items to that status type are all non-negative and
sum to more than +4 then _UpdateEquipmentStatusEffects leaves its intensity at
exactly +4, and if they are all non-positive and sum to less than -4 it leaves it
at exactly -4. -/
theorem C5_status_clamp_same_sign (script : StatusEffectsScript) (c : GlobalCharacter fm)
    (t : Nat) (ht : t < c.equipment_status_effects.length) :
    ((∀ x ∈ c.contributions t, 0 ≤ x) → 4 < (c.contributions t).sum →
      (c._UpdateEquipmentStatusEffects script).1.equipment_status_effects.getD t 0 = 4)
    ∧ ((∀ x ∈ c.contributions t, x ≤ 0) → (c.contributions t).sum < -4 →
      (c._UpdateEquipmentStatusEffects script).1.equipment_status_effects.getD t 0 = -4) := by
  simp only [GlobalCharacter._UpdateEquipmentStatusEffects]
  rw [aggregatedStatusEffects_getD c t ht]
  constructor
  · intro hsign hsum
    rw [foldl_saturatingAdd_nonneg _ 0 (by omega) hsign]
    omega
  · intro hsign hsum
    rw [foldl_saturatingAdd_nonpos _ 0 (by omega) hsign]
    omega

/-- Witness of C5, amended: contributions +3 and +2 give +4, contributions -3 and -2 give -4. -/
theorem C5_status_clamp_same_sign_witness :
    (strengthCharacter._UpdateEquipmentStatusEffects sampleScript).1.equipment_status_effects.getD
        GLOBAL_STATUS_STRENGTH 0 = 4
    ∧ (weakenedCharacter._UpdateEquipmentStatusEffects sampleScript).1.equipment_status_effects.getD
        GLOBAL_STATUS_STRENGTH 0 = -4 :=
  ⟨(C5_status_clamp_same_sign sampleScript strengthCharacter GLOBAL_STATUS_STRENGTH
      (by decide)).1 (by decide) (by decide),
   (C5_status_clamp_same_sign sampleScript weakenedCharacter GLOBAL_STATUS_STRENGTH
      (by decide)).2 (by decide) (by decide)⟩

/-- C6: after _UpdateEquipmentStatusEffects, for every equipment set whose
declared status types are valid, each of the 16 aggregated intensities lies in
-4..+4, and a status type to which no equipped item contributes is neutral. -/
theorem C6_status_range (script : StatusEffectsScript) (c : GlobalCharacter fm)
    (hsize : c.equipment_status_effects.length = GLOBAL_STATUS_TOTAL)
    (_hvalid : ∀ p ∈ c.equipmentStatusEffects, p.1 < GLOBAL_STATUS_TOTAL) :
    (c._UpdateEquipmentStatusEffects script).1.equipment_status_effects.length
      = GLOBAL_STATUS_TOTAL
    ∧ ∀ t, t < GLOBAL_STATUS_TOTAL →
        GLOBAL_INTENSITY_NEG_EXTREME
          ≤ (c._UpdateEquipmentStatusEffects script).1.equipment_status_effects.getD t 0
        ∧ (c._UpdateEquipmentStatusEffects script).1.equipment_status_effects.getD t 0
          ≤ GLOBAL_INTENSITY_POS_EXTREME
        ∧ (c.contributions t = [] →
          (c._UpdateEquipmentStatusEffects script).1.equipment_status_effects.getD t 0
            = GLOBAL_INTENSITY_NEUTRAL) := by
  simp only [GlobalCharacter._UpdateEquipmentStatusEffects]
  refine ⟨by rw [aggregatedStatusEffects_length, hsize], ?_⟩
  intro t ht
  rw [aggregatedStatusEffects_getD c t (by rw [hsize]; exact ht)]
  have hrange := foldl_saturatingAdd_range (c.contributions t) 0 (by omega)
  refine ⟨hrange.1, hrange.2, ?_⟩
  intro hnone
  rw [hnone]
  rfl

/-- Witness of C6: the character with the +3 weapon and the +2 armor. -/
theorem C6_status_range_witness :
    (strengthCharacter._UpdateEquipmentStatusEffects sampleScript).1.equipment_status_effects.length
      = GLOBAL_STATUS_TOTAL
    ∧ ∀ t, t < GLOBAL_STATUS_TOTAL →
        GLOBAL_INTENSITY_NEG_EXTREME
          ≤ (strengthCharacter._UpdateEquipmentStatusEffects
              sampleScript).1.equipment_status_effects.getD t 0
        ∧ (strengthCharacter._UpdateEquipmentStatusEffects
              sampleScript).1.equipment_status_effects.getD t 0
          ≤ GLOBAL_INTENSITY_POS_EXTREME
        ∧ (strengthCharacter.contributions t = [] →
          (strengthCharacter._UpdateEquipmentStatusEffects
              sampleScript).1.equipment_status_effects.getD t 0
            = GLOBAL_INTENSITY_NEUTRAL) :=
  C6_status_range sampleScript strengthCharacter (by decide) (by decide)

theorem passiveCallFor_filter (script : StatusEffectsScript) (j i : Nat) (intensity : Int) :
    (passiveCallFor script j intensity).filter (fun call => call.status == i)
      = if j = i then passiveCallFor script j intensity else [] := by
  unfold passiveCallFor
  by_cases h : j = i
  · subst h
    simp only [if_true]
    cases script j with
    | none => rfl
    | some table =>
      simp only []
      split_ifs <;> simp [PassiveCall.status]
  · simp only [if_neg h]
    cases script j with
    | none => rfl
    | some table =>
      simp only []
      split_ifs <;> simp [PassiveCall.status, h]

theorem applyPassiveEffects_filter (script : StatusEffectsScript) (effects : List Int)
    (start i : Nat) :
    (applyPassiveEffects script start effects).filter (fun call => call.status == i)
      = if start ≤ i ∧ i < start + effects.length then
          passiveCallFor script i (effects.getD (i - start) 0)
        else [] := by
  induction effects generalizing start with
  | nil => simp [applyPassiveEffects]
  | cons x rest ih =>
    simp only [applyPassiveEffects, List.filter_append, passiveCallFor_filter, ih,
      List.length_cons]
    by_cases h : start = i
    · subst h
      simp
    · by_cases h2 : start + 1 ≤ i ∧ i < start + 1 + rest.length
      · have h3 : start ≤ i ∧ i < start + (rest.length + 1) := by omega
        have h4 : i - start = (i - (start + 1)) + 1 := by omega
        simp [h, h2, h3, h4]
      · have h3 : ¬ (start ≤ i ∧ i < start + (rest.length + 1)) := by omega
        simp [h, h2, h3]

/-- C9: for every equipment set and each status type whose table exists in the
status effects script together with the valid handler function to call,
_UpdateEquipmentStatusEffects makes exactly one handler call for that status
type: RemovePassive when the aggregated intensity is neutral, ApplyPassive with
the aggregated intensity otherwise. -/
theorem C9_single_handler_call (script : StatusEffectsScript) (c : GlobalCharacter fm)
    (i : Nat) (hi : i < c.equipment_status_effects.length)
    (table : StatusEffectTable) (htable : script i = some table)
    (hremove : (c._UpdateEquipmentStatusEffects script).1.equipment_status_effects.getD i 0
        = GLOBAL_INTENSITY_NEUTRAL →
      table.has_remove_passive = true ∧ table.remove_passive_valid = true)
    (happly : (c._UpdateEquipmentStatusEffects script).1.equipment_status_effects.getD i 0
        ≠ GLOBAL_INTENSITY_NEUTRAL →
      table.has_apply_passive = true ∧ table.apply_passive_valid = true) :
    (c._UpdateEquipmentStatusEffects script).2.filter (fun call => call.status == i)
      = [if (c._UpdateEquipmentStatusEffects script).1.equipment_status_effects.getD i 0
            = GLOBAL_INTENSITY_NEUTRAL
         then PassiveCall.RemovePassive i
         else PassiveCall.ApplyPassive i
           ((c._UpdateEquipmentStatusEffects script).1.equipment_status_effects.getD i 0)] := by
  simp only [GlobalCharacter._UpdateEquipmentStatusEffects] at *
  rw [applyPassiveEffects_filter]
  have hlen : 0 ≤ i ∧ i < 0 + c.aggregatedStatusEffects.length := by
    rw [aggregatedStatusEffects_length]
    omega
  simp only [if_pos hlen, Nat.sub_zero, passiveCallFor, htable]
  generalize c.aggregatedStatusEffects.getD i 0 = v at *
  by_cases hneutral : v = GLOBAL_INTENSITY_NEUTRAL
  · simp [hneutral, (hremove hneutral).1, (hremove hneutral).2]
  · simp [hneutral, (happly hneutral).1, (happly hneutral).2]

/-- Witness of C9: an armor granting (GLOBAL_STATUS_STRENGTH, +2) and a weapon
granting (GLOBAL_STATUS_STRENGTH, +3) cause the single call ApplyPassive with
intensity 4 for GLOBAL_STATUS_STRENGTH. -/
theorem C9_single_handler_call_witness :
    (strengthCharacter._UpdateEquipmentStatusEffects sampleScript).1.equipment_status_effects.getD
        GLOBAL_STATUS_STRENGTH 0 = 4
    ∧ (strengthCharacter._UpdateEquipmentStatusEffects sampleScript).2.filter
        (fun call => call.status == GLOBAL_STATUS_STRENGTH)
      = [PassiveCall.ApplyPassive GLOBAL_STATUS_STRENGTH 4] :=
  ⟨by decide,
   C9_single_handler_call sampleScript strengthCharacter GLOBAL_STATUS_STRENGTH (by decide)
    { has_remove_passive := true, remove_passive_valid := true,
      has_apply_passive := true, apply_passive_valid := true }
    rfl (by decide) (by decide)⟩

end StatusEffectTheorems

section SkillTheorems

variable {fm : FloatModel}

theorem AddSkill_nonSkillPart (sd : SkillData) (c : GlobalCharacter fm) (skill_id : Nat)
    (permanently : Bool) :
    (c.AddSkill sd skill_id permanently).2.nonSkillPart = c.nonSkillPart := by
  unfold GlobalCharacter.AddSkill
  split_ifs <;> try rfl
  all_goals (cases sd.GetType skill_id <;> rfl)

theorem AddSkill_permanent (sd : SkillData) (c : GlobalCharacter fm) (skill_id : Nat) :
    (c.AddSkill sd skill_id false).2.permanent_skills = c.permanent_skills := by
  unfold GlobalCharacter.AddSkill
  simp only [Bool.false_eq_true, if_false]
  split_ifs <;> try rfl
  all_goals (cases sd.GetType skill_id <;> rfl)

theorem AddSkill_agree (sd : SkillData) (c d : GlobalCharacter fm) (skill_id : Nat)
    (permanently : Bool) (h : c.SkillsAgree d) :
    (c.AddSkill sd skill_id permanently).2.SkillsAgree (d.AddSkill sd skill_id permanently).2 := by
  obtain ⟨h1, h2, h3, h4, h5, h6, h7⟩ := h
  unfold GlobalCharacter.AddSkill GlobalActor.HasSkill
  rw [h2, h3]
  split_ifs
  all_goals
    first
    | exact ⟨h1, h2, h3, h4, h5, h6, h7⟩
    | (simp only [GlobalCharacter.SkillsAgree]; simp [h1, h2, h3, h4, h5, h6, h7]; done)
    | (cases sd.GetType skill_id <;>
        simp [GlobalCharacter.SkillsAgree, h1, h2, h3, h4, h5, h6, h7])

theorem addSkillsOf_nonSkillPart (sd : SkillData) (ids : List Nat) (c : GlobalCharacter fm) :
    (c.addSkillsOf sd ids).nonSkillPart = c.nonSkillPart := by
  induction ids generalizing c with
  | nil => rfl
  | cons id rest ih =>
    simp only [GlobalCharacter.addSkillsOf, List.foldl_cons] at ih ⊢
    rw [ih, AddSkill_nonSkillPart]

theorem addSkillsOf_permanent (sd : SkillData) (ids : List Nat) (c : GlobalCharacter fm) :
    (c.addSkillsOf sd ids).permanent_skills = c.permanent_skills := by
  induction ids generalizing c with
  | nil => rfl
  | cons id rest ih =>
    simp only [GlobalCharacter.addSkillsOf, List.foldl_cons] at ih ⊢
    rw [ih, AddSkill_permanent]

theorem addSkillsOf_agree (sd : SkillData) (ids : List Nat) (c d : GlobalCharacter fm)
    (h : c.SkillsAgree d) : (c.addSkillsOf sd ids).SkillsAgree (d.addSkillsOf sd ids) := by
  induction ids generalizing c d with
  | nil => exact h
  | cons id rest ih =>
    simp only [GlobalCharacter.addSkillsOf, List.foldl_cons] at ih ⊢
    exact ih _ _ (AddSkill_agree sd c d id false h)

theorem addArmorSkills_nonSkillPart (sd : SkillData) (armors : List (Option GlobalArmor))
    (c : GlobalCharacter fm) : (c.addArmorSkills sd armors).nonSkillPart = c.nonSkillPart := by
  induction armors generalizing c with
  | nil => rfl
  | cons slot rest ih =>
    simp only [GlobalCharacter.addArmorSkills, List.foldl_cons] at ih ⊢
    cases slot with
    | none => exact ih c
    | some armor => rw [ih, addSkillsOf_nonSkillPart]

theorem addArmorSkills_permanent (sd : SkillData) (armors : List (Option GlobalArmor))
    (c : GlobalCharacter fm) :
    (c.addArmorSkills sd armors).permanent_skills = c.permanent_skills := by
  induction armors generalizing c with
  | nil => rfl
  | cons slot rest ih =>
    simp only [GlobalCharacter.addArmorSkills, List.foldl_cons] at ih ⊢
    cases slot with
    | none => exact ih c
    | some armor => rw [ih, addSkillsOf_permanent]

theorem addArmorSkills_agree (sd : SkillData) (armors : List (Option GlobalArmor))
    (c d : GlobalCharacter fm) (h : c.SkillsAgree d) :
    (c.addArmorSkills sd armors).SkillsAgree (d.addArmorSkills sd armors) := by
  induction armors generalizing c d with
  | nil => exact h
  | cons slot rest ih =>
    simp only [GlobalCharacter.addArmorSkills, List.foldl_cons] at ih ⊢
    cases slot with
    | none => exact ih c d h
    | some armor => exact ih _ _ (addSkillsOf_agree sd _ c d h)

theorem addWeaponSkills_nonSkillPart (sd : SkillData) (c : GlobalCharacter fm) :
    (c.addWeaponSkills sd).nonSkillPart = c.nonSkillPart := by
  unfold GlobalCharacter.addWeaponSkills
  split
  · exact addSkillsOf_nonSkillPart sd _ c
  · rfl

theorem addWeaponSkills_permanent (sd : SkillData) (c : GlobalCharacter fm) :
    (c.addWeaponSkills sd).permanent_skills = c.permanent_skills := by
  unfold GlobalCharacter.addWeaponSkills
  split
  · exact addSkillsOf_permanent sd _ c
  · rfl

theorem addWeaponSkills_agree (sd : SkillData) (c d : GlobalCharacter fm)
    (hw : c.weapon_equipped = d.weapon_equipped) (h : c.SkillsAgree d) :
    (c.addWeaponSkills sd).SkillsAgree (d.addWeaponSkills sd) := by
  unfold GlobalCharacter.addWeaponSkills
  rw [hw]
  cases d.weapon_equipped with
  | none => exact h
  | some weapon => exact addSkillsOf_agree sd _ c d h

/-- The function _UpdatesAvailableSkills writes the skill containers only. -/
theorem UpdatesAvailableSkills_nonSkillPart (sd : SkillData) (c : GlobalCharacter fm) :
    (c._UpdatesAvailableSkills sd).nonSkillPart = c.nonSkillPart := by
  unfold GlobalCharacter._UpdatesAvailableSkills
  simp only []
  rw [addArmorSkills_nonSkillPart, addWeaponSkills_nonSkillPart, addSkillsOf_nonSkillPart]
  rfl

/-- The function _UpdatesAvailableSkills leaves the permanent skills as they are. -/
theorem UpdatesAvailableSkills_permanent (sd : SkillData) (c : GlobalCharacter fm) :
    (c._UpdatesAvailableSkills sd).permanent_skills = c.permanent_skills := by
  unfold GlobalCharacter._UpdatesAvailableSkills
  simp only []
  rw [addArmorSkills_permanent, addWeaponSkills_permanent, addSkillsOf_permanent]
  rfl

/-- The skill containers that _UpdatesAvailableSkills builds depend only on the
permanent skills, the weapon and the armors. -/
theorem UpdatesAvailableSkills_agree (sd : SkillData) (c d : GlobalCharacter fm)
    (hp : c.permanent_skills = d.permanent_skills)
    (hw : c.weapon_equipped = d.weapon_equipped)
    (ha : c.armor_equipped = d.armor_equipped) :
    (c._UpdatesAvailableSkills sd).SkillsAgree (d._UpdatesAvailableSkills sd) := by
  have hcleared : c.clearSkills.SkillsAgree d.clearSkills := ⟨rfl, rfl, hp, rfl, rfl, rfl, rfl⟩
  have h1 : (c.clearSkills.addSkillsOf sd c.clearSkills.permanent_skills).SkillsAgree
      (d.clearSkills.addSkillsOf sd d.clearSkills.permanent_skills) := by
    have hp2 : c.clearSkills.permanent_skills = d.clearSkills.permanent_skills := hp
    rw [hp2]
    exact addSkillsOf_agree sd _ _ _ hcleared
  have hw1 : (c.clearSkills.addSkillsOf sd c.clearSkills.permanent_skills).weapon_equipped
      = (d.clearSkills.addSkillsOf sd d.clearSkills.permanent_skills).weapon_equipped := by
    have e1 := congrArg GlobalCharacter.weapon_equipped
      (addSkillsOf_nonSkillPart sd c.clearSkills.permanent_skills c.clearSkills)
    have e2 := congrArg GlobalCharacter.weapon_equipped
      (addSkillsOf_nonSkillPart sd d.clearSkills.permanent_skills d.clearSkills)
    exact e1.trans (hw.trans e2.symm)
  have h2 := addWeaponSkills_agree sd _ _ hw1 h1
  have ha1 : ((c.clearSkills.addSkillsOf sd
        c.clearSkills.permanent_skills).addWeaponSkills sd).armor_equipped
      = ((d.clearSkills.addSkillsOf sd
        d.clearSkills.permanent_skills).addWeaponSkills sd).armor_equipped := by
    have e1 := congrArg GlobalCharacter.armor_equipped
      ((addWeaponSkills_nonSkillPart sd _).trans
        (addSkillsOf_nonSkillPart sd c.clearSkills.permanent_skills c.clearSkills))
    have e2 := congrArg GlobalCharacter.armor_equipped
      ((addWeaponSkills_nonSkillPart sd _).trans
        (addSkillsOf_nonSkillPart sd d.clearSkills.permanent_skills d.clearSkills))
    exact e1.trans (ha.trans e2.symm)
  unfold GlobalCharacter._UpdatesAvailableSkills
  simp only []
  rw [ha1]
  exact addArmorSkills_agree sd _ _ _ h2

/-- C7: calling _UpdatesAvailableSkills twice in a row yields, after the second
call, the same skill id list (same ids in the same order), the same skills and
the same four type buckets as after the first call. -/
theorem C7_skill_idempotence (sd : SkillData) (c : GlobalCharacter fm) :
    ((c._UpdatesAvailableSkills sd)._UpdatesAvailableSkills sd).skills_id
      = (c._UpdatesAvailableSkills sd).skills_id
    ∧ ((c._UpdatesAvailableSkills sd)._UpdatesAvailableSkills sd).skills
      = (c._UpdatesAvailableSkills sd).skills
    ∧ ((c._UpdatesAvailableSkills sd)._UpdatesAvailableSkills sd).weapon_skills
      = (c._UpdatesAvailableSkills sd).weapon_skills
    ∧ ((c._UpdatesAvailableSkills sd)._UpdatesAvailableSkills sd).magic_skills
      = (c._UpdatesAvailableSkills sd).magic_skills
    ∧ ((c._UpdatesAvailableSkills sd)._UpdatesAvailableSkills sd).special_skills
      = (c._UpdatesAvailableSkills sd).special_skills
    ∧ ((c._UpdatesAvailableSkills sd)._UpdatesAvailableSkills sd).bare_hands_skills
      = (c._UpdatesAvailableSkills sd).bare_hands_skills := by
  have hframe := UpdatesAvailableSkills_nonSkillPart sd c
  obtain ⟨h1, h2, _, h4, h5, h6, h7⟩ :=
    UpdatesAvailableSkills_agree sd (c._UpdatesAvailableSkills sd) c
      (UpdatesAvailableSkills_permanent sd c)
      (congrArg (fun y => y.weapon_equipped) hframe)
      (congrArg (fun y => y.armor_equipped) hframe)
  exact ⟨h2, h1, h4, h5, h6, h7⟩

end SkillTheorems

section EquipTheorems

variable {fm : FloatModel}

/-- The attack totals that _CalculateAttackRatings computes depend only on the
strength, the vigor, the elemental modifiers and the weapon. -/
theorem CalculateAttackRatings_congr (c d : GlobalCharacter fm)
    (hs : c.strength = d.strength) (hv : c.vigor = d.vigor)
    (he : c.elemental_modifier = d.elemental_modifier)
    (hw : c.weapon_equipped = d.weapon_equipped) :
    c._CalculateAttackRatings.total_physical_attack
      = d._CalculateAttackRatings.total_physical_attack
    ∧ c._CalculateAttackRatings.total_magical_attack
      = d._CalculateAttackRatings.total_magical_attack := by
  unfold GlobalCharacter._CalculateAttackRatings GlobalActor.GetElementalModifier
  rw [hs, hv, he, hw]
  cases d.weapon_equipped <;> exact ⟨rfl, rfl⟩

/-- The aggregated intensities depend only on the number of status types, the
weapon and the armors. -/
theorem aggregatedStatusEffects_congr (c d : GlobalCharacter fm)
    (hl : c.equipment_status_effects.length = d.equipment_status_effects.length)
    (hw : c.weapon_equipped = d.weapon_equipped)
    (ha : c.armor_equipped = d.armor_equipped) :
    c.aggregatedStatusEffects = d.aggregatedStatusEffects := by
  have hreset : ∀ l : List Int, l.map (fun _ => GLOBAL_INTENSITY_NEUTRAL)
      = List.replicate l.length GLOBAL_INTENSITY_NEUTRAL := by
    intro l
    induction l with
    | nil => rfl
    | cons x rest ih => simp [List.replicate_succ, ih]
  unfold GlobalCharacter.aggregatedStatusEffects
  rw [hreset, hreset, hl, hw, ha]

/-- What EquipWeapon leaves as it is, and what it returns. -/
theorem EquipWeapon_frame (script : StatusEffectsScript) (sd : SkillData)
    (c : GlobalCharacter fm) (weapon : Option GlobalWeapon) :
    (c.EquipWeapon script sd weapon).1 = c.weapon_equipped
    ∧ (c.EquipWeapon script sd weapon).2.1.weapon_equipped = weapon
    ∧ (c.EquipWeapon script sd weapon).2.1.armor_equipped = c.armor_equipped
    ∧ (c.EquipWeapon script sd weapon).2.1.permanent_skills = c.permanent_skills
    ∧ (c.EquipWeapon script sd weapon).2.1.strength = c.strength
    ∧ (c.EquipWeapon script sd weapon).2.1.vigor = c.vigor
    ∧ (c.EquipWeapon script sd weapon).2.1.elemental_modifier = c.elemental_modifier
    ∧ (c.EquipWeapon script sd weapon).2.1.equipment_status_effects.length
        = c.equipment_status_effects.length := by
  have hframe := UpdatesAvailableSkills_nonSkillPart sd
    (({ c with weapon_equipped := weapon } : GlobalCharacter fm)._UpdateEquipmentStatusEffects
      script).1._CalculateAttackRatings
  have hperm := UpdatesAvailableSkills_permanent sd
    (({ c with weapon_equipped := weapon } : GlobalCharacter fm)._UpdateEquipmentStatusEffects
      script).1._CalculateAttackRatings
  have hlen := aggregatedStatusEffects_length
    ({ c with weapon_equipped := weapon } : GlobalCharacter fm)
  refine ⟨rfl, ?_, ?_, ?_, ?_, ?_, ?_, ?_⟩
  · refine (congrArg GlobalCharacter.weapon_equipped hframe).trans ?_
    simp only [GlobalCharacter._CalculateAttackRatings, GlobalCharacter.nonSkillPart,
      GlobalCharacter._UpdateEquipmentStatusEffects]
    cases weapon <;> rfl
  · refine (congrArg GlobalCharacter.armor_equipped hframe).trans ?_
    simp only [GlobalCharacter._CalculateAttackRatings, GlobalCharacter.nonSkillPart,
      GlobalCharacter._UpdateEquipmentStatusEffects]
    cases weapon <;> rfl
  · refine hperm.trans ?_
    simp only [GlobalCharacter._CalculateAttackRatings,
      GlobalCharacter._UpdateEquipmentStatusEffects]
    cases weapon <;> rfl
  · refine (congrArg (fun x => x.strength) hframe).trans ?_
    simp only [GlobalCharacter._CalculateAttackRatings, GlobalCharacter.nonSkillPart,
      GlobalCharacter._UpdateEquipmentStatusEffects]
    cases weapon <;> rfl
  · refine (congrArg (fun x => x.vigor) hframe).trans ?_
    simp only [GlobalCharacter._CalculateAttackRatings, GlobalCharacter.nonSkillPart,
      GlobalCharacter._UpdateEquipmentStatusEffects]
    cases weapon <;> rfl
  · refine (congrArg (fun x => x.elemental_modifier) hframe).trans ?_
    simp only [GlobalCharacter._CalculateAttackRatings, GlobalCharacter.nonSkillPart,
      GlobalCharacter._UpdateEquipmentStatusEffects]
    cases weapon <;> rfl
  · refine (congrArg (fun x => x.equipment_status_effects.length) hframe).trans ?_
    refine Eq.trans ?_ hlen
    simp only [GlobalCharacter._CalculateAttackRatings, GlobalCharacter.nonSkillPart,
      GlobalCharacter._UpdateEquipmentStatusEffects]
    cases weapon <;> rfl

/-- The caches after EquipWeapon are those that the three recomputations yield
for any character that has the new weapon and the same stats, armors, permanent
skills and number of status types. -/
theorem EquipWeapon_derived (script : StatusEffectsScript) (sd : SkillData)
    (c d : GlobalCharacter fm) (weapon : Option GlobalWeapon)
    (hw : d.weapon_equipped = weapon) (ha : d.armor_equipped = c.armor_equipped)
    (hp : d.permanent_skills = c.permanent_skills) (hs : d.strength = c.strength)
    (hv : d.vigor = c.vigor) (he : d.elemental_modifier = c.elemental_modifier)
    (hl : d.equipment_status_effects.length = c.equipment_status_effects.length) :
    (c.EquipWeapon script sd weapon).2.1.total_physical_attack
      = d._CalculateAttackRatings.total_physical_attack
    ∧ (c.EquipWeapon script sd weapon).2.1.total_magical_attack
      = d._CalculateAttackRatings.total_magical_attack
    ∧ (c.EquipWeapon script sd weapon).2.1.equipment_status_effects
      = (d._UpdateEquipmentStatusEffects script).1.equipment_status_effects
    ∧ (c.EquipWeapon script sd weapon).2.1.skills_id
      = (d._UpdatesAvailableSkills sd).skills_id := by
  have hframe := UpdatesAvailableSkills_nonSkillPart sd
    (({ c with weapon_equipped := weapon } : GlobalCharacter fm)._UpdateEquipmentStatusEffects
      script).1._CalculateAttackRatings
  have hattack := CalculateAttackRatings_congr
    (({ c with weapon_equipped := weapon } : GlobalCharacter fm)._UpdateEquipmentStatusEffects
      script).1 d hs.symm hv.symm he.symm hw.symm
  have hagg := aggregatedStatusEffects_congr
    ({ c with weapon_equipped := weapon } : GlobalCharacter fm) d hl.symm hw.symm ha.symm
  have hskills := UpdatesAvailableSkills_agree sd
    (({ c with weapon_equipped := weapon } : GlobalCharacter fm)._UpdateEquipmentStatusEffects
      script).1._CalculateAttackRatings d
    (by
      rw [hp]
      simp only [GlobalCharacter._CalculateAttackRatings,
        GlobalCharacter._UpdateEquipmentStatusEffects]
      cases weapon <;> rfl)
    (by
      rw [hw]
      simp only [GlobalCharacter._CalculateAttackRatings,
        GlobalCharacter._UpdateEquipmentStatusEffects]
      cases weapon <;> rfl)
    (by
      rw [ha]
      simp only [GlobalCharacter._CalculateAttackRatings,
        GlobalCharacter._UpdateEquipmentStatusEffects]
      cases weapon <;> rfl)
  refine ⟨?_, ?_, ?_, hskills.2.1⟩
  · exact (congrArg (fun x => x.total_physical_attack) hframe).trans hattack.1
  · exact (congrArg (fun x => x.total_magical_attack) hframe).trans hattack.2
  · refine (congrArg (fun x => x.equipment_status_effects) hframe).trans ?_
    refine Eq.trans ?_ (congrArg (fun l => l) hagg)
    simp only [GlobalCharacter._CalculateAttackRatings, GlobalCharacter.nonSkillPart,
      GlobalCharacter._UpdateEquipmentStatusEffects]
    cases weapon <;> rfl

/-- C4, as stated, fails: the character that knows the skill 7 without having
learned it permanently (it is the sample character after AddSkill(7, false))
loses that skill in the round trip EquipWeapon(W), EquipWeapon(returned
weapon): the set of skill ids is not the one before the first call. -/
theorem C4_equip_round_trip_counterexample :
    taughtCharacter.skills_id = [1, 7]
    ∧ (taughtCharacter.equipRoundTrip sampleScript sampleSkillData
        (some sampleWeapon)).skills_id = [1]
    ∧ ¬ taughtCharacter.SameDerivedState
        (taughtCharacter.equipRoundTrip sampleScript sampleSkillData (some sampleWeapon)) :=
  ⟨by decide, by decide, fun h => absurd ((h.2.2.2 7).mpr (by decide)) (by decide)⟩

/-- C4, amended: for every character whose attack totals and equipment status
effect intensities are up to date (they are what _CalculateAttackRatings and
_UpdateEquipmentStatusEffects compute for its stats and equipment) and whose set
of skill ids is the set that _UpdatesAvailableSkills computes for its permanent
skills and equipment, and every weapon W, EquipWeapon(W) followed by EquipWeapon
with the returned weapon leaves the same total physical attack, the same total
magical attacks, the same equipment status effect intensities and the same set
of skill ids as before the first call. -/
theorem C4_equip_round_trip_current (script : StatusEffectsScript) (sd : SkillData)
    (c : GlobalCharacter fm) (weapon : Option GlobalWeapon)
    (hcurrent : c.CachesCurrent script sd) :
    c.SameDerivedState (c.equipRoundTrip script sd weapon) := by
  obtain ⟨h1, h2, h3, h4⟩ := hcurrent
  obtain ⟨f0, _, f2, f3, f4, f5, f6, f7⟩ := EquipWeapon_frame script sd c weapon
  have hd := EquipWeapon_derived script sd (c.EquipWeapon script sd weapon).2.1 c
    (c.EquipWeapon script sd weapon).1 f0.symm f2.symm f3.symm f4.symm f5.symm f6.symm f7.symm
  unfold GlobalCharacter.SameDerivedState GlobalCharacter.equipRoundTrip
  simp only []
  refine ⟨hd.1.trans h1.symm, hd.2.1.trans h2.symm, hd.2.2.1.trans h3.symm, ?_⟩
  intro id
  rw [hd.2.2.2]
  exact (h4 id).symm

/-- Witness of C4, amended: the character that equipped the sample weapon and
then learned the skill 8 permanently.  Its skill ids are 1, 2, 8 in this order,
the rebuilt ones are 1, 8, 2: the sets are the same, and the round trip with the
weapon that grants the skills 2 and 4 keeps the derived state. -/
theorem C4_equip_round_trip_current_witness :
    reorderedCharacter.skills_id = [1, 2, 8]
    ∧ (reorderedCharacter._UpdatesAvailableSkills sampleSkillData).skills_id = [1, 8, 2]
    ∧ reorderedCharacter.SameDerivedState
        (reorderedCharacter.equipRoundTrip sampleScript sampleSkillData (some skillWeapon))
    ∧ (reorderedCharacter.equipRoundTrip sampleScript sampleSkillData
        (some skillWeapon)).skills_id = [1, 8, 2] :=
  ⟨by decide, by decide,
   C4_equip_round_trip_current sampleScript sampleSkillData reorderedCharacter
    (some skillWeapon)
    ⟨by decide, by decide, by decide, by
      intro id
      have e1 : reorderedCharacter.skills_id = [1, 2, 8] := by decide
      have e2 : (reorderedCharacter._UpdatesAvailableSkills sampleSkillData).skills_id
          = [1, 8, 2] := by decide
      rw [e1, e2]
      simp only [List.mem_cons, List.mem_singleton, List.not_mem_nil, or_false]
      constructor
      · rintro (h | h | h)
        · exact Or.inl h
        · exact Or.inr (Or.inr h)
        · exact Or.inr (Or.inl h)
      · rintro (h | h | h)
        · exact Or.inl h
        · exact Or.inr (Or.inr h)
        · exact Or.inr (Or.inl h)⟩,
   by decide⟩

/-- C8: after _CalculateAttackRatings the total physical attack is the strength
value plus the physical attack of the equipped weapon (plus nothing without a
weapon), and for each of the 7 elements e the total magical attack is (vigor
value + weapon magical attack) * elemental modifier of e with a weapon and vigor
value * elemental modifier of e without one; base strength 10 gives 10 unarmed,
15 after equipping a weapon of physical attack 5, and 10 again after unequipping. -/
theorem C8_attack_ratings (c : GlobalCharacter fm) :
    c._CalculateAttackRatings.total_physical_attack
      = (fm.toU32 c.strength.GetValue + weapon_physical_term c.weapon_equipped) % UINT32_SIZE
    ∧ (∀ e, e < GLOBAL_ELEMENTAL_TOTAL →
        c._CalculateAttackRatings.total_magical_attack[e]?
          = some (match c.weapon_equipped with
            | some weapon =>
              fm.toU32 (fm.mul (fm.add c.vigor.GetValue (fm.ofUInt32 weapon.magical_attack))
                (c.GetElementalModifier e))
            | none => fm.toU32 (fm.mul c.vigor.GetValue (c.GetElementalModifier e))))
    ∧ sampleCharacter.strength.base = 10
    ∧ sampleCharacter.weapon_equipped = none
    ∧ sampleCharacter._CalculateAttackRatings.total_physical_attack = 10
    ∧ sampleWeapon.physical_attack = 5
    ∧ (sampleCharacter.EquipWeapon sampleScript sampleSkillData
        (some sampleWeapon)).2.1.total_physical_attack = 15
    ∧ ((sampleCharacter.EquipWeapon sampleScript sampleSkillData
        (some sampleWeapon)).2.1.EquipWeapon sampleScript sampleSkillData
          none).2.1.total_physical_attack = 10 := by
  refine ⟨?_, ?_, by decide, by decide, by decide, by decide, by decide, by decide⟩
  · have hlt : fm.toU32 c.strength.GetValue < UINT32_SIZE :=
      Nat.mod_lt _ (by decide)
    unfold GlobalCharacter._CalculateAttackRatings weapon_physical_term
    cases c.weapon_equipped with
    | none => simp [Nat.mod_eq_of_lt hlt]
    | some weapon => rfl
  · intro e he
    unfold GlobalCharacter._CalculateAttackRatings
    cases c.weapon_equipped with
    | none => simp [List.getElem?_map, List.getElem?_range he]
    | some weapon => simp [List.getElem?_map, List.getElem?_range he]

/-- Witness of C8: the fire element of the sample character. -/
theorem C8_attack_ratings_witness :
    sampleCharacter._CalculateAttackRatings.total_magical_attack[0]? = some 8 :=
  (C8_attack_ratings sampleCharacter).2.1 0 (by decide)

end EquipTheorems

section EnemyTheorems

variable {fm : FloatModel}

/-- C10, as stated, fails: an enemy with stat randomization enabled and an empty
candidate skill set has no skill after the first Initialize(), so the second call
is not rejected and redraws the stats: with draws one above the mean the maximum
hit points go from 100 to 101 in the first call and to 102 in the second. -/
theorem C10_initialize_guard_counterexample :
    (sampleEnemyWith []).no_stat_randomization = false
    ∧ (sampleEnemyWith []).max_hit_points = 100
    ∧ ((sampleEnemyWith []).Initialize sampleRandom sampleSkillData 0).1.max_hit_points = 101
    ∧ ((((sampleEnemyWith []).Initialize sampleRandom sampleSkillData 0).1).Initialize
        sampleRandom sampleSkillData
        ((sampleEnemyWith []).Initialize sampleRandom sampleSkillData 0).2).1.max_hit_points
        = 102
    ∧ ¬ GlobalEnemy.sameStatsAndSkills
        ((sampleEnemyWith []).Initialize sampleRandom sampleSkillData 0).1
        ((((sampleEnemyWith []).Initialize sampleRandom sampleSkillData 0).1).Initialize
          sampleRandom sampleSkillData
          ((sampleEnemyWith []).Initialize sampleRandom sampleSkillData 0).2).1 :=
  ⟨by decide, by decide, by decide, by decide, fun h => absurd h.1 (by decide)⟩

/-- C10, amended: for every enemy with stat randomization enabled whose first
Initialize() call has materialized at least one skill, a repeated call of
Initialize() is rejected by the guard: it leaves the whole enemy (every stat, the
current hit and skill points and the skills) unchanged and draws no random value. -/
theorem C10_initialize_guard (rs : RandomSource fm) (sd : SkillData) (e : GlobalEnemy fm)
    (s s2 : rs.S) (_hrandom : e.no_stat_randomization = false)
    (hskills : (e.Initialize rs sd s).1.skills ≠ []) :
    (e.Initialize rs sd s).1.Initialize rs sd s2 = ((e.Initialize rs sd s).1, s2)
    ∧ GlobalEnemy.sameStatsAndSkills (e.Initialize rs sd s).1
        ((e.Initialize rs sd s).1.Initialize rs sd s2).1 := by
  have hguard : (e.Initialize rs sd s).1.Initialize rs sd s2 = ((e.Initialize rs sd s).1, s2) := by
    generalize (e.Initialize rs sd s).1 = e1 at hskills
    unfold GlobalEnemy.Initialize
    have hne : (e1.skills.isEmpty == false) = true := by
      cases hsk : e1.skills with
      | nil => exact absurd hsk hskills
      | cons x rest => rfl
    rw [if_pos hne]
  refine ⟨hguard, ?_⟩
  rw [hguard]
  exact ⟨rfl, rfl, rfl, rfl, rfl, rfl, rfl, rfl, rfl, rfl, rfl, rfl, rfl, rfl⟩

/-- Witness of C10, amended: the enemy whose candidate skill set is the skill 3. -/
theorem C10_initialize_guard_witness :
    ((sampleEnemyWith [3]).Initialize sampleRandom sampleSkillData 0).1.Initialize
        sampleRandom sampleSkillData 10
      = (((sampleEnemyWith [3]).Initialize sampleRandom sampleSkillData 0).1, 10)
    ∧ GlobalEnemy.sameStatsAndSkills
        ((sampleEnemyWith [3]).Initialize sampleRandom sampleSkillData 0).1
        (((sampleEnemyWith [3]).Initialize sampleRandom sampleSkillData 0).1.Initialize
          sampleRandom sampleSkillData 10).1 :=
  C10_initialize_guard sampleRandom sampleSkillData (sampleEnemyWith [3]) 0 10 (by decide)
    (by decide)

end EnemyTheorems

section PoolInvariantTheorems

variable {fm : FloatModel}

/-- C13: hit_points <= max_hit_points and skill_points <= max_skill_points is an
invariant of AddHitPoints, SubtractHitPoints, AddMaxHitPoints,
SubtractMaxHitPoints, AddSkillPoints, SubtractSkillPoints, AddMaxSkillPoints and
SubtractMaxSkillPoints, for every 32-bit amount. -/
theorem C13_pools_invariant (a : GlobalActor fm) (amount : Nat)
    (_hamount : amount < UINT32_SIZE) (htyped : a.PoolsTyped) (hinv : a.PoolsBounded) :
    (a.AddHitPoints amount).PoolsBounded
    ∧ (a.SubtractHitPoints amount).PoolsBounded
    ∧ (a.AddMaxHitPoints amount).PoolsBounded
    ∧ (a.SubtractMaxHitPoints amount).PoolsBounded
    ∧ (a.AddSkillPoints amount).PoolsBounded
    ∧ (a.SubtractSkillPoints amount).PoolsBounded
    ∧ (a.AddMaxSkillPoints amount).PoolsBounded
    ∧ (a.SubtractMaxSkillPoints amount).PoolsBounded := by
  obtain ⟨h1, h2, h3, h4⟩ := htyped
  obtain ⟨i1, i2⟩ := hinv
  simp only [UINT32_SIZE] at h1 h2 h3 h4
  refine ⟨?_, ?_, ?_, ?_, ?_, ?_, ?_, ?_⟩
  all_goals
    simp only [GlobalActor.PoolsBounded, GlobalActor.AddHitPoints,
      GlobalActor.SubtractHitPoints, GlobalActor.AddMaxHitPoints,
      GlobalActor.SubtractMaxHitPoints, GlobalActor.AddSkillPoints,
      GlobalActor.SubtractSkillPoints, GlobalActor.AddMaxSkillPoints,
      GlobalActor.SubtractMaxSkillPoints, UINT32_MAX, UINT32_SIZE]
    split_ifs <;> (try dsimp only) <;> (try constructor) <;> omega

/-- Witness of C13: 90 of 100 hit points and 5 of 20 skill points, amount 15. -/
theorem C13_pools_invariant_witness :
    (sampleActor.AddHitPoints 15).PoolsBounded
    ∧ (sampleActor.SubtractHitPoints 15).PoolsBounded
    ∧ (sampleActor.AddMaxHitPoints 15).PoolsBounded
    ∧ (sampleActor.SubtractMaxHitPoints 15).PoolsBounded
    ∧ (sampleActor.AddSkillPoints 15).PoolsBounded
    ∧ (sampleActor.SubtractSkillPoints 15).PoolsBounded
    ∧ (sampleActor.AddMaxSkillPoints 15).PoolsBounded
    ∧ (sampleActor.SubtractMaxSkillPoints 15).PoolsBounded :=
  C13_pools_invariant sampleActor 15 (by decide)
    (by unfold GlobalActor.PoolsTyped; decide) (by unfold GlobalActor.PoolsBounded; decide)

/-- C14: SubtractMaxHitPoints(amount) sets both max_hit_points and hit_points to 0
when the amount is greater than max_hit_points; otherwise it sets max_hit_points
to max_hit_points - amount and hit_points to the smaller of its old value and the
new maximum.  SubtractMaxSkillPoints does the same on the skill point pair. -/
theorem C14_subtract_max (a : GlobalActor fm) (amount : Nat) :
    (amount > a.max_hit_points →
      (a.SubtractMaxHitPoints amount).max_hit_points = 0
      ∧ (a.SubtractMaxHitPoints amount).hit_points = 0)
    ∧ (amount ≤ a.max_hit_points →
      (a.SubtractMaxHitPoints amount).max_hit_points = a.max_hit_points - amount
      ∧ (a.SubtractMaxHitPoints amount).hit_points
          = min a.hit_points (a.max_hit_points - amount))
    ∧ (amount > a.max_skill_points →
      (a.SubtractMaxSkillPoints amount).max_skill_points = 0
      ∧ (a.SubtractMaxSkillPoints amount).skill_points = 0)
    ∧ (amount ≤ a.max_skill_points →
      (a.SubtractMaxSkillPoints amount).max_skill_points = a.max_skill_points - amount
      ∧ (a.SubtractMaxSkillPoints amount).skill_points
          = min a.skill_points (a.max_skill_points - amount)) := by
  refine ⟨?_, ?_, ?_, ?_⟩
  all_goals
    intro h
    simp only [GlobalActor.SubtractMaxHitPoints, GlobalActor.SubtractMaxSkillPoints]
    split_ifs <;> (try dsimp only) <;> (try constructor) <;> omega

/-- Witness of C14: the sample actor (90 of 100 hit points, 5 of 20 skill points),
with an amount above the maxima and with the amount 15. -/
theorem C14_subtract_max_witness :
    ((sampleActor.SubtractMaxHitPoints 101).max_hit_points = 0
      ∧ (sampleActor.SubtractMaxHitPoints 101).hit_points = 0)
    ∧ ((sampleActor.SubtractMaxHitPoints 15).max_hit_points = sampleActor.max_hit_points - 15
      ∧ (sampleActor.SubtractMaxHitPoints 15).hit_points
          = min sampleActor.hit_points (sampleActor.max_hit_points - 15))
    ∧ ((sampleActor.SubtractMaxSkillPoints 101).max_skill_points = 0
      ∧ (sampleActor.SubtractMaxSkillPoints 101).skill_points = 0)
    ∧ ((sampleActor.SubtractMaxSkillPoints 15).max_skill_points
          = sampleActor.max_skill_points - 15
      ∧ (sampleActor.SubtractMaxSkillPoints 15).skill_points
          = min sampleActor.skill_points (sampleActor.max_skill_points - 15)) :=
  ⟨(C14_subtract_max sampleActor 101).1 (by decide),
   (C14_subtract_max sampleActor 15).2.1 (by decide),
   (C14_subtract_max sampleActor 101).2.2.1 (by decide),
   (C14_subtract_max sampleActor 15).2.2.2 (by decide)⟩

end PoolInvariantTheorems

section AccessorTheorems

variable {fm : FloatModel}

/-- C15: GetTotalPhysicalDefense(index), GetTotalMagicalDefense(index, element)
and GetTotalEvadeRating(index) return 0 (0.0 for evade) when index is not below
the number of attack points, and otherwise the cached total of attack point
number index; for GetTotalMagicalDefense an element outside the 7 valid
elements is read as the neutral element. -/
theorem C15_bounds_checked_accessors (a : GlobalActor fm) (index : Nat) (element : Int) :
    (index ≥ a.attack_points.length →
      a.GetTotalPhysicalDefense index = 0
      ∧ a.GetTotalMagicalDefense index element = 0
      ∧ a.GetTotalEvadeRating index = fm.ofInt32 0)
    ∧ (index < a.attack_points.length →
      ∃ ap, a.attack_points[index]? = some ap
        ∧ a.GetTotalPhysicalDefense index = ap.total_physical_defense
        ∧ a.GetTotalEvadeRating index = ap.total_evade_rating
        ∧ (0 ≤ element ∧ element < 7 →
            a.GetTotalMagicalDefense index element
              = ap.total_magical_defense.getD element.toNat 0)
        ∧ (element < 0 ∨ 7 ≤ element →
            a.GetTotalMagicalDefense index element = ap.total_magical_defense.getD 6 0)) := by
  constructor
  · intro h
    simp [GlobalActor.GetTotalPhysicalDefense, GlobalActor.GetTotalMagicalDefense,
      GlobalActor.GetTotalEvadeRating, h]
  · intro h
    have hnot : ¬ index ≥ a.attack_points.length := by omega
    refine ⟨a.attack_points.get ⟨index, h⟩, ?_, ?_, ?_, ?_, ?_⟩
    · simp [List.getElem?_eq_getElem h]
    · simp [GlobalActor.GetTotalPhysicalDefense, hnot]
    · simp [GlobalActor.GetTotalEvadeRating, hnot]
    · intro helement
      have hvalid : ¬ (element ≤ GLOBAL_ELEMENTAL_INVALID
          ∨ element ≥ (GLOBAL_ELEMENTAL_TOTAL : Int)) := by
        simp only [GLOBAL_ELEMENTAL_INVALID, GLOBAL_ELEMENTAL_TOTAL]
        omega
      simp only [GlobalActor.GetTotalMagicalDefense, dif_neg hnot, if_neg hvalid,
        GlobalAttackPoint.GetTotalMagicalDefense]
    · intro helement
      have hinvalid : element ≤ GLOBAL_ELEMENTAL_INVALID
          ∨ element ≥ (GLOBAL_ELEMENTAL_TOTAL : Int) := by
        simp only [GLOBAL_ELEMENTAL_INVALID, GLOBAL_ELEMENTAL_TOTAL]
        omega
      simp only [GlobalActor.GetTotalMagicalDefense, dif_neg hnot, if_pos hinvalid,
        GlobalAttackPoint.GetTotalMagicalDefense]
      rfl

/-- Witness of C15: the actor with two attack points, read outside the vector
(index 2) and at index 1, with the element 2 and with the element 9. -/
theorem C15_bounds_checked_accessors_witness :
    (twoPointActor.GetTotalPhysicalDefense 2 = 0
      ∧ twoPointActor.GetTotalMagicalDefense 2 2 = 0
      ∧ twoPointActor.GetTotalEvadeRating 2 = exactFloat.ofInt32 0)
    ∧ (∃ ap, twoPointActor.attack_points[1]? = some ap
        ∧ twoPointActor.GetTotalPhysicalDefense 1 = ap.total_physical_defense
        ∧ twoPointActor.GetTotalEvadeRating 1 = ap.total_evade_rating
        ∧ (0 ≤ (9 : Int) ∧ (9 : Int) < 7 →
            twoPointActor.GetTotalMagicalDefense 1 9
              = ap.total_magical_defense.getD (9 : Int).toNat 0)
        ∧ ((9 : Int) < 0 ∨ 7 ≤ (9 : Int) →
            twoPointActor.GetTotalMagicalDefense 1 9 = ap.total_magical_defense.getD 6 0)) :=
  ⟨(C15_bounds_checked_accessors twoPointActor 2 2).1 (by decide),
   (C15_bounds_checked_accessors twoPointActor 1 9).2 (by decide)⟩

theorem foldl_add_mod {α : Type} (f : α → Nat) (l : List α) (init : Nat) :
    l.foldl (fun acc x => (acc + f x) % UINT32_SIZE) (init % UINT32_SIZE)
      = (init + (l.map f).sum) % UINT32_SIZE := by
  induction l generalizing init with
  | nil => simp
  | cons x rest ih =>
    simp only [List.foldl_cons, List.map_cons, List.sum_cons]
    rw [Nat.mod_add_mod, ih, Nat.add_assoc]

/-- C16: GetAverageDefense() and GetAverageMagicalDefense(element) return 0 when
the actor has no attack points, and otherwise the sum (held in a uint32) of the
cached physical, respectively magical defenses of all attack points, divided by
the number of attack points and rounded down. -/
theorem C16_average_defense (a : GlobalActor fm) (element : Nat) :
    (a.attack_points = [] →
      a.GetAverageDefense = 0 ∧ a.GetAverageMagicalDefense element = 0)
    ∧ (a.attack_points ≠ [] →
      a.GetAverageDefense
        = ((a.attack_points.map (fun ap => ap.total_physical_defense)).sum % UINT32_SIZE)
            / a.attack_points.length
      ∧ a.GetAverageMagicalDefense element
        = ((a.attack_points.map
              (fun ap => ap.total_magical_defense.getD element 0)).sum % UINT32_SIZE)
            / a.attack_points.length) := by
  constructor
  · intro h
    simp [GlobalActor.GetAverageDefense, GlobalActor.GetAverageMagicalDefense, h]
  · intro h
    have hne : a.attack_points.isEmpty = false := by
      cases hp : a.attack_points with
      | nil => exact absurd hp h
      | cons x rest => rfl
    have h1 := foldl_add_mod (fun ap : GlobalAttackPoint fm => ap.total_physical_defense)
      a.attack_points 0
    have h2 := foldl_add_mod
      (fun ap : GlobalAttackPoint fm => ap.GetTotalMagicalDefense element) a.attack_points 0
    simp only [Nat.zero_mod, Nat.zero_add] at h1 h2
    constructor
    · simp only [GlobalActor.GetAverageDefense, hne, Bool.false_eq_true, if_false, h1]
    · simp only [GlobalActor.GetAverageMagicalDefense, hne, Bool.false_eq_true, if_false, h2]
      rfl

/-- Witness of C16: the actor with attack points of physical defense 50 and 7
averages to 28, and the sample actor without attack points to 0. -/
theorem C16_average_defense_witness :
    (sampleActor.GetAverageDefense = 0 ∧ sampleActor.GetAverageMagicalDefense 0 = 0)
    ∧ (twoPointActor.GetAverageDefense
        = ((twoPointActor.attack_points.map
              (fun ap => ap.total_physical_defense)).sum % UINT32_SIZE)
            / twoPointActor.attack_points.length
      ∧ twoPointActor.GetAverageMagicalDefense 0
        = ((twoPointActor.attack_points.map
              (fun ap => ap.total_magical_defense.getD 0 0)).sum % UINT32_SIZE)
            / twoPointActor.attack_points.length)
    ∧ twoPointActor.GetAverageDefense = 28 :=
  ⟨(C16_average_defense sampleActor 0).1 rfl,
   (C16_average_defense twoPointActor 0).2 (List.cons_ne_nil _ _), by decide⟩

/-- C12, as stated, fails: with owner fortitude 3 and fortitude modifier -0.9,
which is greater than -1.0, CalculateTotalDefense without armor stores 1, because
the product -2.7 is converted to the integer -2 before the sum; the formula
3 + 3 * -0.9 is 0.3, which is not 1 and is 0 as a uint32.  With the armor of
physical defense 20 the code stores 21 and the formula is 20.3. -/
theorem C12_physical_defense_formula_counterexample :
    centiFloat.gt fractionalAttackPoint.fortitude_modifier (centiFloat.ofInt32 (-1)) = true
    ∧ centiActor.GetFortitude = 3
    ∧ (fractionalAttackPoint.CalculateTotalDefense (some centiActor)
        none).total_physical_defense = 1
    ∧ physical_defense_formula fractionalAttackPoint centiActor none = 30
    ∧ physical_defense_formula fractionalAttackPoint centiActor none ≠ centiFloat.ofUInt32 1
    ∧ centiFloat.toU32 (physical_defense_formula fractionalAttackPoint centiActor none) = 0
    ∧ (fractionalAttackPoint.CalculateTotalDefense (some centiActor)
        (some sampleArmor)).total_physical_defense = 21
    ∧ physical_defense_formula fractionalAttackPoint centiActor (some sampleArmor) = 2030
    ∧ centiFloat.toU32
        (physical_defense_formula fractionalAttackPoint centiActor (some sampleArmor)) = 20 := by
  decide

/-- C12, amended: for an owned attack point whose fortitude modifier is greater
than -1.0, CalculateTotalDefense sets the total physical defense to owner
fortitude + the product owner fortitude * fortitude modifier converted to an
int32, the sum taken as a uint32, increased in uint32 arithmetic by the physical
defense of the armor when an armor is given and by nothing when it is absent. -/
theorem C12_physical_defense_truncated (ap : GlobalAttackPoint fm) (owner : GlobalActor fm)
    (h : fm.gt ap.fortitude_modifier (fm.ofInt32 (-1)) = true) :
    (ap.CalculateTotalDefense (some owner) none).total_physical_defense
      = truncated_fortitude_term ap owner
    ∧ ∀ armor : GlobalArmor,
        (ap.CalculateTotalDefense (some owner) (some armor)).total_physical_defense
          = (truncated_fortitude_term ap owner + armor.physical_defense) % UINT32_SIZE := by
  have hle : fm.le ap.fortitude_modifier (fm.ofInt32 (-1)) = false := by
    unfold FloatModel.gt at h
    cases hc : fm.le ap.fortitude_modifier (fm.ofInt32 (-1))
    · rfl
    · rw [hc] at h
      exact absurd h (by decide)
  refine ⟨?_, ?_⟩
  · simp [GlobalAttackPoint.CalculateTotalDefense, hle, truncated_fortitude_term]
  · intro armor
    simp [GlobalAttackPoint.CalculateTotalDefense, hle, truncated_fortitude_term]

/-- Witness of C12, amended: owner fortitude 3 and fortitude modifier -0.9 give
3 + (-2) = 1 without armor and 21 with the armor of physical defense 20; with
the modifier -0.5 the term is 3 + (-1) = 2. -/
theorem C12_physical_defense_truncated_witness :
    ((fractionalAttackPoint.CalculateTotalDefense (some centiActor)
        none).total_physical_defense
      = truncated_fortitude_term fractionalAttackPoint centiActor
    ∧ ∀ armor : GlobalArmor,
        (fractionalAttackPoint.CalculateTotalDefense (some centiActor)
          (some armor)).total_physical_defense
          = (truncated_fortitude_term fractionalAttackPoint centiActor
              + armor.physical_defense) % UINT32_SIZE)
    ∧ truncated_fortitude_term fractionalAttackPoint centiActor = 1
    ∧ (fractionalAttackPoint.CalculateTotalDefense (some centiActor)
        (some sampleArmor)).total_physical_defense = 21
    ∧ truncated_fortitude_term centiAttackPoint centiActor = 2 :=
  ⟨C12_physical_defense_truncated fractionalAttackPoint centiActor (by decide), by decide,
   by decide, by decide⟩

end AccessorTheorems

section ArmorTheorems

variable {fm : FloatModel}

/-- C17, as stated, fails: with the 4 armor slots of the sample character,
_EquipArmor(armor, 4) for a present armor returns that armor, not the empty item. -/
theorem C17_equip_armor_bounds_counterexample :
    4 ≥ sampleCharacter.armor_equipped.length
    ∧ (sampleCharacter._EquipArmor sampleScript sampleSkillData (some sampleArmor) 4).1
        = some sampleArmor
    ∧ (sampleCharacter._EquipArmor sampleScript sampleSkillData (some sampleArmor) 4).1
        ≠ none := by
  decide

/-- C17, amended: for every character, every armor argument and every slot index
that is out of range, _EquipArmor(armor, index) returns the armor argument itself
(the empty item exactly when the argument is empty). -/
theorem C17_equip_armor_bounds (script : StatusEffectsScript) (sd : SkillData)
    (c : GlobalCharacter fm) (armor : Option GlobalArmor) (index : Nat)
    (h : index ≥ c.armor_equipped.length) :
    (c._EquipArmor script sd armor index).1 = armor
    ∧ ((c._EquipArmor script sd armor index).1 = none ↔ armor = none) := by
  have hret : (c._EquipArmor script sd armor index).1 = armor := by
    unfold GlobalCharacter._EquipArmor
    rw [if_pos h]
  exact ⟨hret, by rw [hret]⟩

/-- Witness of C17, amended: the sample armor at slot index 4 of the sample character. -/
theorem C17_equip_armor_bounds_witness :
    (sampleCharacter._EquipArmor sampleScript sampleSkillData (some sampleArmor) 4).1
        = some sampleArmor
    ∧ ((sampleCharacter._EquipArmor sampleScript sampleSkillData (some sampleArmor) 4).1 = none
        ↔ some sampleArmor = none) :=
  C17_equip_armor_bounds sampleScript sampleSkillData sampleCharacter (some sampleArmor) 4
    (by decide)

end ArmorTheorems

section EnemyStatTheorems

variable {fm : FloatModel}

theorem EnemyAddSkill_nonSkillPart (sd : SkillData) (e : GlobalEnemy fm) (skill_id : Nat) :
    (e.AddSkill sd skill_id).2.nonSkillPart = e.nonSkillPart := by
  unfold GlobalEnemy.AddSkill
  split_ifs <;> rfl

theorem EnemyAddSkills_nonSkillPart (sd : SkillData) (ids : List Nat) (e : GlobalEnemy fm) :
    (ids.foldl (fun acc id => (GlobalEnemy.AddSkill sd acc id).2) e).nonSkillPart
      = e.nonSkillPart := by
  induction ids generalizing e with
  | nil => rfl
  | cons id rest ih =>
    simp only [List.foldl_cons]
    rw [ih, EnemyAddSkill_nonSkillPart]

/-- Without stat randomization Initialize writes only the skills and the current
hit and skill points, and draws no random value. -/
theorem Initialize_fixed (rs : RandomSource fm) (sd : SkillData) (e : GlobalEnemy fm)
    (s : rs.S) (hflag : e.no_stat_randomization = true) :
    GlobalEnemy.sameBaseStats e (e.Initialize rs sd s).1
    ∧ (e.Initialize rs sd s).1.no_stat_randomization = true
    ∧ (e.Initialize rs sd s).2 = s
    ∧ (e.skills = [] →
        (e.Initialize rs sd s).1.hit_points = (e.Initialize rs sd s).1.max_hit_points
        ∧ (e.Initialize rs sd s).1.skill_points
            = (e.Initialize rs sd s).1.max_skill_points) := by
  have hframe := EnemyAddSkills_nonSkillPart sd e.skill_set e
  have hflag2 : (e.skill_set.foldl (fun acc id => (GlobalEnemy.AddSkill sd acc id).2)
      e).no_stat_randomization = true :=
    (congrArg (fun x => x.no_stat_randomization) hframe).trans hflag
  unfold GlobalEnemy.Initialize
  by_cases hguard : (e.skills.isEmpty == false) = true
  · rw [if_pos hguard]
    refine ⟨⟨rfl, rfl, rfl, rfl, rfl, rfl, rfl, rfl, rfl, rfl⟩, hflag, rfl, ?_⟩
    intro hempty
    rw [hempty] at hguard
    exact absurd hguard (by decide)
  · rw [if_neg hguard]
    have hneg : ¬ (((e.skill_set.foldl (fun acc id => (GlobalEnemy.AddSkill sd acc id).2)
        e).no_stat_randomization == false) = true) := by
      rw [hflag2]
      decide
    dsimp only
    rw [if_neg hneg]
    refine ⟨⟨?_, ?_, ?_, ?_, ?_, ?_, ?_, ?_, ?_, ?_⟩, hflag2, rfl, fun _ => ⟨rfl, rfl⟩⟩
    · exact congrArg (fun x => x.max_hit_points) hframe
    · exact congrArg (fun x => x.max_skill_points) hframe
    · exact congrArg (fun x => x.experience_points) hframe
    · exact congrArg (fun x => x.strength) hframe
    · exact congrArg (fun x => x.vigor) hframe
    · exact congrArg (fun x => x.fortitude) hframe
    · exact congrArg (fun x => x.protection) hframe
    · exact congrArg (fun x => x.agility) hframe
    · exact congrArg (fun x => x.evade) hframe
    · exact congrArg (fun x => x.drunes_dropped) hframe

/-- C11, as stated, fails: the enemy without stat randomization that Initialize()
has given the skill 3 and that has then lost 10 of its 100 hit points is rejected
by the guard of a further Initialize(), which leaves its current hit points at 90
instead of setting them to the maximum 100. -/
theorem C11_fixed_stats_counterexample :
    damagedEnemy.no_stat_randomization = true
    ∧ damagedEnemy.skills_id = [3]
    ∧ (damagedEnemy.Initialize sampleRandom sampleSkillData 0).1.max_hit_points = 100
    ∧ (damagedEnemy.Initialize sampleRandom sampleSkillData 0).1.hit_points = 90
    ∧ (damagedEnemy.Initialize sampleRandom sampleSkillData 0).1.hit_points
        ≠ (damagedEnemy.Initialize sampleRandom sampleSkillData 0).1.max_hit_points := by
  decide

/-- C11, amended: for every enemy with no_stat_randomization = true, Initialize()
leaves every base stat equal to its value before the call and draws nothing from
the random source; when the enemy holds no skill at the call it sets the current
hit points to the maximum hit points and the current skill points to the maximum
skill points; initializing it twice produces identical stat values both times. -/
theorem C11_fixed_stats (rs : RandomSource fm) (sd : SkillData) (e : GlobalEnemy fm)
    (s s2 : rs.S) (hflag : e.no_stat_randomization = true) :
    GlobalEnemy.sameBaseStats e (e.Initialize rs sd s).1
    ∧ (e.Initialize rs sd s).2 = s
    ∧ (e.skills = [] →
        (e.Initialize rs sd s).1.hit_points = (e.Initialize rs sd s).1.max_hit_points
        ∧ (e.Initialize rs sd s).1.skill_points
            = (e.Initialize rs sd s).1.max_skill_points)
    ∧ GlobalEnemy.sameBaseStats (e.Initialize rs sd s).1
        ((e.Initialize rs sd s).1.Initialize rs sd s2).1 := by
  obtain ⟨h1, h2, h3, h4⟩ := Initialize_fixed rs sd e s hflag
  exact ⟨h1, h3, h4, (Initialize_fixed rs sd (e.Initialize rs sd s).1 s2 h2).1⟩

/-- Witness of C11, amended: the enemy without stat randomization whose candidate
skill set is the skill 3. -/
theorem C11_fixed_stats_witness :
    GlobalEnemy.sameBaseStats (fixedEnemyWith [3])
      ((fixedEnemyWith [3]).Initialize sampleRandom sampleSkillData 0).1
    ∧ ((fixedEnemyWith [3]).Initialize sampleRandom sampleSkillData 0).2 = 0
    ∧ ((fixedEnemyWith [3]).skills = [] →
        ((fixedEnemyWith [3]).Initialize sampleRandom sampleSkillData 0).1.hit_points
          = ((fixedEnemyWith [3]).Initialize sampleRandom sampleSkillData 0).1.max_hit_points
        ∧ ((fixedEnemyWith [3]).Initialize sampleRandom sampleSkillData 0).1.skill_points
          = ((fixedEnemyWith [3]).Initialize sampleRandom sampleSkillData
              0).1.max_skill_points)
    ∧ GlobalEnemy.sameBaseStats
        ((fixedEnemyWith [3]).Initialize sampleRandom sampleSkillData 0).1
        (((fixedEnemyWith [3]).Initialize sampleRandom sampleSkillData 0).1.Initialize
          sampleRandom sampleSkillData 5).1 :=
  C11_fixed_stats sampleRandom sampleSkillData (fixedEnemyWith [3]) 0 5 (by decide)

end EnemyStatTheorems

section SkillListTheorems

variable {fm : FloatModel}

theorem any_beq_iff_mem (l : List Nat) (id : Nat) :
    l.any (fun x => x == id) = true ↔ id ∈ l := by
  simp [List.any_eq_true]

theorem AddSkill_skills_id (sd : SkillData) (c : GlobalCharacter fm) (skill_id : Nat)
    (permanently : Bool) (h : sd.Loads skill_id) :
    (c.AddSkill sd skill_id permanently).2.skills_id
      = if c.skills_id.any (fun x => x == skill_id) then c.skills_id
        else c.skills_id ++ [skill_id] := by
  obtain ⟨h0, hvalid, htype⟩ := h
  unfold GlobalCharacter.AddSkill GlobalActor.HasSkill
  simp only [if_neg h0, hvalid, Bool.not_true, Bool.false_eq_true, if_false]
  by_cases hknown : c.skills_id.any (fun x => x == skill_id) = true
  · simp only [hknown, if_true]
    split_ifs <;> rfl
  · simp only [hknown, if_false]
    rcases htype with ht | ht | ht | ht <;> rw [ht] <;> cases permanently <;> rfl

theorem addSkillsOf_skills_id (sd : SkillData) (ids : List Nat) (c : GlobalCharacter fm)
    (h : ∀ id ∈ ids, sd.Loads id) :
    (c.addSkillsOf sd ids).skills_id = addIds c.skills_id ids := by
  induction ids generalizing c with
  | nil => rfl
  | cons id rest ih =>
    simp only [GlobalCharacter.addSkillsOf, addIds, List.foldl_cons] at ih ⊢
    rw [ih _ (fun x hx => h x (List.mem_cons_of_mem _ hx)),
      AddSkill_skills_id sd c id false (h id (List.mem_cons_self _ _))]

theorem addIds_append (known ids more : List Nat) :
    addIds known (ids ++ more) = addIds (addIds known ids) more := by
  unfold addIds
  rw [List.foldl_append]

theorem addArmorSkills_skills_id (sd : SkillData) (armors : List (Option GlobalArmor))
    (c : GlobalCharacter fm) (h : ∀ id ∈ armorSkillIds armors, sd.Loads id) :
    (c.addArmorSkills sd armors).skills_id = addIds c.skills_id (armorSkillIds armors) := by
  induction armors generalizing c with
  | nil => rfl
  | cons slot rest ih =>
    simp only [GlobalCharacter.addArmorSkills, List.foldl_cons] at ih ⊢
    cases slot with
    | none => exact ih c h
    | some armor =>
      simp only [armorSkillIds] at h ⊢
      rw [ih _ (fun x hx => h x (List.mem_append_right _ hx)),
        addSkillsOf_skills_id sd _ c (fun x hx => h x (List.mem_append_left _ hx)),
        addIds_append]

theorem addIds_eq (ids known : List Nat) :
    addIds known ids
      = known ++ (firstOccurrences ids).filter (fun y => !known.any (fun x => x == y)) := by
  induction ids generalizing known with
  | nil => simp [addIds, firstOccurrences]
  | cons id rest ih =>
    have hstep : addIds known (id :: rest)
        = addIds (if known.any (fun x => x == id) then known else known ++ [id]) rest := rfl
    rw [hstep, ih]
    by_cases hknown : known.any (fun x => x == id) = true
    · have hmem : id ∈ known := (any_beq_iff_mem known id).mp hknown
      rw [if_pos hknown]
      simp only [hknown, firstOccurrences, List.filter_cons, Bool.not_true,
        Bool.false_eq_true, if_false, List.filter_filter]
      congr 1
      apply List.filter_congr
      intro y _
      by_cases hy : y = id
      · subst hy
        simp [hmem]
      · simp [hy]
    · have hmem : id ∉ known := fun hm => hknown ((any_beq_iff_mem known id).mpr hm)
      rw [if_neg hknown]
      have hknown2 : known.any (fun x => x == id) = false := by
        cases hb : known.any (fun x => x == id)
        · rfl
        · exact absurd hb hknown
      simp only [hknown2, firstOccurrences, List.filter_cons, Bool.not_false,
        if_true, List.filter_filter, List.append_assoc, List.singleton_append]
      congr 2
      apply List.filter_congr
      intro y _
      by_cases hy : y = id
      · subst hy
        simp
      · have hy2 : ¬ id = y := fun hh => hy hh.symm
        have hb1 : (id == y) = false := by simp [hy2]
        have hb2 : (y != id) = true := by simp [hy]
        simp only [List.any_append, List.any_cons, List.any_nil, Bool.or_false, Bool.not_or,
          hb1, hb2, Bool.not_false, Bool.and_true]

theorem firstOccurrences_nodup (ids : List Nat) : (firstOccurrences ids).Nodup := by
  induction ids with
  | nil => simp [firstOccurrences]
  | cons id rest ih =>
    simp only [firstOccurrences, List.nodup_cons]
    exact ⟨by simp [List.mem_filter], ih.filter _⟩

/-- C18: after _UpdatesAvailableSkills the skill id list is the concatenation of
the permanent skill ids, the ids granted by the equipped weapon and the ids
granted by the equipped armors in slot order 0..3, with every id kept only at its
first occurrence, provided that every id is non-zero and loads as a valid skill of
a recognized type; no id appears twice. -/
theorem C18_available_skill_ids (sd : SkillData) (c : GlobalCharacter fm)
    (hloads : ∀ id ∈ c.sourceSkillIds, sd.Loads id) :
    (c._UpdatesAvailableSkills sd).skills_id = firstOccurrences c.sourceSkillIds
    ∧ (c._UpdatesAvailableSkills sd).skills_id.Nodup := by
  have hframe1 := addSkillsOf_nonSkillPart sd c.clearSkills.permanent_skills c.clearSkills
  have hframe2 := (addWeaponSkills_nonSkillPart sd
    (c.clearSkills.addSkillsOf sd c.clearSkills.permanent_skills)).trans hframe1
  have hweapon : (c.clearSkills.addSkillsOf sd c.clearSkills.permanent_skills).weapon_equipped
      = c.weapon_equipped := by
    have e1 := congrArg GlobalCharacter.weapon_equipped hframe1
    exact e1
  have harmor : ((c.clearSkills.addSkillsOf sd
      c.clearSkills.permanent_skills).addWeaponSkills sd).armor_equipped
      = c.armor_equipped := by
    have e2 := congrArg GlobalCharacter.armor_equipped hframe2
    exact e2
  have hp : ∀ id ∈ c.clearSkills.permanent_skills, sd.Loads id := fun id hid =>
    hloads id (List.mem_append_left _ (List.mem_append_left _ hid))
  have ha : ∀ id ∈ armorSkillIds c.armor_equipped, sd.Loads id := fun id hid =>
    hloads id (List.mem_append_right _ hid)
  have hids : (c._UpdatesAvailableSkills sd).skills_id = addIds [] c.sourceSkillIds := by
    unfold GlobalCharacter._UpdatesAvailableSkills GlobalCharacter.sourceSkillIds
    dsimp only
    rw [harmor, addArmorSkills_skills_id sd _ _ ha, addIds_append, addIds_append]
    congr 1
    unfold GlobalCharacter.addWeaponSkills
    rw [hweapon]
    cases hw : c.weapon_equipped with
    | none =>
      dsimp only
      rw [addSkillsOf_skills_id sd _ _ hp]
      rfl
    | some weapon =>
      have hwl : ∀ id ∈ weapon.equipment_skills, sd.Loads id := fun id hid =>
        hloads id (by
          unfold GlobalCharacter.sourceSkillIds
          rw [hw]
          exact List.mem_append_left _ (List.mem_append_right _ hid))
      dsimp only
      rw [addSkillsOf_skills_id sd _ _ hwl, addSkillsOf_skills_id sd _ _ hp]
      rfl
  have heq : (c._UpdatesAvailableSkills sd).skills_id = firstOccurrences c.sourceSkillIds := by
    rw [hids, addIds_eq]
    simp
  exact ⟨heq, heq ▸ firstOccurrences_nodup _⟩

/-- Witness of C18: permanent skills 1 and 2, a weapon granting 2 and 4 and a leg
armor granting 1 and 6 give the skill ids 1, 2, 4, 6. -/
theorem C18_available_skill_ids_witness :
    ((skilledCharacter._UpdatesAvailableSkills sampleSkillData).skills_id
        = firstOccurrences skilledCharacter.sourceSkillIds
      ∧ (skilledCharacter._UpdatesAvailableSkills sampleSkillData).skills_id.Nodup)
    ∧ skilledCharacter.sourceSkillIds = [1, 2, 2, 4, 1, 6]
    ∧ (skilledCharacter._UpdatesAvailableSkills sampleSkillData).skills_id = [1, 2, 4, 6] :=
  ⟨C18_available_skill_ids sampleSkillData skilledCharacter
      (by unfold SkillData.Loads; decide),
   by decide, by decide⟩

/-- AddSkill keeps the permanent skill list free of duplicates and inside the
skill id list. -/
theorem AddSkill_permanent_nodup (sd : SkillData) (c : GlobalCharacter fm) (skill_id : Nat)
    (permanently : Bool)
    (hnodup : c.permanent_skills.Nodup)
    (hknown : ∀ x ∈ c.permanent_skills, x ∈ c.skills_id) :
    (c.AddSkill sd skill_id permanently).2.permanent_skills.Nodup
    ∧ ∀ x ∈ (c.AddSkill sd skill_id permanently).2.permanent_skills,
        x ∈ (c.AddSkill sd skill_id permanently).2.skills_id := by
  unfold GlobalCharacter.AddSkill GlobalActor.HasSkill
  by_cases h0 : skill_id = 0
  · rw [if_pos h0]
    exact ⟨hnodup, hknown⟩
  rw [if_neg h0]
  by_cases hvalid : (!sd.IsValid skill_id) = true
  · rw [if_pos hvalid]
    exact ⟨hnodup, hknown⟩
  rw [if_neg hvalid]
  by_cases hhas : c.skills_id.any (fun x => x == skill_id) = true
  · rw [if_pos hhas]
    have hmem : skill_id ∈ c.skills_id := (any_beq_iff_mem _ _).mp hhas
    cases permanently with
    | false => exact ⟨hnodup, hknown⟩
    | true =>
      rw [if_pos rfl]
      by_cases hfound : c.permanent_skills.any (fun x => x == skill_id) = true
      · rw [if_pos hfound]
        exact ⟨hnodup, hknown⟩
      · rw [if_neg hfound]
        have hnot : skill_id ∉ c.permanent_skills := fun hm =>
          hfound ((any_beq_iff_mem _ _).mpr hm)
        refine ⟨?_, ?_⟩
        · exact List.Nodup.append hnodup (List.nodup_singleton _)
            (by simpa using hnot)
        · intro x hx
          rcases List.mem_append.mp hx with hx1 | hx1
          · exact hknown x hx1
          · rw [List.mem_singleton.mp hx1]
            exact hmem
  · rw [if_neg hhas]
    have hnotmem : skill_id ∉ c.skills_id := fun hm => hhas ((any_beq_iff_mem _ _).mpr hm)
    have hnot : skill_id ∉ c.permanent_skills := fun hm => hnotmem (hknown _ hm)
    have hnodup2 : (c.permanent_skills ++ [skill_id]).Nodup :=
      List.Nodup.append hnodup (List.nodup_singleton _) (by simpa using hnot)
    have hsub : ∀ x ∈ c.permanent_skills, x ∈ c.skills_id ++ [skill_id] := fun x hx =>
      List.mem_append_left _ (hknown x hx)
    have hsub2 : ∀ x ∈ c.permanent_skills ++ [skill_id], x ∈ c.skills_id ++ [skill_id] := by
      intro x hx
      rcases List.mem_append.mp hx with hx1 | hx1
      · exact hsub x hx1
      · exact List.mem_append_right _ hx1
    cases sd.GetType skill_id <;> cases permanently <;>
      first
      | exact ⟨hnodup, hknown⟩
      | exact ⟨hnodup, hsub⟩
      | exact ⟨hnodup2, hsub2⟩

/-- C19: for a character that already knows a valid skill id s, AddSkill(s,
permanently) returns true and leaves the skill list, the skill id list and the
four type buckets unchanged; afterwards s is in the permanent skill list exactly
when it was there before or permanently is true, and it occurs there at most once
(the list holding it at most once before the call).  AddSkill(0, permanently)
returns false and changes nothing. -/
theorem C19_add_known_skill (sd : SkillData) (c : GlobalCharacter fm) (s : Nat)
    (permanently : Bool)
    (hknown : c.HasSkill s = true) (hs : s ≠ 0) (hvalid : sd.IsValid s = true)
    (honce : c.permanent_skills.count s ≤ 1) :
    (c.AddSkill sd s permanently).1 = true
    ∧ (c.AddSkill sd s permanently).2.skills = c.skills
    ∧ (c.AddSkill sd s permanently).2.skills_id = c.skills_id
    ∧ (c.AddSkill sd s permanently).2.weapon_skills = c.weapon_skills
    ∧ (c.AddSkill sd s permanently).2.magic_skills = c.magic_skills
    ∧ (c.AddSkill sd s permanently).2.special_skills = c.special_skills
    ∧ (c.AddSkill sd s permanently).2.bare_hands_skills = c.bare_hands_skills
    ∧ (s ∈ (c.AddSkill sd s permanently).2.permanent_skills
        ↔ s ∈ c.permanent_skills ∨ permanently = true)
    ∧ (c.AddSkill sd s permanently).2.permanent_skills.count s ≤ 1
    ∧ c.AddSkill sd 0 permanently = (false, c) := by
  have hzero : c.AddSkill sd 0 permanently = (false, c) := by
    unfold GlobalCharacter.AddSkill
    rw [if_pos rfl]
  have hv : ¬ ((!sd.IsValid s) = true) := by
    rw [hvalid]
    decide
  unfold GlobalCharacter.AddSkill at *
  rw [if_neg hs, if_neg hv, if_pos hknown]
  cases permanently with
  | false =>
    rw [if_neg (by decide)]
    exact ⟨rfl, rfl, rfl, rfl, rfl, rfl, rfl, by simp, honce, hzero⟩
  | true =>
    rw [if_pos rfl]
    by_cases hfound : c.permanent_skills.any (fun x => x == s) = true
    · rw [if_pos hfound]
      have hmem : s ∈ c.permanent_skills := (any_beq_iff_mem _ _).mp hfound
      exact ⟨rfl, rfl, rfl, rfl, rfl, rfl, rfl, by simp [hmem], honce, hzero⟩
    · rw [if_neg hfound]
      have hnot : s ∉ c.permanent_skills := fun hm =>
        hfound ((any_beq_iff_mem _ _).mpr hm)
      have hcount : c.permanent_skills.count s = 0 := List.count_eq_zero.mpr hnot
      refine ⟨rfl, rfl, rfl, rfl, rfl, rfl, rfl, by simp, ?_, hzero⟩
      simp [List.count_append, hcount]

/-- Witness of C19: the sample character knows the skill 1, which is permanent;
the character that was taught the skill 7 knows it without it being permanent. -/
theorem C19_add_known_skill_witness :
    (taughtCharacter.AddSkill sampleSkillData 7 true).1 = true
    ∧ (taughtCharacter.AddSkill sampleSkillData 7 true).2.skills = taughtCharacter.skills
    ∧ (taughtCharacter.AddSkill sampleSkillData 7 true).2.skills_id = taughtCharacter.skills_id
    ∧ (taughtCharacter.AddSkill sampleSkillData 7 true).2.weapon_skills
        = taughtCharacter.weapon_skills
    ∧ (taughtCharacter.AddSkill sampleSkillData 7 true).2.magic_skills
        = taughtCharacter.magic_skills
    ∧ (taughtCharacter.AddSkill sampleSkillData 7 true).2.special_skills
        = taughtCharacter.special_skills
    ∧ (taughtCharacter.AddSkill sampleSkillData 7 true).2.bare_hands_skills
        = taughtCharacter.bare_hands_skills
    ∧ (7 ∈ (taughtCharacter.AddSkill sampleSkillData 7 true).2.permanent_skills
        ↔ 7 ∈ taughtCharacter.permanent_skills ∨ true = true)
    ∧ (taughtCharacter.AddSkill sampleSkillData 7 true).2.permanent_skills.count 7 ≤ 1
    ∧ taughtCharacter.AddSkill sampleSkillData 0 true = (false, taughtCharacter) :=
  C19_add_known_skill sampleSkillData taughtCharacter 7 true (by decide) (by decide)
    (by decide) (by decide)

/-- C20, the code at the failing inputs: the character that knows the skills 1
and 7 (7 being the last one added) and has an empty list of newly learned skills
gets true from AddNewSkillLearned(1), and the entry appended is the skill 7, not
the skill 1; for the id 200, which does not load, AddNewSkillLearned(200) returns
true and appends nothing. -/
theorem C20_new_skill_learned_wrong_entry :
    taughtCharacter.skills_id = [1, 7]
    ∧ taughtCharacter.new_skills_learned = []
    ∧ (taughtCharacter.AddNewSkillLearned sampleSkillData 1).1 = true
    ∧ (taughtCharacter.AddNewSkillLearned sampleSkillData 1).2.new_skills_learned
        = [{ id := 7, type := GLOBAL_SKILL.GLOBAL_SKILL_WEAPON }]
    ∧ ((taughtCharacter.AddNewSkillLearned sampleSkillData 1).2.new_skills_learned.any
        (fun skill => skill.id == 1)) = false
    ∧ sampleSkillData.IsValid 200 = false
    ∧ (taughtCharacter.AddNewSkillLearned sampleSkillData 200).1 = true
    ∧ (taughtCharacter.AddNewSkillLearned sampleSkillData 200).2.new_skills_learned = [] := by
  decide

end SkillListTheorems

section ExperienceTheorems

variable {fm : FloatModel}

/-- C21, as stated, fails: with 100 points still needed and the amount
3000000000, AddExperiencePoints leaves 1294967396 points needed instead of
decreasing them by the amount, and returns false although the amount is at least
the points that were needed. -/
theorem C21_add_experience_counterexample :
    sampleCharacter.experience_for_next_level = 100
    ∧ (sampleCharacter.AddExperiencePoints 3000000000).2.experience_for_next_level
        = 1294967396
    ∧ (sampleCharacter.AddExperiencePoints 3000000000).2.experience_for_next_level
        ≠ sampleCharacter.experience_for_next_level - 3000000000
    ∧ (sampleCharacter.AddExperiencePoints 3000000000).1 = false
    ∧ (3000000000 : Int) ≥ sampleCharacter.experience_for_next_level := by
  decide

/-- C21, amended: for every character and every amount xp such that
experience_points + xp is below 2^32 and the points needed minus xp stay in the
int32 range, AddExperiencePoints(xp) increases experience_points by xp, decreases
the points needed for the next level by xp, and returns true exactly when the
points needed are <= 0 after the subtraction, that is exactly when xp is at least
the points that were still needed. -/
theorem C21_add_experience (c : GlobalCharacter fm) (xp : Nat)
    (hexp : c.experience_points + xp < UINT32_SIZE)
    (hlow : -2147483648 ≤ c.experience_for_next_level - (xp : Int))
    (hhigh : c.experience_for_next_level < 2147483648) :
    (c.AddExperiencePoints xp).2.experience_points = c.experience_points + xp
    ∧ (c.AddExperiencePoints xp).2.experience_for_next_level
        = c.experience_for_next_level - (xp : Int)
    ∧ ((c.AddExperiencePoints xp).1 = true
        ↔ (c.AddExperiencePoints xp).2.experience_for_next_level ≤ 0)
    ∧ ((c.AddExperiencePoints xp).1 = true ↔ c.experience_for_next_level ≤ (xp : Int)) := by
  have hwrap : wrapInt32 (c.experience_for_next_level - (xp : Int))
      = c.experience_for_next_level - (xp : Int) := by
    unfold wrapInt32
    omega
  simp only [GlobalCharacter.AddExperiencePoints, GlobalCharacter.ReachedNewExperienceLevel,
    hwrap, Nat.mod_eq_of_lt hexp, decide_eq_true_eq]
  refine ⟨trivial, trivial, trivial, ?_⟩
  omega

/-- Witness of C21, amended: 100 points needed, amounts 30 and then 100. -/
theorem C21_add_experience_witness :
    ((sampleCharacter.AddExperiencePoints 30).2.experience_points
        = sampleCharacter.experience_points + 30
      ∧ (sampleCharacter.AddExperiencePoints 30).2.experience_for_next_level
        = sampleCharacter.experience_for_next_level - ((30 : Nat) : Int)
      ∧ ((sampleCharacter.AddExperiencePoints 30).1 = true
        ↔ (sampleCharacter.AddExperiencePoints 30).2.experience_for_next_level ≤ 0)
      ∧ ((sampleCharacter.AddExperiencePoints 30).1 = true
        ↔ sampleCharacter.experience_for_next_level ≤ ((30 : Nat) : Int)))
    ∧ (sampleCharacter.AddExperiencePoints 30).1 = false
    ∧ (sampleCharacter.AddExperiencePoints 100).1 = true :=
  ⟨C21_add_experience sampleCharacter 30 (by decide) (by decide) (by decide),
   by decide, by decide⟩

end ExperienceTheorems

section ArmorAtomicityTheorems

variable {fm : FloatModel}

/-- C26: for every character, every armor argument and every out-of-range slot
index, _EquipArmor(armor, index) leaves the whole character as it was (armor
slots, weapon, equipment status effect intensities, attack points, skill lists)
and makes no status effect handler call. -/
theorem C26_equip_armor_bounds_atomic (script : StatusEffectsScript) (sd : SkillData)
    (c : GlobalCharacter fm) (armor : Option GlobalArmor) (index : Nat)
    (h : index ≥ c.armor_equipped.length) :
    (c._EquipArmor script sd armor index).2.1 = c
    ∧ (c._EquipArmor script sd armor index).2.2 = [] := by
  unfold GlobalCharacter._EquipArmor
  rw [if_pos h]
  exact ⟨rfl, rfl⟩

/-- Witness of C26: the sample armor at slot index 7 of the character with a
weapon and an armor. -/
theorem C26_equip_armor_bounds_atomic_witness :
    (strengthCharacter._EquipArmor sampleScript sampleSkillData (some sampleArmor) 7).2.1
        = strengthCharacter
    ∧ (strengthCharacter._EquipArmor sampleScript sampleSkillData (some sampleArmor) 7).2.2
        = [] :=
  C26_equip_armor_bounds_atomic sampleScript sampleSkillData strengthCharacter
    (some sampleArmor) 7 (by decide)

end ArmorAtomicityTheorems

section OrderTheorems

variable {fm : FloatModel}

/-- C29: for every equipment set and every status type to which all the equipped
items contribute with the same sign, the intensity aggregated by
_UpdateEquipmentStatusEffects is the sum of the contributions clamped to -4..+4;
hence an equipment set with the same contributions in another order yields the
same intensity. -/
theorem C29_same_sign_clamped_sum (script : StatusEffectsScript) (c d : GlobalCharacter fm)
    (t : Nat) (htc : t < c.equipment_status_effects.length)
    (htd : t < d.equipment_status_effects.length)
    (hsign : (∀ x ∈ c.contributions t, 0 ≤ x) ∨ (∀ x ∈ c.contributions t, x ≤ 0))
    (hperm : (d.contributions t).Perm (c.contributions t)) :
    (c._UpdateEquipmentStatusEffects script).1.equipment_status_effects.getD t 0
      = clampIntensity (c.contributions t).sum
    ∧ (d._UpdateEquipmentStatusEffects script).1.equipment_status_effects.getD t 0
      = (c._UpdateEquipmentStatusEffects script).1.equipment_status_effects.getD t 0 := by
  have hsum : (d.contributions t).sum = (c.contributions t).sum := hperm.sum_eq
  simp only [GlobalCharacter._UpdateEquipmentStatusEffects]
  rw [aggregatedStatusEffects_getD c t htc, aggregatedStatusEffects_getD d t htd]
  unfold clampIntensity GLOBAL_INTENSITY_NEG_EXTREME GLOBAL_INTENSITY_POS_EXTREME
  rcases hsign with hpos | hneg
  · have hposd : ∀ x ∈ d.contributions t, 0 ≤ x := fun x hx => hpos x (hperm.mem_iff.mp hx)
    have hnonneg : 0 ≤ (c.contributions t).sum := List.sum_nonneg hpos
    rw [foldl_saturatingAdd_nonneg _ 0 (by omega) hpos,
      foldl_saturatingAdd_nonneg _ 0 (by omega) hposd, hsum]
    omega
  · have hnegd : ∀ x ∈ d.contributions t, x ≤ 0 := fun x hx => hneg x (hperm.mem_iff.mp hx)
    have hnonpos : (c.contributions t).sum ≤ 0 := list_sum_nonpos _ hneg
    rw [foldl_saturatingAdd_nonpos _ 0 (by omega) hneg,
      foldl_saturatingAdd_nonpos _ 0 (by omega) hnegd, hsum]
    omega

/-- Witness of C29: +3 from the weapon and +2 from an armor, against +2 from the
weapon and +3 from an armor: both give the clamped sum +4. -/
theorem C29_same_sign_clamped_sum_witness :
    (strengthCharacter._UpdateEquipmentStatusEffects sampleScript).1.equipment_status_effects.getD
        GLOBAL_STATUS_STRENGTH 0
      = clampIntensity (strengthCharacter.contributions GLOBAL_STATUS_STRENGTH).sum
    ∧ (swappedStrengthCharacter._UpdateEquipmentStatusEffects
        sampleScript).1.equipment_status_effects.getD GLOBAL_STATUS_STRENGTH 0
      = (strengthCharacter._UpdateEquipmentStatusEffects
        sampleScript).1.equipment_status_effects.getD GLOBAL_STATUS_STRENGTH 0 :=
  C29_same_sign_clamped_sum sampleScript strengthCharacter swappedStrengthCharacter
    GLOBAL_STATUS_STRENGTH (by decide) (by decide) (Or.inl (by decide))
    (List.Perm.swap 3 2 [])

end OrderTheorems

section ParallelTheorems

variable {fm : FloatModel}

/-- The two lists are parallel and duplicate-free exactly when the ids of the
skills, in order, are the id list, and the id list has no duplicate. -/
theorem SkillsParallel_iff (skills : List GlobalSkill) (ids : List Nat) :
    SkillsParallel skills ids ↔ skills.map (fun s => s.id) = ids ∧ ids.Nodup := by
  constructor
  · rintro ⟨hlen, hpoint, hnodup⟩
    refine ⟨?_, hnodup⟩
    apply List.ext_getElem?
    intro i
    rw [List.getElem?_map]
    cases hsk : skills[i]? with
    | none =>
      have hi : skills.length ≤ i := List.getElem?_eq_none_iff.mp hsk
      rw [List.getElem?_eq_none (by omega)]
      rfl
    | some skill =>
      rw [hpoint i skill hsk]
      rfl
  · rintro ⟨hmap, hnodup⟩
    subst hmap
    refine ⟨by simp, ?_, hnodup⟩
    intro i skill hsk
    rw [List.getElem?_map, hsk]
    rfl

theorem CharacterAddSkill_parallel (sd : SkillData) (c : GlobalCharacter fm) (skill_id : Nat)
    (permanently : Bool) (h : SkillsParallel c.skills c.skills_id) :
    SkillsParallel (c.AddSkill sd skill_id permanently).2.skills
      (c.AddSkill sd skill_id permanently).2.skills_id := by
  rw [SkillsParallel_iff] at h ⊢
  obtain ⟨hmap, hnodup⟩ := h
  unfold GlobalCharacter.AddSkill GlobalActor.HasSkill
  by_cases h0 : skill_id = 0
  · rw [if_pos h0]
    exact ⟨hmap, hnodup⟩
  rw [if_neg h0]
  by_cases hvalid : (!sd.IsValid skill_id) = true
  · rw [if_pos hvalid]
    exact ⟨hmap, hnodup⟩
  rw [if_neg hvalid]
  by_cases hhas : c.skills_id.any (fun x => x == skill_id) = true
  · rw [if_pos hhas]
    split_ifs <;> exact ⟨hmap, hnodup⟩
  · rw [if_neg hhas]
    have hnotmem : skill_id ∉ c.skills_id := fun hm => hhas ((any_beq_iff_mem _ _).mpr hm)
    have hmap2 : ∀ ty : GLOBAL_SKILL, (c.skills ++ [({ id := skill_id, type := ty } :
        GlobalSkill)]).map (fun s => s.id) = c.skills_id ++ [skill_id] := by
      intro ty
      rw [List.map_append, hmap]
      rfl
    have hnodup2 : (c.skills_id ++ [skill_id]).Nodup :=
      List.Nodup.append hnodup (List.nodup_singleton _) (by simpa using hnotmem)
    cases sd.GetType skill_id <;> cases permanently <;>
      first
      | exact ⟨hmap, hnodup⟩
      | exact ⟨hmap2 _, hnodup2⟩

theorem addSkillsOf_parallel (sd : SkillData) (ids : List Nat) (c : GlobalCharacter fm)
    (h : SkillsParallel c.skills c.skills_id) :
    SkillsParallel (c.addSkillsOf sd ids).skills (c.addSkillsOf sd ids).skills_id := by
  induction ids generalizing c with
  | nil => exact h
  | cons id rest ih =>
    simp only [GlobalCharacter.addSkillsOf, List.foldl_cons] at ih ⊢
    exact ih _ (CharacterAddSkill_parallel sd c id false h)

theorem addArmorSkills_parallel (sd : SkillData) (armors : List (Option GlobalArmor))
    (c : GlobalCharacter fm) (h : SkillsParallel c.skills c.skills_id) :
    SkillsParallel (c.addArmorSkills sd armors).skills
      (c.addArmorSkills sd armors).skills_id := by
  induction armors generalizing c with
  | nil => exact h
  | cons slot rest ih =>
    simp only [GlobalCharacter.addArmorSkills, List.foldl_cons] at ih ⊢
    cases slot with
    | none => exact ih c h
    | some armor => exact ih _ (addSkillsOf_parallel sd _ c h)

theorem UpdatesAvailableSkills_parallel (sd : SkillData) (c : GlobalCharacter fm) :
    SkillsParallel (c._UpdatesAvailableSkills sd).skills
      (c._UpdatesAvailableSkills sd).skills_id := by
  have hcleared : SkillsParallel c.clearSkills.skills c.clearSkills.skills_id :=
    (SkillsParallel_iff _ _).mpr ⟨rfl, List.nodup_nil⟩
  have h1 := addSkillsOf_parallel sd c.clearSkills.permanent_skills c.clearSkills hcleared
  have h2 : SkillsParallel
      ((c.clearSkills.addSkillsOf sd c.clearSkills.permanent_skills).addWeaponSkills sd).skills
      ((c.clearSkills.addSkillsOf sd
        c.clearSkills.permanent_skills).addWeaponSkills sd).skills_id := by
    unfold GlobalCharacter.addWeaponSkills
    split
    · exact addSkillsOf_parallel sd _ _ h1
    · exact h1
  exact addArmorSkills_parallel sd _ _ h2

theorem EnemyAddSkill_parallel (sd : SkillData) (e : GlobalEnemy fm) (skill_id : Nat)
    (h : SkillsParallel e.skills e.skills_id) :
    SkillsParallel (e.AddSkill sd skill_id).2.skills (e.AddSkill sd skill_id).2.skills_id := by
  rw [SkillsParallel_iff] at h ⊢
  obtain ⟨hmap, hnodup⟩ := h
  unfold GlobalEnemy.AddSkill GlobalActor.HasSkill
  by_cases h0 : skill_id = 0
  · rw [if_pos h0]
    exact ⟨hmap, hnodup⟩
  rw [if_neg h0]
  by_cases hhas : e.skills_id.any (fun x => x == skill_id) = true
  · rw [if_pos hhas]
    exact ⟨hmap, hnodup⟩
  · rw [if_neg hhas]
    have hnotmem : skill_id ∉ e.skills_id := fun hm => hhas ((any_beq_iff_mem _ _).mpr hm)
    split_ifs
    · exact ⟨hmap, hnodup⟩
    · refine ⟨?_, List.Nodup.append hnodup (List.nodup_singleton _) (by simpa using hnotmem)⟩
      show (e.skills ++ [({ id := skill_id, type := sd.GetType skill_id } :
        GlobalSkill)]).map (fun s => s.id) = e.skills_id ++ [skill_id]
      rw [List.map_append, hmap]
      rfl

/-- C30: if the skill list and the skill id list are parallel and duplicate-free,
they still are after Character AddSkill (any id, either permanence flag, valid or
invalid skill) and after Enemy AddSkill; they are after _UpdatesAvailableSkills;
Enemy AddSkill returns false and changes nothing for an id of 0 or an id the
enemy already has. -/
theorem C30_skills_parallel (sd : SkillData) (c : GlobalCharacter fm) (e : GlobalEnemy fm)
    (skill_id : Nat) (permanently : Bool) :
    (SkillsParallel c.skills c.skills_id →
      SkillsParallel (c.AddSkill sd skill_id permanently).2.skills
        (c.AddSkill sd skill_id permanently).2.skills_id)
    ∧ (SkillsParallel c.skills c.skills_id →
      SkillsParallel (c._UpdatesAvailableSkills sd).skills
        (c._UpdatesAvailableSkills sd).skills_id)
    ∧ (SkillsParallel e.skills e.skills_id →
      SkillsParallel (e.AddSkill sd skill_id).2.skills (e.AddSkill sd skill_id).2.skills_id)
    ∧ (skill_id = 0 ∨ e.HasSkill skill_id = true → e.AddSkill sd skill_id = (false, e)) := by
  refine ⟨CharacterAddSkill_parallel sd c skill_id permanently,
    fun _ => UpdatesAvailableSkills_parallel sd c,
    EnemyAddSkill_parallel sd e skill_id, ?_⟩
  intro h
  unfold GlobalEnemy.AddSkill
  rcases h with h0 | hknown
  · rw [if_pos h0]
  · by_cases h0 : skill_id = 0
    · rw [if_pos h0]
    · rw [if_neg h0, if_pos hknown]

/-- Witness of C30: the sample character, which knows the skill 1, with
AddSkill(7, true), and the enemy without skills with AddSkill(3) and AddSkill(0). -/
theorem C30_skills_parallel_witness :
    SkillsParallel (sampleCharacter.AddSkill sampleSkillData 7 true).2.skills
        (sampleCharacter.AddSkill sampleSkillData 7 true).2.skills_id
    ∧ SkillsParallel (sampleCharacter._UpdatesAvailableSkills sampleSkillData).skills
        (sampleCharacter._UpdatesAvailableSkills sampleSkillData).skills_id
    ∧ SkillsParallel ((sampleEnemyWith [3]).AddSkill sampleSkillData 3).2.skills
        ((sampleEnemyWith [3]).AddSkill sampleSkillData 3).2.skills_id
    ∧ (sampleEnemyWith [3]).AddSkill sampleSkillData 0 = (false, sampleEnemyWith [3]) :=
  ⟨(C30_skills_parallel sampleSkillData sampleCharacter (sampleEnemyWith [3]) 7 true).1
      ((SkillsParallel_iff _ _).mpr ⟨rfl, by decide⟩),
   (C30_skills_parallel sampleSkillData sampleCharacter (sampleEnemyWith [3]) 7 true).2.1
      ((SkillsParallel_iff _ _).mpr ⟨rfl, by decide⟩),
   (C30_skills_parallel sampleSkillData sampleCharacter (sampleEnemyWith [3]) 3 true).2.2.1
      ((SkillsParallel_iff _ _).mpr ⟨rfl, by decide⟩),
   (C30_skills_parallel sampleSkillData sampleCharacter (sampleEnemyWith [3]) 0 true).2.2.2
      (Or.inl rfl)⟩

/-- C27, the code at the failing input: the sample character knows the skill 1 and
its list of newly learned skills is empty; AddNewSkillLearned(7) returns true and
records the skill 7; AddNewSkillLearned(1) then returns true and records the
skill 7 a second time, so that two entries of the list have the id 7. -/
theorem C27_new_skills_duplicate :
    sampleCharacter.skills_id = [1]
    ∧ sampleCharacter.new_skills_learned = []
    ∧ (sampleCharacter.AddNewSkillLearned sampleSkillData 7).1 = true
    ∧ ((sampleCharacter.AddNewSkillLearned sampleSkillData 7).2.new_skills_learned.map
        (fun skill => skill.id)) = [7]
    ∧ ((sampleCharacter.AddNewSkillLearned sampleSkillData 7).2.AddNewSkillLearned
        sampleSkillData 1).1 = true
    ∧ (((sampleCharacter.AddNewSkillLearned sampleSkillData 7).2.AddNewSkillLearned
        sampleSkillData 1).2.new_skills_learned.map (fun skill => skill.id)) = [7, 7]
    ∧ ¬ (((sampleCharacter.AddNewSkillLearned sampleSkillData 7).2.AddNewSkillLearned
        sampleSkillData 1).2.new_skills_learned.map (fun skill => skill.id)).Nodup := by
  decide

end ParallelTheorems

section DropTheorems

variable {fm : FloatModel}

theorem dropLoop_eq (rs : RandomSource fm) (ids : List Nat) (chances : List fm.F) (s : rs.S) :
    (GlobalEnemy.dropLoop rs ids chances s).1
      = ((((ids.zip chances).zip (randomDraws rs ids.length s)).filter
          (fun trial => fm.lt trial.2 trial.1.2)).map (fun trial => trial.1.1)) := by
  induction ids generalizing chances s with
  | nil => simp [GlobalEnemy.dropLoop]
  | cons id rest ih =>
    cases chances with
    | nil => simp [GlobalEnemy.dropLoop]
    | cons chance more =>
      simp only [GlobalEnemy.dropLoop, List.zip_cons_cons, List.length_cons, randomDraws,
        List.filter_cons]
      by_cases hdrop : fm.lt (rs.RandomFloat s).1 chance = true
      · simp only [hdrop, if_true, List.map_cons, ih]
      · simp only [hdrop, if_false, Bool.false_eq_true, ih]

/-- C24: for every drop table, every prior content of the output list and every
sequence of draws, DetermineDroppedObjects produces a list that does not depend on
the prior content and consists, in table order, of exactly the entries whose draw
is below their probability; the output is never longer than the drop table; with
draws in [0,1) an entry of probability <= 0 is never dropped and an entry of
probability >= 1 is always dropped. -/
theorem C24_dropped_objects (rs : RandomSource fm) (e : GlobalEnemy fm)
    (objects other : List Nat) (s : rs.S)
    (_hlen : e.dropped_objects.length = e.dropped_chance.length)
    (htrans : ∀ a b c : fm.F, fm.le a b = true → fm.le b c = true → fm.le a c = true)
    (hdraws : ∀ r ∈ randomDraws rs e.dropped_objects.length s,
      fm.le (fm.ofInt32 0) r = true ∧ fm.lt r (fm.ofInt32 1) = true) :
    (e.DetermineDroppedObjects rs objects s).1 = e.expectedDrops rs s
    ∧ e.DetermineDroppedObjects rs other s = e.DetermineDroppedObjects rs objects s
    ∧ (e.DetermineDroppedObjects rs objects s).1.length ≤ e.dropped_objects.length
    ∧ (∀ trial ∈ e.dropTrials rs s, fm.le trial.1.2 (fm.ofInt32 0) = true →
        fm.lt trial.2 trial.1.2 = false)
    ∧ (∀ trial ∈ e.dropTrials rs s, fm.le (fm.ofInt32 1) trial.1.2 = true →
        fm.lt trial.2 trial.1.2 = true) := by
  have hout : (e.DetermineDroppedObjects rs objects s).1 = e.expectedDrops rs s := by
    unfold GlobalEnemy.DetermineDroppedObjects GlobalEnemy.expectedDrops GlobalEnemy.dropTrials
    simp only [List.take_zero, List.nil_append]
    exact dropLoop_eq rs _ _ s
  have hdraw_of : ∀ trial ∈ e.dropTrials rs s,
      trial.2 ∈ randomDraws rs e.dropped_objects.length s := by
    intro trial htrial
    unfold GlobalEnemy.dropTrials at htrial
    exact (List.of_mem_zip htrial).2
  refine ⟨hout, ?_, ?_, ?_, ?_⟩
  · unfold GlobalEnemy.DetermineDroppedObjects
    simp only [List.take_zero]
  · rw [hout]
    unfold GlobalEnemy.expectedDrops GlobalEnemy.dropTrials
    rw [List.length_map]
    refine (List.length_filter_le _ _).trans ?_
    rw [List.length_zip, List.length_zip]
    omega
  · intro trial htrial hzero
    have hr := (hdraws trial.2 (hdraw_of trial htrial)).1
    have hle : fm.le trial.1.2 trial.2 = true := htrans _ _ _ hzero hr
    unfold FloatModel.lt
    rw [hle]
    rfl
  · intro trial htrial hone
    have hr := (hdraws trial.2 (hdraw_of trial htrial)).2
    unfold FloatModel.lt at hr ⊢
    cases hle : fm.le trial.1.2 trial.2 with
    | false => rfl
    | true =>
      have h1 : fm.le (fm.ofInt32 1) trial.2 = true := htrans _ _ _ hone hle
      rw [h1] at hr
      exact absurd hr (by decide)

/-- Witness of C24: the drop table (10, 0), (11, 1), (12, 0), (13, 2) with draws
that are all 0 yields the items 11 and 13, whatever the list held before. -/
theorem C24_dropped_objects_witness :
    ((droppingEnemy.DetermineDroppedObjects sampleRandom [5, 5] 0).1
        = droppingEnemy.expectedDrops sampleRandom 0
      ∧ droppingEnemy.DetermineDroppedObjects sampleRandom [] 0
        = droppingEnemy.DetermineDroppedObjects sampleRandom [5, 5] 0
      ∧ (droppingEnemy.DetermineDroppedObjects sampleRandom [5, 5] 0).1.length
        ≤ droppingEnemy.dropped_objects.length
      ∧ (∀ trial ∈ droppingEnemy.dropTrials sampleRandom 0,
          exactFloat.le trial.1.2 (exactFloat.ofInt32 0) = true →
          exactFloat.lt trial.2 trial.1.2 = false)
      ∧ (∀ trial ∈ droppingEnemy.dropTrials sampleRandom 0,
          exactFloat.le (exactFloat.ofInt32 1) trial.1.2 = true →
          exactFloat.lt trial.2 trial.1.2 = true))
    ∧ (droppingEnemy.DetermineDroppedObjects sampleRandom [5, 5] 0).1 = [11, 13] :=
  ⟨C24_dropped_objects sampleRandom droppingEnemy [5, 5] [] 0 (by decide)
      (fun a b c hab hbc => by
        have h1 : a ≤ b := of_decide_eq_true hab
        have h2 : b ≤ c := of_decide_eq_true hbc
        exact decide_eq_true (Int.le_trans h1 h2))
      (by decide),
   by decide⟩

end DropTheorems

section CopyTheorems

variable {fm : FloatModel}

/-- C28, the code at the failing input: a has one attack point (fortitude modifier
-1.0, cached physical defense 0) and the skill id 1, b has one attack point
(fortitude modifier 0, cached physical defense 7) and the skill id 4.  After a = b,
a has two attack points, both with the values of the old attack point of a, and the
skill ids 1 and 4.  The actor copy-constructed from b has the attack point and the
skill id list of b. -/
theorem C28_copy_assignment_appends :
    copiedActor.attack_points.length = 1
    ∧ copiedActor.attack_points.map (fun ap => ap.total_physical_defense) = [7]
    ∧ copiedActor.skills_id = [4]
    ∧ (assignedActor.operatorAssign copiedActor).attack_points.length = 2
    ∧ (assignedActor.operatorAssign copiedActor).attack_points.map
        (fun ap => ap.total_physical_defense) = [0, 0]
    ∧ (assignedActor.operatorAssign copiedActor).attack_points.map
        (fun ap => ap.fortitude_modifier) = [-1, -1]
    ∧ (assignedActor.operatorAssign copiedActor).skills_id = [1, 4]
    ∧ (assignedActor.operatorAssign copiedActor).skills_id ≠ copiedActor.skills_id
    ∧ copiedActor.copyConstruct.attack_points = copiedActor.attack_points
    ∧ copiedActor.copyConstruct.skills_id = copiedActor.skills_id := by
  refine ⟨by decide, by decide, by decide, by decide, by decide, by decide, by decide,
    by decide, rfl, by decide⟩

end CopyTheorems

section GrowthTheorems

variable {fm : FloatModel}

theorem AddNewSkillLearned_nonLearnedPart (sd : SkillData) (c : GlobalCharacter fm)
    (skill_id : Nat) :
    (c.AddNewSkillLearned sd skill_id).2.nonLearnedPart = c.nonLearnedPart := by
  have hadd : (c.AddSkill sd skill_id GlobalCharacter.AddSkill_permanently_default).2.nonLearnedPart
      = c.nonLearnedPart := by
    have h := AddSkill_nonSkillPart sd c skill_id GlobalCharacter.AddSkill_permanently_default
    unfold GlobalCharacter.nonLearnedPart
    rw [h]
  unfold GlobalCharacter.AddNewSkillLearned
  by_cases h0 : skill_id = 0
  · rw [if_pos h0]
  rw [if_neg h0]
  by_cases hrec : c.new_skills_learned.any (fun skill => skill_id == skill.id) = true
  · rw [if_pos hrec]
  rw [if_neg hrec]
  dsimp only
  by_cases hfail : (!(c.AddSkill sd skill_id
      GlobalCharacter.AddSkill_permanently_default).1) = true
  · rw [if_pos hfail]
    exact hadd
  rw [if_neg hfail]
  split
  · exact hadd
  · exact hadd

theorem learnNewSkills_nonLearnedPart (script : GrowthScript fm) (sd : SkillData)
    (c : GlobalCharacter fm) :
    (c.learnNewSkills script sd).nonLearnedPart = c.nonLearnedPart := by
  have hfold : ∀ (ids : List Nat) (x : GlobalCharacter fm),
      (ids.foldl (fun acc id => (acc.AddNewSkillLearned sd id).2) x).nonLearnedPart
        = x.nonLearnedPart := by
    intro ids
    induction ids with
    | nil => intro x; rfl
    | cons id rest ih =>
      intro x
      simp only [List.foldl_cons]
      rw [ih, AddNewSkillLearned_nonLearnedPart]
  unfold GlobalCharacter.learnNewSkills
  dsimp only
  rw [hfold]
  rfl

theorem AddStrength_levelAndPools (c : GlobalCharacter fm) (amount : Nat) :
    (c.AddStrength amount).levelAndPools = c.levelAndPools := by
  unfold GlobalCharacter.AddStrength GlobalCharacter._CalculateAttackRatings
  dsimp only
  split <;> rfl

theorem AddVigor_levelAndPools (c : GlobalCharacter fm) (amount : Nat) :
    (c.AddVigor amount).levelAndPools = c.levelAndPools := by
  unfold GlobalCharacter.AddVigor GlobalCharacter._CalculateAttackRatings
  dsimp only
  split <;> rfl

theorem AddFortitude_levelAndPools (c : GlobalCharacter fm) (amount : Nat) :
    (c.AddFortitude amount).levelAndPools = c.levelAndPools := rfl

theorem AddProtection_levelAndPools (c : GlobalCharacter fm) (amount : Nat) :
    (c.AddProtection amount).levelAndPools = c.levelAndPools := rfl

theorem AddAgility_levelAndPools (c : GlobalCharacter fm) (amount : Nat) :
    (c.AddAgility amount).levelAndPools = c.levelAndPools := rfl

theorem AddEvade_levelAndPools (c : GlobalCharacter fm) (amount : fm.F) :
    (c.AddEvade amount).levelAndPools = c.levelAndPools := rfl

theorem ite_levelAndPools (p : Prop) [Decidable p] (x y : GlobalCharacter fm)
    (h : y.levelAndPools = x.levelAndPools) :
    (if p then y else x).levelAndPools = x.levelAndPools := by
  split_ifs
  · exact h
  · rfl

theorem applyStatGrowth_levelAndPools (IsFloatEqual : fm.F → fm.F → Bool)
    (c : GlobalCharacter fm) :
    (c.applyStatGrowth IsFloatEqual).levelAndPools = c.levelAndPools := by
  unfold GlobalCharacter.applyStatGrowth
  dsimp only
  refine (ite_levelAndPools _ _ _ (AddEvade_levelAndPools _ _)).trans ?_
  refine (ite_levelAndPools _ _ _ (AddAgility_levelAndPools _ _)).trans ?_
  refine (ite_levelAndPools _ _ _ (AddProtection_levelAndPools _ _)).trans ?_
  refine (ite_levelAndPools _ _ _ (AddFortitude_levelAndPools _ _)).trans ?_
  refine (ite_levelAndPools _ _ _ (AddVigor_levelAndPools _ _)).trans ?_
  exact ite_levelAndPools _ _ _ (AddStrength_levelAndPools _ _)

theorem applyHitPointsGrowth_spec (c : GlobalCharacter fm)
    (hg : c.hit_points_growth ≠ 0) (hgt : c.hit_points_growth < UINT32_SIZE)
    (hhp : c.hit_points < UINT32_SIZE) (hmax : c.max_hit_points < UINT32_SIZE) :
    c.applyHitPointsGrowth.max_hit_points
      = min (c.max_hit_points + c.hit_points_growth) UINT32_MAX
    ∧ (c.hit_points = 0 → c.applyHitPointsGrowth.hit_points = 0)
    ∧ (c.hit_points > 0 → c.applyHitPointsGrowth.hit_points
        = min (c.hit_points + c.hit_points_growth) c.applyHitPointsGrowth.max_hit_points) := by
  simp only [UINT32_SIZE] at hgt hhp hmax
  unfold GlobalCharacter.applyHitPointsGrowth
  rw [if_pos hg]
  simp only [GlobalCharacter.withActor, GlobalActor.AddMaxHitPoints, GlobalActor.AddHitPoints,
    UINT32_MAX, UINT32_SIZE]
  refine ⟨?_, ?_, ?_⟩
  · split_ifs <;> (try dsimp only at *) <;> omega
  · intro h0
    split_ifs <;> (try dsimp only at *) <;> omega
  · intro hpos
    split_ifs <;> (try dsimp only at *) <;> omega

theorem applySkillPointsGrowth_spec (c : GlobalCharacter fm)
    (hg : c.skill_points_growth ≠ 0) (hgt : c.skill_points_growth < UINT32_SIZE)
    (hsp : c.skill_points < UINT32_SIZE) (hmax : c.max_skill_points < UINT32_SIZE) :
    c.applySkillPointsGrowth.max_skill_points
      = min (c.max_skill_points + c.skill_points_growth) UINT32_MAX
    ∧ (c.skill_points = 0 → c.applySkillPointsGrowth.skill_points = 0)
    ∧ (c.skill_points > 0 → c.applySkillPointsGrowth.skill_points
        = min (c.skill_points + c.skill_points_growth)
            c.applySkillPointsGrowth.max_skill_points) := by
  simp only [UINT32_SIZE] at hgt hsp hmax
  unfold GlobalCharacter.applySkillPointsGrowth
  rw [if_pos hg]
  simp only [GlobalCharacter.withActor, GlobalActor.AddMaxSkillPoints,
    GlobalActor.AddSkillPoints, UINT32_MAX, UINT32_SIZE]
  refine ⟨?_, ?_, ?_⟩
  · split_ifs <;> (try dsimp only at *) <;> omega
  · intro h0
    split_ifs <;> (try dsimp only at *) <;> omega
  · intro hpos
    split_ifs <;> (try dsimp only at *) <;> omega

theorem applyHitPointsGrowth_frame (c : GlobalCharacter fm) :
    c.applyHitPointsGrowth.experience_level = c.experience_level
    ∧ c.applyHitPointsGrowth.skill_points = c.skill_points
    ∧ c.applyHitPointsGrowth.max_skill_points = c.max_skill_points
    ∧ c.applyHitPointsGrowth.skill_points_growth = c.skill_points_growth := by
  unfold GlobalCharacter.applyHitPointsGrowth
  simp only [GlobalCharacter.withActor, GlobalActor.AddMaxHitPoints, GlobalActor.AddHitPoints]
  split_ifs <;> exact ⟨rfl, rfl, rfl, rfl⟩

theorem applySkillPointsGrowth_frame (c : GlobalCharacter fm) :
    c.applySkillPointsGrowth.experience_level = c.experience_level
    ∧ c.applySkillPointsGrowth.hit_points = c.hit_points
    ∧ c.applySkillPointsGrowth.max_hit_points = c.max_hit_points := by
  unfold GlobalCharacter.applySkillPointsGrowth
  simp only [GlobalCharacter.withActor, GlobalActor.AddMaxSkillPoints,
    GlobalActor.AddSkillPoints]
  split_ifs <;> exact ⟨rfl, rfl, rfl⟩

theorem applyStatGrowth_fields (IsFloatEqual : fm.F → fm.F → Bool) (c : GlobalCharacter fm) :
    (c.applyStatGrowth IsFloatEqual).experience_level = c.experience_level
    ∧ (c.applyStatGrowth IsFloatEqual).hit_points = c.hit_points
    ∧ (c.applyStatGrowth IsFloatEqual).max_hit_points = c.max_hit_points
    ∧ (c.applyStatGrowth IsFloatEqual).skill_points = c.skill_points
    ∧ (c.applyStatGrowth IsFloatEqual).max_skill_points = c.max_skill_points := by
  have h := applyStatGrowth_levelAndPools IsFloatEqual c
  unfold GlobalCharacter.levelAndPools at h
  simp only [Prod.mk.injEq] at h
  exact h

/-- The level-up of a character whose threshold is crossed and whose data file
opens, as the steps of AcknowledgeGrowth. -/
theorem AcknowledgeGrowth_steps (script : GrowthScript fm) (sd : SkillData)
    (IsFloatEqual : fm.F → fm.F → Bool) (c : GlobalCharacter fm)
    (hreach : c.ReachedNewExperienceLevel = true) (hopen : script.OpenFile = true) :
    c.AcknowledgeGrowth script sd IsFloatEqual
      = (((((({ c with experience_level := (c.experience_level + 1) % UINT32_SIZE } :
          GlobalCharacter fm).determineGrowth script).learnNewSkills script
            sd).applyHitPointsGrowth).applySkillPointsGrowth).applyStatGrowth
              IsFloatEqual) := by
  unfold GlobalCharacter.AcknowledgeGrowth
  simp [hreach, hopen]

/-- C22: AcknowledgeGrowth leaves the character (its experience level and every
stat) unchanged when the level threshold has not been crossed; when it has been
crossed it raises the experience level, a uint32, by exactly one, whatever the
accumulated experience. -/
theorem C22_acknowledge_growth_level (script : GrowthScript fm) (sd : SkillData)
    (IsFloatEqual : fm.F → fm.F → Bool) (c : GlobalCharacter fm) :
    (c.ReachedNewExperienceLevel = false →
      c.AcknowledgeGrowth script sd IsFloatEqual = c)
    ∧ (c.ReachedNewExperienceLevel = true →
      (c.AcknowledgeGrowth script sd IsFloatEqual).experience_level
        = (c.experience_level + 1) % UINT32_SIZE
      ∧ (c.experience_level < UINT32_MAX →
        (c.AcknowledgeGrowth script sd IsFloatEqual).experience_level
          = c.experience_level + 1)) := by
  constructor
  · intro h
    unfold GlobalCharacter.AcknowledgeGrowth
    simp [h]
  · intro hreach
    have hlevel : (c.AcknowledgeGrowth script sd IsFloatEqual).experience_level
        = (c.experience_level + 1) % UINT32_SIZE := by
      cases hopen : script.OpenFile with
      | false =>
        unfold GlobalCharacter.AcknowledgeGrowth
        simp [hreach, hopen]
      | true =>
        rw [AcknowledgeGrowth_steps script sd IsFloatEqual c hreach hopen]
        rw [(applyStatGrowth_fields IsFloatEqual _).1, (applySkillPointsGrowth_frame _).1,
          (applyHitPointsGrowth_frame _).1]
        have h4 := congrArg (fun x => x.experience_level)
          (learnNewSkills_nonLearnedPart script sd (GlobalCharacter.determineGrowth script
            ({ c with experience_level := (c.experience_level + 1) % UINT32_SIZE } :
              GlobalCharacter fm)))
        exact h4
    refine ⟨hlevel, ?_⟩
    intro hmax
    rw [hlevel]
    unfold UINT32_MAX at hmax
    unfold UINT32_SIZE
    omega

/-- Witness of C22: the sample character, 100 points short of the next level, and
the same character after it has got 340 experience points. -/
theorem C22_acknowledge_growth_level_witness :
    sampleCharacter.AcknowledgeGrowth sampleGrowth sampleSkillData sampleIsFloatEqual
        = sampleCharacter
    ∧ ((experiencedCharacter.AcknowledgeGrowth sampleGrowth sampleSkillData
          sampleIsFloatEqual).experience_level
        = (experiencedCharacter.experience_level + 1) % UINT32_SIZE
      ∧ (experiencedCharacter.experience_level < UINT32_MAX →
        (experiencedCharacter.AcknowledgeGrowth sampleGrowth sampleSkillData
          sampleIsFloatEqual).experience_level = experiencedCharacter.experience_level + 1))
    ∧ experiencedCharacter.experience_for_next_level = -240
    ∧ (experiencedCharacter.AcknowledgeGrowth sampleGrowth sampleSkillData
          sampleIsFloatEqual).experience_level = 2 :=
  ⟨(C22_acknowledge_growth_level sampleGrowth sampleSkillData sampleIsFloatEqual
      sampleCharacter).1 (by decide),
   (C22_acknowledge_growth_level sampleGrowth sampleSkillData sampleIsFloatEqual
      experiencedCharacter).2 (by decide),
   by decide, by decide⟩

/-- C23: when a level-up is acknowledged with a non-zero hit point growth g,
max_hit_points grows by g, saturating at the 32-bit maximum; hit points that
are 0 stay 0, and hit points above 0 grow by g, capped at the new maximum. The
same holds for the skill points with the skill point growth. -/
theorem C23_growth_keeps_fainted (script : GrowthScript fm) (sd : SkillData)
    (IsFloatEqual : fm.F → fm.F → Bool) (c : GlobalCharacter fm)
    (hreach : c.ReachedNewExperienceLevel = true) (hopen : script.OpenFile = true)
    (hhp : c.hit_points < UINT32_SIZE) (hmhp : c.max_hit_points < UINT32_SIZE)
    (hsp : c.skill_points < UINT32_SIZE) (hmsp : c.max_skill_points < UINT32_SIZE)
    (hg : (c.levelGrowth script).hit_points_growth < UINT32_SIZE)
    (hgs : (c.levelGrowth script).skill_points_growth < UINT32_SIZE) :
    ((c.levelGrowth script).hit_points_growth ≠ 0 →
      (c.AcknowledgeGrowth script sd IsFloatEqual).max_hit_points
        = min (c.max_hit_points + (c.levelGrowth script).hit_points_growth) UINT32_MAX
      ∧ (c.hit_points = 0 → (c.AcknowledgeGrowth script sd IsFloatEqual).hit_points = 0)
      ∧ (c.hit_points > 0 → (c.AcknowledgeGrowth script sd IsFloatEqual).hit_points
          = min (c.hit_points + (c.levelGrowth script).hit_points_growth)
              (c.AcknowledgeGrowth script sd IsFloatEqual).max_hit_points))
    ∧ ((c.levelGrowth script).skill_points_growth ≠ 0 →
      (c.AcknowledgeGrowth script sd IsFloatEqual).max_skill_points
        = min (c.max_skill_points + (c.levelGrowth script).skill_points_growth) UINT32_MAX
      ∧ (c.skill_points = 0 →
          (c.AcknowledgeGrowth script sd IsFloatEqual).skill_points = 0)
      ∧ (c.skill_points > 0 → (c.AcknowledgeGrowth script sd IsFloatEqual).skill_points
          = min (c.skill_points + (c.levelGrowth script).skill_points_growth)
              (c.AcknowledgeGrowth script sd IsFloatEqual).max_skill_points)) := by
  rw [AcknowledgeGrowth_steps script sd IsFloatEqual c hreach hopen]
  have hc3 := learnNewSkills_nonLearnedPart script sd (GlobalCharacter.determineGrowth script
    ({ c with experience_level := (c.experience_level + 1) % UINT32_SIZE } :
      GlobalCharacter fm))
  generalize GlobalCharacter.learnNewSkills script sd (GlobalCharacter.determineGrowth script
    ({ c with experience_level := (c.experience_level + 1) % UINT32_SIZE } :
      GlobalCharacter fm)) = c3 at hc3 ⊢
  have e_hp : c3.hit_points = c.hit_points := congrArg (fun x => x.hit_points) hc3
  have e_mhp : c3.max_hit_points = c.max_hit_points :=
    congrArg (fun x => x.max_hit_points) hc3
  have e_sp : c3.skill_points = c.skill_points := congrArg (fun x => x.skill_points) hc3
  have e_msp : c3.max_skill_points = c.max_skill_points :=
    congrArg (fun x => x.max_skill_points) hc3
  have e_g : c3.hit_points_growth = (c.levelGrowth script).hit_points_growth :=
    congrArg (fun x => x.hit_points_growth) hc3
  have e_gs : c3.skill_points_growth = (c.levelGrowth script).skill_points_growth :=
    congrArg (fun x => x.skill_points_growth) hc3
  rw [(applyStatGrowth_fields IsFloatEqual _).2.1, (applyStatGrowth_fields IsFloatEqual _).2.2.1,
    (applyStatGrowth_fields IsFloatEqual _).2.2.2.1,
    (applyStatGrowth_fields IsFloatEqual _).2.2.2.2]
  constructor
  · intro hne
    rw [(applySkillPointsGrowth_frame _).2.1, (applySkillPointsGrowth_frame _).2.2]
    have h := applyHitPointsGrowth_spec c3 (by rw [e_g]; exact hne) (by rw [e_g]; exact hg)
      (by rw [e_hp]; exact hhp) (by rw [e_mhp]; exact hmhp)
    rw [e_hp, e_mhp, e_g] at h
    exact h
  · intro hne
    have hf := applyHitPointsGrowth_frame c3
    have h := applySkillPointsGrowth_spec c3.applyHitPointsGrowth
      (by rw [hf.2.2.2, e_gs]; exact hne) (by rw [hf.2.2.2, e_gs]; exact hgs)
      (by rw [hf.2.1, e_sp]; exact hsp) (by rw [hf.2.2.1, e_msp]; exact hmsp)
    rw [hf.2.2.2, hf.2.1, hf.2.2.1, e_sp, e_msp, e_gs] at h
    exact h

/-- Witness of C23: the fainted character, with 0 of 100 hit points and 5 of 20
skill points, gets a hit point growth of 12 and a skill point growth of 4: it
ends with 0 of 112 hit points and 9 of 24 skill points. -/
theorem C23_growth_keeps_fainted_witness :
    (faintedCharacter.hit_points = 0 ∧ faintedCharacter.max_hit_points = 100
      ∧ faintedCharacter.skill_points = 5 ∧ faintedCharacter.max_skill_points = 20
      ∧ (faintedCharacter.levelGrowth sampleGrowth).hit_points_growth = 12
      ∧ (faintedCharacter.levelGrowth sampleGrowth).skill_points_growth = 4)
    ∧ (((faintedCharacter.levelGrowth sampleGrowth).hit_points_growth ≠ 0 →
      (faintedCharacter.AcknowledgeGrowth sampleGrowth sampleSkillData
          sampleIsFloatEqual).max_hit_points
        = min (faintedCharacter.max_hit_points
            + (faintedCharacter.levelGrowth sampleGrowth).hit_points_growth) UINT32_MAX
      ∧ (faintedCharacter.hit_points = 0 → (faintedCharacter.AcknowledgeGrowth sampleGrowth
          sampleSkillData sampleIsFloatEqual).hit_points = 0)
      ∧ (faintedCharacter.hit_points > 0 → (faintedCharacter.AcknowledgeGrowth sampleGrowth
          sampleSkillData sampleIsFloatEqual).hit_points
          = min (faintedCharacter.hit_points
              + (faintedCharacter.levelGrowth sampleGrowth).hit_points_growth)
              (faintedCharacter.AcknowledgeGrowth sampleGrowth sampleSkillData
                sampleIsFloatEqual).max_hit_points))
    ∧ ((faintedCharacter.levelGrowth sampleGrowth).skill_points_growth ≠ 0 →
      (faintedCharacter.AcknowledgeGrowth sampleGrowth sampleSkillData
          sampleIsFloatEqual).max_skill_points
        = min (faintedCharacter.max_skill_points
            + (faintedCharacter.levelGrowth sampleGrowth).skill_points_growth) UINT32_MAX
      ∧ (faintedCharacter.skill_points = 0 → (faintedCharacter.AcknowledgeGrowth
          sampleGrowth sampleSkillData sampleIsFloatEqual).skill_points = 0)
      ∧ (faintedCharacter.skill_points > 0 → (faintedCharacter.AcknowledgeGrowth
          sampleGrowth sampleSkillData sampleIsFloatEqual).skill_points
          = min (faintedCharacter.skill_points
              + (faintedCharacter.levelGrowth sampleGrowth).skill_points_growth)
              (faintedCharacter.AcknowledgeGrowth sampleGrowth sampleSkillData
                sampleIsFloatEqual).max_skill_points)))
    ∧ (faintedCharacter.AcknowledgeGrowth sampleGrowth sampleSkillData
          sampleIsFloatEqual).levelAndPools = (2, 0, 112, 9, 24) :=
  ⟨by decide,
   C23_growth_keeps_fainted sampleGrowth sampleSkillData sampleIsFloatEqual faintedCharacter
     (by decide) (by decide) (by decide) (by decide) (by decide) (by decide) (by decide)
     (by decide),
   by decide⟩

end GrowthTheorems

section CacheTheorems

variable {fm : FloatModel}

/-- The defense totals that CalculateTotalDefense computes depend only on the
fortitude and protection modifiers of the attack point, on the fortitude, the
protection and the elemental modifiers of the owner, and on the armor. -/
theorem CalculateTotalDefense_congr (ap ap2 : GlobalAttackPoint fm) (o o2 : GlobalActor fm)
    (armor : Option GlobalArmor)
    (hf : ap.fortitude_modifier = ap2.fortitude_modifier)
    (hp : ap.protection_modifier = ap2.protection_modifier)
    (hof : o.fortitude = o2.fortitude) (hop : o.protection = o2.protection)
    (hoe : o.elemental_modifier = o2.elemental_modifier) :
    (ap.CalculateTotalDefense (some o) armor).total_physical_defense
      = (ap2.CalculateTotalDefense (some o2) armor).total_physical_defense
    ∧ (ap.CalculateTotalDefense (some o) armor).total_magical_defense
      = (ap2.CalculateTotalDefense (some o2) armor).total_magical_defense := by
  unfold GlobalAttackPoint.CalculateTotalDefense GlobalActor.GetFortitude
    GlobalActor.GetProtection GlobalActor.GetElementalModifier
  dsimp only
  rw [hf, hp, hof, hop, hoe]
  cases armor <;> exact ⟨rfl, rfl⟩

/-- What CalculateTotalDefense leaves as it is. -/
theorem CalculateTotalDefense_keeps (ap : GlobalAttackPoint fm)
    (owner : Option (GlobalActor fm)) (armor : Option GlobalArmor) :
    (ap.CalculateTotalDefense owner armor).fortitude_modifier = ap.fortitude_modifier
    ∧ (ap.CalculateTotalDefense owner armor).protection_modifier = ap.protection_modifier
    ∧ (ap.CalculateTotalDefense owner armor).evade_modifier = ap.evade_modifier
    ∧ (ap.CalculateTotalDefense owner armor).total_evade_rating = ap.total_evade_rating := by
  unfold GlobalAttackPoint.CalculateTotalDefense
  cases owner with
  | none => exact ⟨rfl, rfl, rfl, rfl⟩
  | some o => cases armor <;> exact ⟨rfl, rfl, rfl, rfl⟩

/-- The evade rating that CalculateTotalEvade computes depends only on the evade
modifier of the attack point and on the evade of the owner. -/
theorem CalculateTotalEvade_congr (ap ap2 : GlobalAttackPoint fm) (o o2 : GlobalActor fm)
    (he : ap.evade_modifier = ap2.evade_modifier) (hoe : o.evade = o2.evade) :
    (ap.CalculateTotalEvade (some o)).total_evade_rating
      = (ap2.CalculateTotalEvade (some o2)).total_evade_rating := by
  unfold GlobalAttackPoint.CalculateTotalEvade GlobalActor.GetEvade
  dsimp only
  rw [he, hoe]
  split_ifs <;> rfl

/-- What CalculateTotalEvade leaves as it is. -/
theorem CalculateTotalEvade_keeps (ap : GlobalAttackPoint fm)
    (owner : Option (GlobalActor fm)) :
    (ap.CalculateTotalEvade owner).fortitude_modifier = ap.fortitude_modifier
    ∧ (ap.CalculateTotalEvade owner).protection_modifier = ap.protection_modifier
    ∧ (ap.CalculateTotalEvade owner).evade_modifier = ap.evade_modifier
    ∧ (ap.CalculateTotalEvade owner).total_physical_defense = ap.total_physical_defense
    ∧ (ap.CalculateTotalEvade owner).total_magical_defense = ap.total_magical_defense := by
  unfold GlobalAttackPoint.CalculateTotalEvade
  cases owner with
  | none => exact ⟨rfl, rfl, rfl, rfl, rfl⟩
  | some o =>
    dsimp only
    split_ifs <;> exact ⟨rfl, rfl, rfl, rfl, rfl⟩

/-- Coherence of an attack point depends on the owner only through its
fortitude, protection, elemental modifiers and evade. -/
theorem Coherent_congr (ap : GlobalAttackPoint fm) (o o2 : GlobalActor fm)
    (armor : Option GlobalArmor) (ho : o.defenseInputs = o2.defenseInputs)
    (h : ap.Coherent o armor) : ap.Coherent o2 armor := by
  unfold GlobalActor.defenseInputs at ho
  simp only [Prod.mk.injEq] at ho
  obtain ⟨hof, hop, hoe, hov⟩ := ho
  obtain ⟨h1, h2, h3⟩ := h
  have hd := CalculateTotalDefense_congr ap ap o o2 armor rfl rfl hof hop hoe
  have he := CalculateTotalEvade_congr ap ap o o2 rfl hov
  exact ⟨h1.trans hd.1, h2.trans hd.2, h3.trans he⟩

/-- An attack point whose evade rating is current is coherent after
CalculateTotalDefense, with the armor given to it. -/
theorem Coherent_CalculateTotalDefense (ap : GlobalAttackPoint fm) (o o1 o2 : GlobalActor fm)
    (armor0 armor : Option GlobalArmor) (h : ap.Coherent o armor0)
    (hev : o.evade = o1.evade) (ho : o1.defenseInputs = o2.defenseInputs) :
    (ap.CalculateTotalDefense (some o1) armor).Coherent o2 armor := by
  refine Coherent_congr _ o1 o2 armor ho ?_
  obtain ⟨kf, kp, ke, kr⟩ := CalculateTotalDefense_keeps ap (some o1) armor
  have hd := CalculateTotalDefense_congr (ap.CalculateTotalDefense (some o1) armor) ap o1 o1
    armor kf kp rfl rfl rfl
  have he := CalculateTotalEvade_congr (ap.CalculateTotalDefense (some o1) armor) ap o1 o
    ke hev.symm
  exact ⟨hd.1.symm, hd.2.symm, (kr.trans h.2.2).trans he.symm⟩

/-- An attack point whose defense totals are current is coherent after
CalculateTotalEvade. -/
theorem Coherent_CalculateTotalEvade (ap : GlobalAttackPoint fm) (o o1 o2 : GlobalActor fm)
    (armor : Option GlobalArmor) (h : ap.Coherent o armor)
    (hof : o.fortitude = o1.fortitude) (hop : o.protection = o1.protection)
    (hoe : o.elemental_modifier = o1.elemental_modifier)
    (ho : o1.defenseInputs = o2.defenseInputs) :
    (ap.CalculateTotalEvade (some o1)).Coherent o2 armor := by
  refine Coherent_congr _ o1 o2 armor ho ?_
  obtain ⟨kf, kp, ke, kd, km⟩ := CalculateTotalEvade_keeps ap (some o1)
  have hd := CalculateTotalDefense_congr (ap.CalculateTotalEvade (some o1)) ap o1 o
    armor kf kp hof.symm hop.symm hoe.symm
  have he := CalculateTotalEvade_congr (ap.CalculateTotalEvade (some o1)) ap o1 o1 ke rfl
  exact ⟨(kd.trans h.1).trans hd.1.symm, (km.trans h.2.1).trans hd.2.symm, he.symm⟩

/-- The attack point of index j after the loop of _CalculateDefenseRatings. -/
theorem defenseRatingsFrom_getElem? (owner : GlobalActor fm)
    (armors : List (Option GlobalArmor)) (l : List (GlobalAttackPoint fm)) :
    ∀ i j : Nat, (GlobalCharacter.defenseRatingsFrom owner armors i l)[j]?
      = (l[j]?).map (fun ap => ap.CalculateTotalDefense (some owner)
          (armors.getD (i + j) none)) := by
  induction l with
  | nil =>
    intro i j
    simp [GlobalCharacter.defenseRatingsFrom]
  | cons ap rest ih =>
    intro i j
    cases j with
    | zero => simp [GlobalCharacter.defenseRatingsFrom]
    | succ k =>
      simp only [GlobalCharacter.defenseRatingsFrom, List.getElem?_cons_succ]
      rw [ih (i + 1) k]
      have e : i + 1 + k = i + (k + 1) := by omega
      rw [e]

/-- Cache coherence depends on the character only through the inputs of the
attack totals, the weapon, the inputs of the defense and evade totals, the
attack points and the armors. -/
theorem CacheCoherent_congr (c d : GlobalCharacter fm)
    (ha : d.toGlobalActor.attackInputs = c.toGlobalActor.attackInputs)
    (hw : d.weapon_equipped = c.weapon_equipped)
    (hd : c.toGlobalActor.defenseInputs = d.toGlobalActor.defenseInputs)
    (hap : d.attack_points = c.attack_points)
    (harm : d.armor_equipped = c.armor_equipped)
    (hc : c.CacheCoherent) : d.CacheCoherent := by
  unfold GlobalActor.attackInputs at ha
  simp only [Prod.mk.injEq] at ha
  obtain ⟨hs, hv, he, hp, hm⟩ := ha
  obtain ⟨h1, h2, h3⟩ := hc
  have hcongr := CalculateAttackRatings_congr d c hs hv he hw
  refine ⟨(hp.trans h1).trans hcongr.1.symm, (hm.trans h2).trans hcongr.2.symm, ?_⟩
  intro i ap h
  rw [hap] at h
  rw [harm]
  exact Coherent_congr ap c.toGlobalActor d.toGlobalActor _ hd (h3 i ap h)

/-- Cache coherence does not depend on the skill containers. -/
theorem CacheCoherent_nonSkillPart (c d : GlobalCharacter fm)
    (h : d.nonSkillPart = c.nonSkillPart) (hc : c.CacheCoherent) : d.CacheCoherent :=
  CacheCoherent_congr c d
    (congrArg (fun x => x.toGlobalActor.attackInputs) h)
    (congrArg (fun x => x.weapon_equipped) h)
    (congrArg (fun x => x.toGlobalActor.defenseInputs) h).symm
    (congrArg (fun x => x.attack_points) h)
    (congrArg (fun x => x.armor_equipped) h) hc

/-- A character whose attack points are coherent has coherent caches after
_CalculateAttackRatings. -/
theorem CacheCoherent_CalculateAttackRatings (c c1 : GlobalCharacter fm)
    (hd : c.toGlobalActor.defenseInputs = c1.toGlobalActor.defenseInputs)
    (hap : c1.attack_points = c.attack_points)
    (harm : c1.armor_equipped = c.armor_equipped)
    (hc : c.CacheCoherent) : c1._CalculateAttackRatings.CacheCoherent := by
  have hkeep : c1._CalculateAttackRatings.strength = c1.strength
      ∧ c1._CalculateAttackRatings.vigor = c1.vigor
      ∧ c1._CalculateAttackRatings.elemental_modifier = c1.elemental_modifier
      ∧ c1._CalculateAttackRatings.weapon_equipped = c1.weapon_equipped
      ∧ c1._CalculateAttackRatings.attack_points = c1.attack_points
      ∧ c1._CalculateAttackRatings.armor_equipped = c1.armor_equipped
      ∧ c1._CalculateAttackRatings.toGlobalActor.defenseInputs
          = c1.toGlobalActor.defenseInputs := by
    unfold GlobalCharacter._CalculateAttackRatings
    cases c1.weapon_equipped <;> exact ⟨rfl, rfl, rfl, rfl, rfl, rfl, rfl⟩
  obtain ⟨ks, kv, ke, kw, kap, karm, kd⟩ := hkeep
  have hcongr := CalculateAttackRatings_congr c1._CalculateAttackRatings c1 ks kv ke kw
  refine ⟨hcongr.1.symm, hcongr.2.symm, ?_⟩
  intro i ap h
  rw [kap, hap] at h
  rw [karm, harm]
  exact Coherent_congr ap c.toGlobalActor _ _ (hd.trans kd.symm) (hc.2.2 i ap h)

/-- A character whose attack totals and evade ratings are coherent has coherent
caches after _CalculateDefenseRatings. -/
theorem CacheCoherent_CalculateDefenseRatings (c c1 : GlobalCharacter fm)
    (ha : c1.toGlobalActor.attackInputs = c.toGlobalActor.attackInputs)
    (hw : c1.weapon_equipped = c.weapon_equipped)
    (hev : c.evade = c1.evade)
    (hap : c1.attack_points = c.attack_points)
    (hc : c.CacheCoherent) : c1._CalculateDefenseRatings.CacheCoherent := by
  unfold GlobalActor.attackInputs at ha
  simp only [Prod.mk.injEq] at ha
  obtain ⟨hs, hv, he, hp, hm⟩ := ha
  obtain ⟨h1, h2, h3⟩ := hc
  have hcongr := CalculateAttackRatings_congr c1._CalculateDefenseRatings c hs hv he hw
  refine ⟨(hp.trans h1).trans hcongr.1.symm, (hm.trans h2).trans hcongr.2.symm, ?_⟩
  intro i ap h
  have hget : c1._CalculateDefenseRatings.attack_points[i]?
      = (c.attack_points[i]?).map (fun ap => ap.CalculateTotalDefense
          (some c1.toGlobalActor) (c1.armor_equipped.getD i none)) := by
    have e0 : c1._CalculateDefenseRatings.attack_points
        = GlobalCharacter.defenseRatingsFrom c1.toGlobalActor c1.armor_equipped 0
            c1.attack_points := rfl
    rw [e0, defenseRatingsFrom_getElem?, Nat.zero_add, hap]
  rw [hget] at h
  cases hold : c.attack_points[i]? with
  | none =>
    rw [hold] at h
    cases h
  | some ap0 =>
    rw [hold] at h
    cases h
    exact Coherent_CalculateTotalDefense ap0 c.toGlobalActor c1.toGlobalActor
      c1._CalculateDefenseRatings.toGlobalActor _ _ (h3 i ap0 hold) hev rfl

/-- A character whose attack totals and defense totals are coherent has coherent
caches after _CalculateEvadeRatings of an actor that differs from it in the
evade only. -/
theorem CacheCoherent_CalculateEvadeRatings (c : GlobalCharacter fm) (a1 : GlobalActor fm)
    (ha : a1.attackInputs = c.toGlobalActor.attackInputs)
    (hof : c.fortitude = a1.fortitude) (hop : c.protection = a1.protection)
    (hoe : c.elemental_modifier = a1.elemental_modifier)
    (hap : a1.attack_points = c.attack_points)
    (hc : c.CacheCoherent) :
    (c.withActor (fun _ => a1._CalculateEvadeRatings)).CacheCoherent := by
  unfold GlobalActor.attackInputs at ha
  simp only [Prod.mk.injEq] at ha
  obtain ⟨hs, hv, he, hp, hm⟩ := ha
  obtain ⟨h1, h2, h3⟩ := hc
  have hcongr := CalculateAttackRatings_congr
    (c.withActor (fun _ => a1._CalculateEvadeRatings)) c hs hv he rfl
  refine ⟨(hp.trans h1).trans hcongr.1.symm, (hm.trans h2).trans hcongr.2.symm, ?_⟩
  intro i ap h
  have hget : (c.withActor (fun _ => a1._CalculateEvadeRatings)).attack_points[i]?
      = (c.attack_points[i]?).map (fun ap => ap.CalculateTotalEvade (some a1)) := by
    have e : (c.withActor (fun _ => a1._CalculateEvadeRatings)).attack_points
        = a1.attack_points.map (fun ap => ap.CalculateTotalEvade (some a1)) := rfl
    rw [e, List.getElem?_map, hap]
  rw [hget] at h
  cases hold : c.attack_points[i]? with
  | none =>
    rw [hold] at h
    cases h
  | some ap0 =>
    rw [hold] at h
    cases h
    exact Coherent_CalculateTotalEvade ap0 c.toGlobalActor a1
      (c.withActor (fun _ => a1._CalculateEvadeRatings)).toGlobalActor _ (h3 i ap0 hold)
      hof hop hoe rfl

/-- EquipWeapon keeps the caches coherent. -/
theorem CacheCoherent_EquipWeapon (script : StatusEffectsScript) (sd : SkillData)
    (c : GlobalCharacter fm) (weapon : Option GlobalWeapon) (hc : c.CacheCoherent) :
    (c.EquipWeapon script sd weapon).2.1.CacheCoherent := by
  have h := UpdatesAvailableSkills_nonSkillPart sd
    (({ c with weapon_equipped := weapon } : GlobalCharacter fm)._UpdateEquipmentStatusEffects
      script).1._CalculateAttackRatings
  exact CacheCoherent_nonSkillPart _ _ h
    (CacheCoherent_CalculateAttackRatings c
      (({ c with weapon_equipped := weapon } :
        GlobalCharacter fm)._UpdateEquipmentStatusEffects script).1 rfl rfl rfl hc)

/-- The armor slots other than the one that is written keep their armor. -/
theorem getD_set_ne (armors : List (Option GlobalArmor)) (armor : Option GlobalArmor)
    (index i : Nat) (h : index ≠ i) :
    (armors.set index armor).getD i none = armors.getD i none := by
  rw [List.getD_eq_getElem?_getD, List.getD_eq_getElem?_getD, List.getElem?_set_ne h]

/-- The recomputation of the defense of one attack point, with the armor of its
slot, keeps the caches coherent when the other slots keep their armor. -/
theorem CacheCoherent_calculateDefenseOfPoint (c u : GlobalCharacter fm) (index : Nat)
    (hslot : index < c.attack_points.length)
    (hact : u.toGlobalActor = c.toGlobalActor)
    (hw : u.weapon_equipped = c.weapon_equipped)
    (harm : ∀ i, index ≠ i → u.armor_equipped.getD i none = c.armor_equipped.getD i none)
    (hc : c.CacheCoherent) :
    (u.calculateDefenseOfPoint index (u.armor_equipped.getD index none)).CacheCoherent := by
  have hold : c.attack_points[index]? = some (c.attack_points.get ⟨index, hslot⟩) :=
    List.getElem?_eq_getElem hslot
  generalize c.attack_points.get ⟨index, hslot⟩ = ap0 at hold
  have hpoints : u.attack_points = c.attack_points :=
    congrArg (fun a => a.attack_points) hact
  have hfields : (u.calculateDefenseOfPoint index
        (u.armor_equipped.getD index none)).attack_points
        = c.attack_points.set index (ap0.CalculateTotalDefense (some u.toGlobalActor)
            (u.armor_equipped.getD index none))
      ∧ (u.calculateDefenseOfPoint index
          (u.armor_equipped.getD index none)).toGlobalActor.attackInputs
        = u.toGlobalActor.attackInputs
      ∧ (u.calculateDefenseOfPoint index (u.armor_equipped.getD index none)).weapon_equipped
        = u.weapon_equipped
      ∧ (u.calculateDefenseOfPoint index (u.armor_equipped.getD index none)).armor_equipped
        = u.armor_equipped
      ∧ (u.calculateDefenseOfPoint index
          (u.armor_equipped.getD index none)).toGlobalActor.defenseInputs
        = u.toGlobalActor.defenseInputs := by
    unfold GlobalCharacter.calculateDefenseOfPoint
    rw [hpoints, hold]
    exact ⟨rfl, rfl, rfl, rfl, rfl⟩
  generalize u.calculateDefenseOfPoint index (u.armor_equipped.getD index none) = y
    at hfields ⊢
  obtain ⟨yap, ya, yw, yarm, yd⟩ := hfields
  have ha : y.toGlobalActor.attackInputs = c.toGlobalActor.attackInputs := by
    rw [ya, hact]
  have hd : c.toGlobalActor.defenseInputs = y.toGlobalActor.defenseInputs := by
    rw [yd, hact]
  unfold GlobalActor.attackInputs at ha
  simp only [Prod.mk.injEq] at ha
  obtain ⟨hs, hv, he, hp, hm⟩ := ha
  obtain ⟨h1, h2, h3⟩ := hc
  have hcongr := CalculateAttackRatings_congr y c hs hv he (yw.trans hw)
  refine ⟨(hp.trans h1).trans hcongr.1.symm, (hm.trans h2).trans hcongr.2.symm, ?_⟩
  intro i ap h
  rw [yap] at h
  rw [yarm]
  by_cases hi : index = i
  · subst hi
    rw [List.getElem?_set_self hslot] at h
    cases h
    refine Coherent_CalculateTotalDefense ap0 c.toGlobalActor u.toGlobalActor
      y.toGlobalActor _ _ (h3 index ap0 hold) ?_ ?_
    · rw [hact]
    · rw [yd]
  · rw [List.getElem?_set_ne hi] at h
    rw [harm i hi]
    exact Coherent_congr ap c.toGlobalActor y.toGlobalActor _ hd (h3 i ap h)

/-- Function _EquipArmor keeps the caches coherent when the index is the one of
an armor slot and of an attack point. -/
theorem CacheCoherent_EquipArmor (script : StatusEffectsScript) (sd : SkillData)
    (c : GlobalCharacter fm) (armor : Option GlobalArmor) (index : Nat)
    (hindex : index < c.armor_equipped.length) (hslot : index < c.attack_points.length)
    (hc : c.CacheCoherent) :
    (c._EquipArmor script sd armor index).2.1.CacheCoherent := by
  unfold GlobalCharacter._EquipArmor
  rw [if_neg (Nat.not_le.mpr hindex)]
  dsimp only
  refine CacheCoherent_nonSkillPart _ _ (UpdatesAvailableSkills_nonSkillPart sd _) ?_
  exact CacheCoherent_calculateDefenseOfPoint c _ index hslot rfl rfl
    (fun i hi => getD_set_ne c.armor_equipped armor index i hi) hc

/-- C25: cache coherence is an invariant of a character: when the attack totals
are those of _CalculateAttackRatings on the current strength, vigor and weapon,
and the cached defense and evade of every attack point are those of
CalculateTotalDefense and CalculateTotalEvade on the current fortitude,
protection, evade and the armor of its slot, the same holds after each of
AddStrength, SubtractStrength, AddVigor, SubtractVigor, AddFortitude,
SubtractFortitude, AddProtection, SubtractProtection, AddAgility,
SubtractAgility, AddEvade, SubtractEvade, EquipWeapon and _EquipArmor with the
index of an armor slot that has an attack point.  The status effect handler
does not write to the character.  The number of attack points is any, 4 in
particular. -/
theorem C25_cache_coherence (script : StatusEffectsScript) (sd : SkillData)
    (c : GlobalCharacter fm) (amount : Nat) (evade_amount : fm.F)
    (weapon : Option GlobalWeapon) (armor : Option GlobalArmor) (index : Nat)
    (hindex : index < c.armor_equipped.length) (hslot : index < c.attack_points.length)
    (hc : c.CacheCoherent) :
    (c.AddStrength amount).CacheCoherent ∧ (c.SubtractStrength amount).CacheCoherent
    ∧ (c.AddVigor amount).CacheCoherent ∧ (c.SubtractVigor amount).CacheCoherent
    ∧ (c.AddFortitude amount).CacheCoherent ∧ (c.SubtractFortitude amount).CacheCoherent
    ∧ (c.AddProtection amount).CacheCoherent ∧ (c.SubtractProtection amount).CacheCoherent
    ∧ (c.AddAgility amount).CacheCoherent ∧ (c.SubtractAgility amount).CacheCoherent
    ∧ (c.AddEvade evade_amount).CacheCoherent ∧ (c.SubtractEvade evade_amount).CacheCoherent
    ∧ (c.EquipWeapon script sd weapon).2.1.CacheCoherent
    ∧ (c._EquipArmor script sd armor index).2.1.CacheCoherent := by
  refine ⟨?_, ?_, ?_, ?_, ?_, ?_, ?_, ?_, ?_, ?_, ?_, ?_, ?_, ?_⟩
  · exact CacheCoherent_CalculateAttackRatings c _ rfl rfl rfl hc
  · exact CacheCoherent_CalculateAttackRatings c _ rfl rfl rfl hc
  · exact CacheCoherent_CalculateAttackRatings c _ rfl rfl rfl hc
  · exact CacheCoherent_CalculateAttackRatings c _ rfl rfl rfl hc
  · exact CacheCoherent_CalculateDefenseRatings c _ rfl rfl rfl rfl hc
  · exact CacheCoherent_CalculateDefenseRatings c _ rfl rfl rfl rfl hc
  · exact CacheCoherent_CalculateDefenseRatings c _ rfl rfl rfl rfl hc
  · exact CacheCoherent_CalculateDefenseRatings c _ rfl rfl rfl rfl hc
  · exact CacheCoherent_congr c _ rfl rfl rfl rfl rfl hc
  · exact CacheCoherent_congr c _ rfl rfl rfl rfl rfl hc
  · exact CacheCoherent_CalculateEvadeRatings c _ rfl rfl rfl rfl rfl hc
  · exact CacheCoherent_CalculateEvadeRatings c _ rfl rfl rfl rfl rfl hc
  · exact CacheCoherent_EquipWeapon script sd c weapon hc
  · exact CacheCoherent_EquipArmor script sd c armor index hindex hslot hc

/-- Witness of C25: the sample character, whose four attack points cache the
defense 50, the magical defenses 30 and the evade 0 of its fortitude 50,
protection 30 and evade 0, with the amount 3, the sample weapon and the sample
armor for the slot 2. -/
theorem C25_cache_coherence_witness :
    sampleCharacter.CacheCoherent
    ∧ ((sampleCharacter.AddStrength 3).CacheCoherent
      ∧ (sampleCharacter.SubtractStrength 3).CacheCoherent
      ∧ (sampleCharacter.AddVigor 3).CacheCoherent
      ∧ (sampleCharacter.SubtractVigor 3).CacheCoherent
      ∧ (sampleCharacter.AddFortitude 3).CacheCoherent
      ∧ (sampleCharacter.SubtractFortitude 3).CacheCoherent
      ∧ (sampleCharacter.AddProtection 3).CacheCoherent
      ∧ (sampleCharacter.SubtractProtection 3).CacheCoherent
      ∧ (sampleCharacter.AddAgility 3).CacheCoherent
      ∧ (sampleCharacter.SubtractAgility 3).CacheCoherent
      ∧ (sampleCharacter.AddEvade 1).CacheCoherent
      ∧ (sampleCharacter.SubtractEvade 1).CacheCoherent
      ∧ (sampleCharacter.EquipWeapon sampleScript sampleSkillData
          (some sampleWeapon)).2.1.CacheCoherent
      ∧ (sampleCharacter._EquipArmor sampleScript sampleSkillData
          (some sampleArmor) 2).2.1.CacheCoherent)
    ∧ (sampleCharacter.AddFortitude 3).attack_points.map
        (fun ap => ap.total_physical_defense) = [53, 53, 53, 53]
    ∧ (sampleCharacter._EquipArmor sampleScript sampleSkillData
        (some sampleArmor) 2).2.1.attack_points.map
          (fun ap => ap.total_physical_defense) = [50, 50, 70, 50]
    ∧ (sampleCharacter.EquipWeapon sampleScript sampleSkillData
        (some sampleWeapon)).2.1.total_physical_attack = 15 := by
  have hc : sampleCharacter.CacheCoherent := by
    refine ⟨by decide, by decide, ?_⟩
    intro i ap h
    have hmem : ap ∈ sampleCharacter.attack_points := List.getElem?_mem h
    have hap : ap = plainAttackPoint := by
      have e : sampleCharacter.attack_points
          = [plainAttackPoint, plainAttackPoint, plainAttackPoint, plainAttackPoint] := rfl
      rw [e] at hmem
      simpa using hmem
    have harm : sampleCharacter.armor_equipped.getD i none = none := by
      have e : sampleCharacter.armor_equipped = [none, none, none, none] := rfl
      rw [e]
      match i with
      | 0 | 1 | 2 | 3 => rfl
      | k + 4 => rfl
    rw [hap, harm]
    unfold GlobalAttackPoint.Coherent
    decide
  exact ⟨hc, C25_cache_coherence sampleScript sampleSkillData sampleCharacter 3 1
    (some sampleWeapon) (some sampleArmor) 2 (by decide) (by decide) hc, by decide,
    by decide, by decide⟩

end CacheTheorems

end ValyriaTear
